import Mathlib

/-!
Verification of the Lotería board generator (`loteria_generator.py`).

The embedding models the module constants, `create_master_pool` and
`generate_boards` from the source.  Randomness (`random.shuffle`) is made
explicit: a generator is a function `g : σ → List α → List α × σ` threading a
state `σ`, called once per board exactly where the source calls
`random.shuffle`.  A Python `Counter` is modelled as an insertion-ordered
association list with integer counts (`List (α × Int)`): `Counter(iterable)`
counts with keys in first-encounter order, `available[item] -= 1` updates an
existing key in place (and would append a `-1` entry for a missing key),
`del available[item]` removes the key, and `elements()` repeats each key
`count` times in key order, skipping non-positive counts.  The `try/except`
wrapping each attempt is modelled by an `Except String` channel in the result
of one attempt; the body of the attempt is total, so the concrete attempt
never produces an exception, but the loop handles the channel exactly as the
source's `except Exception: continue` does.
-/

namespace Loteria

/-- The 36 items for the Lotería game (module constant `ITEMS`). -/
def ITEMS : List String := [
  "01 PATACÓN DE GUINEO VERDE", "02 ALEGRÍA DE COCO Y ANÍS", "03 BOLLO DE MAÍZ",
  "04 CABALLITO DE PAPAYA", "05 SANCOCHO DE PESCADO", "06 MAZAMORRA DE GUINEO",
  "07 COCADA DE PANELA Y COCO", "08 MOJARRA FRITA", "09 TINAJERO",
  "10 PIEDRA DE FILTRAR", "11 TINAJA DE BARRO", "12 PONCHERA",
  "13 MECEDORA DE MIMBRE", "14 FOGÓN DE LEÑA", "15 TOTUMA Y CUCHARA DE PALO",
  "16 MANTEL DE HULE", "17 ESTACIÓN DEL FERROCARRIL", "18 TRANVÍA DE BARRANQUILLA",
  "19 EL VAPOR DAVID ARANGO", "20 ROBLE MORADO EN FLOR", "21 MANGLARES DE LA CIÉNAGA",
  "22 BOSQUE SECO TROPICAL", "23 BOCAS DE CENIZA", "24 CALLES DE BARRIO ABAJO",
  "25 LA MARIMONDA", "26 LA PALENQUERA", "27 VENDEDOR DE AGUACATES",
  "28 LA NOVIA DE BARRANQUILLA", "29 ALEJANDRO OBREGÓN", "30 ENRIQUE GRAU",
  "31 PESCADOR DE ATARRAYA", "32 AZAFATE", "33 AJIACO SANTAFEREÑO",
  "34 TRANVÍA DE BOGOTÁ", "35 OLLETA Y MOLINILLO", "36 TAMAL SANTAFEREÑO"]

/-- `NUM_BOARDS = 15`. -/
def NUM_BOARDS : Nat := 15

/-- `BOARD_SIZE = 16` (4x4 grid). -/
def BOARD_SIZE : Nat := 16

/-- `FIRST_24_FREQUENCY = 7`: items 0-23 appear 7 times. -/
def FIRST_24_FREQUENCY : Nat := 7

/-- `LAST_12_FREQUENCY = 6`: items 24-35 appear 6 times. -/
def LAST_12_FREQUENCY : Nat := 6

/-- `create_master_pool`: first 24 items 7 times each, last 12 items 6 times
each, appended in catalogue order. -/
def create_master_pool : List String :=
  (ITEMS.take 24).flatMap (fun item => List.replicate FIRST_24_FREQUENCY item) ++
  (ITEMS.drop 24).flatMap (fun item => List.replicate LAST_12_FREQUENCY item)

variable {α : Type} [DecidableEq α] {σ : Type}

/-- One counting step of `Counter(iterable)`: increment an existing key in
place, else append the key with count 1 (Python dicts keep insertion order). -/
def counterAdd (av : List (α × Int)) (x : α) : List (α × Int) :=
  if av.any (fun p => p.1 = x) then
    av.map (fun p => if p.1 = x then (p.1, p.2 + 1) else p)
  else av ++ [(x, 1)]

/-- `Counter(master_pool)`: counts with keys in first-encounter order. -/
def mkCounter (l : List α) : List (α × Int) := l.foldl counterAdd []

/-- `available[item]` on a `Counter`: 0 for a missing key. -/
def counterGet (av : List (α × Int)) (x : α) : Int :=
  match av.find? (fun p => p.1 = x) with
  | some p => p.2
  | none => 0

/-- `available.elements()`: each key repeated `count` times, in key order,
skipping non-positive counts. -/
def elements (av : List (α × Int)) : List α :=
  av.flatMap (fun p => List.replicate p.2.toNat p.1)

/-- `available[item] -= 1`: decrement an existing key in place; for a missing
key Python would store `-1` at the end. -/
def counterDecr (av : List (α × Int)) (x : α) : List (α × Int) :=
  if av.any (fun p => p.1 = x) then
    av.map (fun p => if p.1 = x then (p.1, p.2 - 1) else p)
  else av ++ [(x, -1)]

/-- `del available[item]`. -/
def counterDel (av : List (α × Int)) (x : α) : List (α × Int) :=
  av.filter (fun p => ¬ p.1 = x)

/-- Lines 82-85 of the source: `available[item] -= 1`, then
`if available[item] == 0: del available[item]`. -/
def consumeItem (av : List (α × Int)) (x : α) : List (α × Int) :=
  let av' := counterDecr av x
  if counterGet av' x = 0 then counterDel av' x else av'

/-- The loop state of lines 70-85: the board list, the `board_items` set
(modelled by a list used only through membership), and the `available`
counter. -/
structure FillState (α : Type) where
  board : List α
  board_items : List α
  available : List (α × Int)
  deriving DecidableEq

/-- Lines 78-85, the body of `for item in available_items`: accept `item` if
it is not in `board_items` and the board is not yet full; on acceptance
append it, record it, and consume it from `available`. -/
def fillStep (st : FillState α) (item : α) : FillState α :=
  if item ∉ st.board_items ∧ st.board.length < BOARD_SIZE then
    { board := st.board ++ [item]
      board_items := item :: st.board_items
      available := consumeItem st.available item }
  else st

/-- The whole scan over the shuffled sequence for one board (lines 70-85). -/
def fillBoard (av : List (α × Int)) (shuffled : List α) : FillState α :=
  shuffled.foldl fillStep { board := [], board_items := [], available := av }

/-- Lines 69-92, `for board_num in range(NUM_BOARDS)`: materialize
`available.elements()`, shuffle it (one generator call), scan it, break if the
board is short, else append the board and continue. -/
def buildLoop (g : σ → List α → List α × σ) :
    Nat → List (α × Int) → List (List α) → σ → List (List α) × σ
  | 0, _, boards, s => (boards, s)
  | Nat.succ n, available, boards, s =>
    match g s (elements available) with
    | (shuffled, s') =>
      let st := fillBoard available shuffled
      if st.board.length ≠ BOARD_SIZE then (boards, s')
      else buildLoop g n st.available (boards ++ [st.board]) s'

/-- One attempt (lines 63-96): a fresh `Counter(master_pool)`, the board loop,
and the success check `len(boards) == NUM_BOARDS`.  The `Except String` layer
is the exception channel of the `try` block; the body is total, so the
concrete attempt always returns `Except.ok`. -/
def tryAttempt (g : σ → List α → List α × σ) (master_pool : List α) (s : σ) :
    Except String (Option (List (List α))) × σ :=
  let available := mkCounter master_pool
  match buildLoop g NUM_BOARDS available [] s with
  | (boards, s') =>
    (Except.ok (if boards.length = NUM_BOARDS then some boards else none), s')

/-- Lines 62-102, `for attempt in range(max_attempts)` with
`except Exception: continue`: a returned board list stops the loop, an
attempt that completes without returning or raises is retried, and an
exhausted budget raises `RuntimeError` carrying `max_attempts` (modelled by
`Except.error total`). -/
def genLoop (att : σ → Except String (Option (List (List α))) × σ) (total : Nat) :
    Nat → σ → Except Nat (List (List α)) × σ
  | 0, s => (Except.error total, s)
  | Nat.succ k, s =>
    match att s with
    | (Except.ok (some boards), s') => (Except.ok boards, s')
    | (Except.ok none, s') => genLoop att total k s'
    | (Except.error _, s') => genLoop att total k s'

/-- `generate_boards(master_pool, max_attempts)` with the randomness state
made explicit: the final state is the state of the process-wide generator
after the call. -/
def generate_boards (g : σ → List α → List α × σ) (master_pool : List α)
    (max_attempts : Nat) (s : σ) : Except Nat (List (List α)) × σ :=
  genLoop (tryAttempt g master_pool) max_attempts max_attempts s

/-! ### Derived notions used to state the claims -/

/-- The keys of a counter are pairwise distinct (true of every Python dict). -/
def keysNodup (av : List (α × Int)) : Prop := (av.map Prod.fst).Nodup

/-- Every stored count is at least 1 (`Counter` state kept by the generator:
keys are deleted as soon as their count reaches 0). -/
def posVals (av : List (α × Int)) : Prop := ∀ p ∈ av, 1 ≤ p.2

/-- Did one attempt return a board list? -/
def attemptIsSuccess (r : Except String (Option (List (List α)))) : Bool :=
  match r with
  | Except.ok (some _) => true
  | _ => false

/-- The generator state at the start of attempt `k`, assuming all earlier
attempts failed (each failed attempt advances the state). -/
def failTrail (att : σ → Except String (Option (List (List α))) × σ) (s : σ) :
    Nat → σ
  | 0 => s
  | Nat.succ k => (att (failTrail att s k)).2

/-- Decidable form of the conservation property of a result on the reference
pool: a returned list has 15 boards whose flattened per-item counts are 7 for
the first 24 catalogue items and 6 for the last 12. -/
def conservationCheck (r : Except Nat (List (List String))) : Bool :=
  match r with
  | Except.error _ => true
  | Except.ok bs =>
    bs.length == NUM_BOARDS &&
    (ITEMS.take 24).all (fun a => bs.flatten.count a == FIRST_24_FREQUENCY) &&
    (ITEMS.drop 24).all (fun a => bs.flatten.count a == LAST_12_FREQUENCY)

/-- Decidable form of intra-board uniqueness of a result: every returned
board has exactly 16 pairwise distinct items. -/
def intraBoardCheck (r : Except Nat (List (List α))) : Bool :=
  match r with
  | Except.error _ => true
  | Except.ok bs => bs.all (fun b => b.length == BOARD_SIZE && b.dedup.length == b.length)

/-- Decidable form of the all-or-nothing property of a result: a returned
list has exactly 15 boards and every board exactly 16 items. -/
def allOrNothingCheck (r : Except Nat (List (List α))) : Bool :=
  match r with
  | Except.error _ => true
  | Except.ok bs => bs.length == NUM_BOARDS && bs.all (fun b => b.length == BOARD_SIZE)

/-- TEST 3 of `run_tests` (lines 223-225): the board list passes when the
boards' item sets (`frozenset(board)`) are pairwise distinct. -/
def test3Check (boards : List (List α)) : Bool :=
  (boards.map (fun b => b.toFinset)).dedup.length == (boards.map (fun b => b.toFinset)).length

/-- Modelled from the spec, step 4.2.b: the board fill described by the spec
keeps only the board and the count map, scans the shuffled sequence left to
right and accepts a token exactly when the board is not yet full and the
token's value is not already present in the board, decrementing the count on
acceptance. -/
def fillStepSpec (st : List α × List (α × Int)) (item : α) : List α × List (α × Int) :=
  if st.1.length < BOARD_SIZE ∧ item ∉ st.1 then (st.1 ++ [item], consumeItem st.2 item)
  else st

/-- Modelled from the spec: the whole spec-level scan for one board. -/
def fillBoardSpec (av : List (α × Int)) (shuffled : List α) : List α × List (α × Int) :=
  shuffled.foldl fillStepSpec ([], av)

/-- Invariant tying the scan state of one board to the counter `av0` the board
started from: the `board_items` set mirrors the board, the board has no
duplicates, the counter keeps distinct keys and positive counts, and the
counter differs from `av0` exactly by the items already placed. -/
structure FillInv (av0 : List (α × Int)) (st : FillState α) : Prop where
  items_iff : ∀ y, y ∈ st.board_items ↔ y ∈ st.board
  nodup : st.board.Nodup
  keys_nodup : keysNodup st.available
  pos : posVals st.available
  get_eq : ∀ y, counterGet st.available y = counterGet av0 y - (st.board.count y : Int)
  len_eq : (elements st.available).length + st.board.length = (elements av0).length

/-! ### Concrete generators and pools used as inputs of witness runs -/

/-- A deterministic "shuffle" that leaves the sequence unchanged and counts
its calls: a legitimate permutation outcome of `random.shuffle`. -/
def idG : Nat → List Nat → List Nat × Nat := fun s l => (l, s + 1)

/-- A 10-token pool (10 distinct items once each): far too small to fill one
16-cell board, so every attempt fails. -/
def pool10 : List Nat := List.range 10

/-- An attempt body that always raises (models an exception escaping the
`try` block). -/
def raisingAtt : Nat → Except String (Option (List (List Nat))) × Nat :=
  fun s => (Except.error "boom", s + 1)

/-- Move the given tokens (those that occur) to the front of a sequence; the
result is always a permutation of the input. -/
def promote : List α → List α → List α
  | [], l => l
  | x :: xs, l => if x ∈ l then x :: promote xs (l.erase x) else promote xs l

/-- Index form of a full 15-board allocation plan for the reference pool in
which the first two boards are identical (catalogue items 0-15 twice); the
remaining 13 boards are cut from five 0-35 cycles followed by items 16-23,
24-35, 16-23, which uses up the remaining pool exactly. -/
def cexChunksIdx : List (List Nat) :=
  [List.range 16, List.range 16] ++
  (List.range 13).map (fun k =>
    ((((List.range 180).map (fun p => p % 36)) ++
      ((List.range 8).map (fun i => 16 + i) ++ (List.range 12).map (fun i => 24 + i) ++
       (List.range 8).map (fun i => 16 + i))).drop (16 * k)).take 16)

/-- The same plan as catalogue items. -/
def cexChunks : List (List String) :=
  cexChunksIdx.map (fun c => c.map (fun i => ITEMS.getD i ""))

/-- A deterministic shuffle schedule whose `n`-th call brings the `n`-th
planned board to the front of the sequence; each call produces a permutation
of its input, so it is a legitimate outcome of `random.shuffle`. -/
def scriptG : Nat → List String → List String × Nat :=
  fun n l => (promote (cexChunks.getD n []) l, n + 1)

/-- Writes a list of catalogue items by their indices (keeps the recorded
intermediate states of the scripted run compact). -/
def idxList (l : List Nat) : List String := l.map (fun i => ITEMS.getD i "")

/-- Writes a counter over catalogue items by their indices. -/
def idxCounter (l : List (Nat × Int)) : List (String × Int) :=
  l.map (fun p => (ITEMS.getD p.1 "", p.2))

/-- Expands run-length pairs (value, multiplicity) into the index list they
denote; keeps the recorded intermediate states of the scripted run compact. -/
def rle (l : List (Nat × Nat)) : List Nat :=
  l.flatMap (fun p => List.replicate p.2 p.1)

/-! ### Basic counter lemmas -/

theorem counterGet_nil (x : α) : counterGet ([] : List (α × Int)) x = 0 := rfl

theorem counterGet_cons (p : α × Int) (av : List (α × Int)) (x : α) :
    counterGet (p :: av) x = if p.1 = x then p.2 else counterGet av x := by
  by_cases h : p.1 = x <;> simp [counterGet, List.find?_cons, h]

theorem counterGet_append_singleton_ne (av : List (α × Int)) (x y : α) (c : Int)
    (h : y ≠ x) : counterGet (av ++ [(x, c)]) y = counterGet av y := by
  induction av with
  | nil =>
    rw [List.nil_append, counterGet_cons, counterGet_nil, if_neg (fun h' => h h'.symm)]
  | cons p t ih => rw [List.cons_append, counterGet_cons, counterGet_cons, ih]

theorem counterAdd_cons_ne (p : α × Int) (t : List (α × Int)) (x : α)
    (hp : ¬ p.1 = x) : counterAdd (p :: t) x = p :: counterAdd t x := by
  by_cases ht : t.any (fun q => q.1 = x) = true
  · simp [counterAdd, hp, ht]
  · simp [counterAdd, hp, ht]

theorem counterAdd_cons_eq (p : α × Int) (t : List (α × Int)) (x : α)
    (hp : p.1 = x) :
    counterAdd (p :: t) x =
      (p.1, p.2 + 1) :: t.map (fun q => if q.1 = x then (q.1, q.2 + 1) else q) := by
  simp [counterAdd, hp]

theorem counterGet_counterAdd_self (av : List (α × Int)) (x : α) :
    counterGet (counterAdd av x) x = counterGet av x + 1 := by
  induction av with
  | nil => simp [counterAdd, counterGet_nil, counterGet_cons]
  | cons p t ih =>
    by_cases hp : p.1 = x
    · rw [counterAdd_cons_eq p t x hp, counterGet_cons, counterGet_cons, if_pos hp, if_pos hp]
    · rw [counterAdd_cons_ne p t x hp, counterGet_cons, counterGet_cons, if_neg hp, if_neg hp, ih]

theorem counterGet_map_ne (av : List (α × Int)) (f : α × Int → Int) (x y : α)
    (h : y ≠ x) :
    counterGet (av.map fun p => if p.1 = x then (p.1, f p) else p) y = counterGet av y := by
  induction av with
  | nil => rfl
  | cons p t ih =>
    by_cases hp : p.1 = x
    · rw [List.map_cons, if_pos hp, counterGet_cons, counterGet_cons]
      have hpy : ¬ p.1 = y := by rw [hp]; exact fun h' => h h'.symm
      rw [if_neg hpy, if_neg hpy, ih]
    · rw [List.map_cons, if_neg hp, counterGet_cons, counterGet_cons]
      by_cases hpy : p.1 = y
      · rw [if_pos hpy, if_pos hpy]
      · rw [if_neg hpy, if_neg hpy, ih]

theorem counterGet_counterAdd_ne (av : List (α × Int)) (x y : α) (h : y ≠ x) :
    counterGet (counterAdd av x) y = counterGet av y := by
  unfold counterAdd
  by_cases hc : av.any (fun p => p.1 = x)
  · rw [if_pos hc]; exact counterGet_map_ne av (fun p => p.2 + 1) x y h
  · rw [if_neg hc]; exact counterGet_append_singleton_ne av x y 1 h

theorem counterDecr_cons_ne (p : α × Int) (t : List (α × Int)) (x : α)
    (hp : ¬ p.1 = x) : counterDecr (p :: t) x = p :: counterDecr t x := by
  by_cases ht : t.any (fun q => q.1 = x) = true
  · simp [counterDecr, hp, ht]
  · simp [counterDecr, hp, ht]

theorem counterDecr_cons_eq (p : α × Int) (t : List (α × Int)) (x : α)
    (hp : p.1 = x) :
    counterDecr (p :: t) x =
      (p.1, p.2 - 1) :: t.map (fun q => if q.1 = x then (q.1, q.2 - 1) else q) := by
  simp [counterDecr, hp]

theorem counterGet_counterDecr_self (av : List (α × Int)) (x : α) :
    counterGet (counterDecr av x) x = counterGet av x - 1 := by
  induction av with
  | nil => simp [counterDecr, counterGet_nil, counterGet_cons]
  | cons p t ih =>
    by_cases hp : p.1 = x
    · rw [counterDecr_cons_eq p t x hp, counterGet_cons, counterGet_cons, if_pos hp, if_pos hp]
    · rw [counterDecr_cons_ne p t x hp, counterGet_cons, counterGet_cons, if_neg hp, if_neg hp, ih]

theorem counterGet_counterDecr_ne (av : List (α × Int)) (x y : α) (h : y ≠ x) :
    counterGet (counterDecr av x) y = counterGet av y := by
  unfold counterDecr
  by_cases hc : av.any (fun p => p.1 = x)
  · rw [if_pos hc]; exact counterGet_map_ne av (fun p => p.2 - 1) x y h
  · rw [if_neg hc]; exact counterGet_append_singleton_ne av x y (-1) h

theorem counterDel_cons_eq (p : α × Int) (t : List (α × Int)) (x : α)
    (hp : p.1 = x) : counterDel (p :: t) x = counterDel t x := by
  simp [counterDel, List.filter_cons, hp]

theorem counterDel_cons_ne (p : α × Int) (t : List (α × Int)) (x : α)
    (hp : ¬ p.1 = x) : counterDel (p :: t) x = p :: counterDel t x := by
  simp [counterDel, List.filter_cons, hp]

theorem counterGet_counterDel_self (av : List (α × Int)) (x : α) :
    counterGet (counterDel av x) x = 0 := by
  induction av with
  | nil => rfl
  | cons p t ih =>
    by_cases hp : p.1 = x
    · rw [counterDel_cons_eq p t x hp, ih]
    · rw [counterDel_cons_ne p t x hp, counterGet_cons, if_neg hp, ih]

theorem counterGet_counterDel_ne (av : List (α × Int)) (x y : α) (h : y ≠ x) :
    counterGet (counterDel av x) y = counterGet av y := by
  induction av with
  | nil => rfl
  | cons p t ih =>
    by_cases hp : p.1 = x
    · have hpy : ¬ p.1 = y := by rw [hp]; exact fun h' => h h'.symm
      rw [counterDel_cons_eq p t x hp, counterGet_cons, if_neg hpy, ih]
    · rw [counterDel_cons_ne p t x hp, counterGet_cons, counterGet_cons, ih]

theorem counterGet_consumeItem_self (av : List (α × Int)) (x : α) :
    counterGet (consumeItem av x) x = counterGet av x - 1 := by
  unfold consumeItem
  by_cases h0 : counterGet (counterDecr av x) x = 0
  · rw [if_pos h0, counterGet_counterDel_self, ← counterGet_counterDecr_self av x, h0]
  · rw [if_neg h0, counterGet_counterDecr_self]

theorem counterGet_consumeItem_ne (av : List (α × Int)) (x y : α) (h : y ≠ x) :
    counterGet (consumeItem av x) y = counterGet av y := by
  unfold consumeItem
  by_cases h0 : counterGet (counterDecr av x) x = 0
  · rw [if_pos h0, counterGet_counterDel_ne _ _ _ h, counterGet_counterDecr_ne _ _ _ h]
  · rw [if_neg h0, counterGet_counterDecr_ne _ _ _ h]

theorem counterGet_mkCounter (l : List α) (y : α) :
    counterGet (mkCounter l) y = (l.count y : Int) := by
  have main : ∀ (l : List α) (av : List (α × Int)),
      counterGet (l.foldl counterAdd av) y = counterGet av y + (l.count y : Int) := by
    intro l
    induction l with
    | nil => intro av; simp
    | cons a t ih =>
      intro av
      rw [List.foldl_cons, ih, List.count_cons]
      by_cases ha : a = y
      · subst ha
        rw [counterGet_counterAdd_self, if_pos (by simp)]
        push_cast
        ring
      · rw [counterGet_counterAdd_ne av a y (Ne.symm ha), if_neg (by simp [ha])]
        push_cast
        ring
  unfold mkCounter
  have h := main l []
  rwa [counterGet_nil, zero_add] at h

/-! ### Keys and positivity invariants of the counter -/

theorem counterGet_eq_zero_of_not_mem_keys (av : List (α × Int)) (x : α)
    (h : x ∉ av.map Prod.fst) : counterGet av x = 0 := by
  induction av with
  | nil => rfl
  | cons p t ih =>
    simp only [List.map_cons, List.mem_cons, not_or] at h
    rw [counterGet_cons, if_neg (fun h' => h.1 h'.symm), ih h.2]

theorem keys_counterAdd_of_any (av : List (α × Int)) (x : α)
    (hc : av.any (fun p => p.1 = x) = true) :
    (counterAdd av x).map Prod.fst = av.map Prod.fst := by
  unfold counterAdd
  rw [if_pos hc, List.map_map]
  exact List.map_congr_left (fun p _ => by by_cases hp : p.1 = x <;> simp [hp])

theorem keys_counterAdd_of_not_any (av : List (α × Int)) (x : α)
    (hc : av.any (fun p => p.1 = x) = false) :
    (counterAdd av x).map Prod.fst = av.map Prod.fst ++ [x] := by
  unfold counterAdd
  rw [hc]
  simp

theorem not_mem_keys_of_not_any (av : List (α × Int)) (x : α)
    (hc : av.any (fun p => p.1 = x) = false) : x ∉ av.map Prod.fst := by
  intro hmem
  rcases List.mem_map.mp hmem with ⟨p, hp, he⟩
  rw [List.any_eq_false] at hc
  have hne : ¬ p.1 = x := by simpa using hc p hp
  exact hne he

theorem keysNodup_counterAdd (av : List (α × Int)) (x : α)
    (h : keysNodup av) : keysNodup (counterAdd av x) := by
  unfold keysNodup at h ⊢
  cases hc : av.any (fun p => p.1 = x) with
  | true => rwa [keys_counterAdd_of_any av x hc]
  | false =>
    rw [keys_counterAdd_of_not_any av x hc]
    have hx := not_mem_keys_of_not_any av x hc
    simp [List.nodup_append, h, hx]

theorem posVals_counterAdd (av : List (α × Int)) (x : α)
    (h : posVals av) : posVals (counterAdd av x) := by
  intro p hp
  unfold counterAdd at hp
  by_cases hc : av.any (fun q => q.1 = x) = true
  · rw [if_pos hc] at hp
    rcases List.mem_map.mp hp with ⟨q, hq, he⟩
    by_cases hqx : q.1 = x
    · rw [if_pos hqx] at he
      have hq2 := h q hq
      rw [← he]
      dsimp only
      omega
    · rw [if_neg hqx] at he
      exact he ▸ h q hq
  · rw [if_neg hc] at hp
    rcases List.mem_append.mp hp with hin | hin
    · exact h p hin
    · simp only [List.mem_singleton] at hin
      simp [hin]

theorem keysNodup_mkCounter (l : List α) : keysNodup (mkCounter l) := by
  have main : ∀ (l : List α) (av : List (α × Int)),
      keysNodup av → keysNodup (l.foldl counterAdd av) := by
    intro l
    induction l with
    | nil => intro av h; exact h
    | cons a t ih => intro av h; exact ih (counterAdd av a) (keysNodup_counterAdd av a h)
  exact main l [] (by simp [keysNodup])

theorem posVals_mkCounter (l : List α) : posVals (mkCounter l) := by
  have main : ∀ (l : List α) (av : List (α × Int)),
      posVals av → posVals (l.foldl counterAdd av) := by
    intro l
    induction l with
    | nil => intro av h; exact h
    | cons a t ih => intro av h; exact ih (counterAdd av a) (posVals_counterAdd av a h)
  exact main l [] (by intro p hp; simp at hp)

theorem entry_val_eq_counterGet (av : List (α × Int)) (q : α × Int)
    (h : keysNodup av) (hq : q ∈ av) : q.2 = counterGet av q.1 := by
  induction av with
  | nil => simp at hq
  | cons p t ih =>
    have h' : (p.1 :: t.map Prod.fst).Nodup := by
      unfold keysNodup at h
      simpa only [List.map_cons] using h
    rcases List.mem_cons.mp hq with he | ht
    · rw [he, counterGet_cons, if_pos rfl]
    · have hkey : p.1 ∉ t.map Prod.fst := (List.nodup_cons.mp h').1
      have hne : ¬ p.1 = q.1 := fun he' => hkey (he' ▸ List.mem_map_of_mem Prod.fst ht)
      rw [counterGet_cons, if_neg hne]
      exact ih (List.nodup_cons.mp h').2 ht

theorem any_of_counterGet_pos (av : List (α × Int)) (x : α)
    (h : 1 ≤ counterGet av x) : av.any (fun p => p.1 = x) = true := by
  cases hc : av.any (fun p => p.1 = x) with
  | false =>
    rw [counterGet_eq_zero_of_not_mem_keys av x (not_mem_keys_of_not_any av x hc)] at h
    omega
  | true => rfl

theorem keys_counterDecr_of_any (av : List (α × Int)) (x : α)
    (hc : av.any (fun p => p.1 = x) = true) :
    (counterDecr av x).map Prod.fst = av.map Prod.fst := by
  unfold counterDecr
  rw [if_pos hc, List.map_map]
  exact List.map_congr_left (fun p _ => by by_cases hp : p.1 = x <;> simp [hp])

theorem keysNodup_counterDecr (av : List (α × Int)) (x : α)
    (h : keysNodup av) : keysNodup (counterDecr av x) := by
  unfold keysNodup at h ⊢
  cases hc : av.any (fun p => p.1 = x) with
  | true => rwa [keys_counterDecr_of_any av x hc]
  | false =>
    unfold counterDecr
    rw [hc]
    simp only [Bool.false_eq_true, if_false]
    have hx := not_mem_keys_of_not_any av x hc
    simp [List.nodup_append, h, hx]

theorem keysNodup_counterDel (av : List (α × Int)) (x : α)
    (h : keysNodup av) : keysNodup (counterDel av x) := by
  unfold keysNodup at h ⊢
  exact List.Nodup.sublist (List.Sublist.map Prod.fst (List.filter_sublist av)) h

theorem keysNodup_consumeItem (av : List (α × Int)) (x : α)
    (h : keysNodup av) : keysNodup (consumeItem av x) := by
  unfold consumeItem
  by_cases h0 : counterGet (counterDecr av x) x = 0
  · rw [if_pos h0]; exact keysNodup_counterDel _ x (keysNodup_counterDecr av x h)
  · rw [if_neg h0]; exact keysNodup_counterDecr av x h

theorem posVals_consumeItem (av : List (α × Int)) (x : α)
    (hk : keysNodup av) (hp : posVals av) (hx : 1 ≤ counterGet av x) :
    posVals (consumeItem av x) := by
  have hany := any_of_counterGet_pos av x hx
  have hdecr : counterDecr av x = av.map (fun q => if q.1 = x then (q.1, q.2 - 1) else q) := by
    unfold counterDecr
    rw [if_pos hany]
  intro r hr
  unfold consumeItem at hr
  by_cases h0 : counterGet (counterDecr av x) x = 0
  · rw [if_pos h0] at hr
    have hr' : r ∈ counterDecr av x ∧ ¬ r.1 = x := by
      have := List.mem_filter.mp hr
      exact ⟨this.1, by simpa using this.2⟩
    rw [hdecr] at hr'
    rcases List.mem_map.mp hr'.1 with ⟨q, hq, he⟩
    by_cases hqx : q.1 = x
    · rw [if_pos hqx] at he
      exact absurd (by rw [← he]; exact hqx) hr'.2
    · rw [if_neg hqx] at he
      exact he ▸ hp q hq
  · rw [if_neg h0, hdecr] at hr
    rcases List.mem_map.mp hr with ⟨q, hq, he⟩
    by_cases hqx : q.1 = x
    · rw [if_pos hqx] at he
      have hval : q.2 = counterGet av x := by
        rw [← hqx]; exact entry_val_eq_counterGet av q hk hq
      have hne1 : counterGet av x - 1 ≠ 0 := by
        rw [counterGet_counterDecr_self] at h0
        exact h0
      have := hp q hq
      rw [← he]
      dsimp only
      omega
    · rw [if_neg hqx] at he
      exact he ▸ hp q hq

/-! ### The `elements` view of a counter -/

theorem elements_nil : elements ([] : List (α × Int)) = [] := rfl

theorem elements_cons (p : α × Int) (t : List (α × Int)) :
    elements (p :: t) = List.replicate p.2.toNat p.1 ++ elements t := by
  simp [elements]

theorem count_elements (av : List (α × Int)) (y : α) (h : keysNodup av) :
    (elements av).count y = (counterGet av y).toNat := by
  induction av with
  | nil => rfl
  | cons p t ih =>
    have h' : (p.1 :: t.map Prod.fst).Nodup := by
      unfold keysNodup at h
      simpa only [List.map_cons] using h
    have htail : keysNodup t := (List.nodup_cons.mp h').2
    rw [elements_cons, List.count_append, List.count_replicate, ih htail, counterGet_cons]
    by_cases hp : p.1 = y
    · rw [if_pos (by simpa using hp), if_pos hp]
      have hkey : p.1 ∉ t.map Prod.fst := (List.nodup_cons.mp h').1
      rw [hp] at hkey
      rw [counterGet_eq_zero_of_not_mem_keys t y hkey]
      simp
    · rw [if_neg (by simpa using hp), if_neg hp]
      simp

theorem mem_elements (av : List (α × Int)) (y : α) (h : keysNodup av) :
    y ∈ elements av ↔ 1 ≤ counterGet av y := by
  rw [← List.count_pos_iff, count_elements av y h]
  omega

theorem elements_mkCounter_perm (l : List α) : (elements (mkCounter l)).Perm l := by
  rw [List.perm_iff_count]
  intro y
  rw [count_elements _ y (keysNodup_mkCounter l), counterGet_mkCounter]
  simp

theorem elements_consumeItem_perm (av : List (α × Int)) (x : α)
    (hk : keysNodup av) (hx : 1 ≤ counterGet av x) :
    (elements (consumeItem av x)).Perm ((elements av).erase x) := by
  rw [List.perm_iff_count]
  intro y
  rw [count_elements _ y (keysNodup_consumeItem av x hk)]
  by_cases hyx : y = x
  · rw [hyx, counterGet_consumeItem_self, List.count_erase_self,
      count_elements av x hk]
    omega
  · rw [counterGet_consumeItem_ne av x y hyx,
      List.count_erase_of_ne (by simpa using hyx), count_elements av y hk]

theorem length_elements_consumeItem (av : List (α × Int)) (x : α)
    (hk : keysNodup av) (hx : 1 ≤ counterGet av x) :
    (elements (consumeItem av x)).length + 1 = (elements av).length := by
  rw [(elements_consumeItem_perm av x hk hx).length_eq,
    List.length_erase_of_mem ((mem_elements av x hk).mpr hx)]
  have : x ∈ elements av := (mem_elements av x hk).mpr hx
  have hpos : 0 < (elements av).length := List.length_pos_of_mem this
  omega

theorem eq_nil_of_elements_eq_nil (av : List (α × Int)) (hp : posVals av)
    (h : elements av = []) : av = [] := by
  cases av with
  | nil => rfl
  | cons p t =>
    rw [elements_cons, List.append_eq_nil] at h
    have h1 := hp p (List.mem_cons_self p t)
    have h2 : p.2.toNat = 0 := by
      have := congrArg List.length h.1
      simpa using this
    omega

/-! ### The scan that fills one board -/

theorem fillStep_not_accepted (st : FillState α) (item : α)
    (h : ¬ (item ∉ st.board_items ∧ st.board.length < BOARD_SIZE)) :
    fillStep st item = st := by
  unfold fillStep
  rw [if_neg h]

theorem fillStep_accepted (st : FillState α) (item : α)
    (h : item ∉ st.board_items ∧ st.board.length < BOARD_SIZE) :
    fillStep st item =
      { board := st.board ++ [item]
        board_items := item :: st.board_items
        available := consumeItem st.available item } := by
  unfold fillStep
  rw [if_pos h]

theorem fillStep_inv (av0 : List (α × Int)) (st : FillState α) (item : α)
    (hk0 : keysNodup av0) (hinv : FillInv av0 st) (hmem : item ∈ elements av0) :
    FillInv av0 (fillStep st item) := by
  by_cases hacc : item ∉ st.board_items ∧ st.board.length < BOARD_SIZE
  · rw [fillStep_accepted st item hacc]
    have hnb : item ∉ st.board := fun hb => hacc.1 ((hinv.items_iff item).mpr hb)
    have hcnt : st.board.count item = 0 := List.count_eq_zero.mpr hnb
    have hget : counterGet st.available item = counterGet av0 item := by
      rw [hinv.get_eq item, hcnt]
      simp
    have hpos0 : 1 ≤ counterGet av0 item := (mem_elements av0 item hk0).mp hmem
    have hpos : 1 ≤ counterGet st.available item := by rw [hget]; exact hpos0
    constructor
    · intro y
      rw [List.mem_cons, List.mem_append, List.mem_singleton, hinv.items_iff y]
      tauto
    · exact List.Nodup.append hinv.nodup (List.nodup_singleton item)
        (by simpa using hnb)
    · exact keysNodup_consumeItem st.available item hinv.keys_nodup
    · exact posVals_consumeItem st.available item hinv.keys_nodup hinv.pos hpos
    · intro y
      by_cases hy : y = item
      · rw [hy, counterGet_consumeItem_self, hget, List.count_append]
        simp [hcnt]
      · rw [counterGet_consumeItem_ne st.available item y hy, hinv.get_eq y,
          List.count_append]
        have : [item].count y = 0 := by
          simp [List.count_singleton, fun h' => hy h']
        rw [this]
        simp
    · have hlen := length_elements_consumeItem st.available item hinv.keys_nodup hpos
      have := hinv.len_eq
      simp only [List.length_append, List.length_singleton]
      omega
  · rw [fillStep_not_accepted st item hacc]
    exact hinv

theorem fillFold_inv (av0 : List (α × Int)) (hk0 : keysNodup av0) :
    ∀ (rest : List α) (st : FillState α), FillInv av0 st →
      (∀ y ∈ rest, y ∈ elements av0) → FillInv av0 (rest.foldl fillStep st) := by
  intro rest
  induction rest with
  | nil => intro st h _; exact h
  | cons a t ih =>
    intro st h hsub
    rw [List.foldl_cons]
    exact ih (fillStep st a)
      (fillStep_inv av0 st a hk0 h (hsub a (List.mem_cons_self a t)))
      (fun y hy => hsub y (List.mem_cons_of_mem a hy))

theorem fillBoard_inv (av : List (α × Int)) (sh : List α)
    (hk : keysNodup av) (hp : posVals av) (hsub : ∀ y ∈ sh, y ∈ elements av) :
    FillInv av (fillBoard av sh) := by
  unfold fillBoard
  refine fillFold_inv av hk sh _ ?_ hsub
  constructor
  · intro y; simp
  · exact List.nodup_nil
  · exact hk
  · exact hp
  · intro y; simp
  · simp

/-- Intra-board uniqueness needs no assumption at all on the shuffled
sequence: the `board_items` membership test alone keeps the board
duplicate-free. -/
theorem fillBoard_nodup (av : List (α × Int)) (sh : List α) :
    (fillBoard av sh).board.Nodup := by
  have main : ∀ (rest : List α) (st : FillState α),
      (∀ y, y ∈ st.board_items ↔ y ∈ st.board) → st.board.Nodup →
      ((rest.foldl fillStep st).board.Nodup ∧
        (∀ y, y ∈ (rest.foldl fillStep st).board_items ↔
          y ∈ (rest.foldl fillStep st).board)) := by
    intro rest
    induction rest with
    | nil => intro st hiff hnd; exact ⟨hnd, hiff⟩
    | cons a t ih =>
      intro st hiff hnd
      rw [List.foldl_cons]
      by_cases hacc : a ∉ st.board_items ∧ st.board.length < BOARD_SIZE
      · rw [fillStep_accepted st a hacc]
        have hnb : a ∉ st.board := fun hb => hacc.1 ((hiff a).mpr hb)
        refine ih _ ?_ ?_
        · intro y
          rw [List.mem_cons, List.mem_append, List.mem_singleton, hiff y]
          tauto
        · exact List.Nodup.append hnd (List.nodup_singleton a) (by simpa using hnb)
      · rw [fillStep_not_accepted st a hacc]
        exact ih st hiff hnd
  exact (main sh { board := [], board_items := [], available := av }
    (by intro y; simp) List.nodup_nil).1

/-- The sequential scan of the source (which keeps the auxiliary
`board_items` set) computes exactly the board and counter described by the
spec (which tests membership in the board itself). -/
theorem fillFold_agrees_spec :
    ∀ (sh : List α) (st : FillState α),
      (∀ y, y ∈ st.board_items ↔ y ∈ st.board) →
      ((sh.foldl fillStep st).board, (sh.foldl fillStep st).available) =
        sh.foldl fillStepSpec (st.board, st.available) := by
  intro sh
  induction sh with
  | nil => intro st _; rfl
  | cons a t ih =>
    intro st hiff
    rw [List.foldl_cons, List.foldl_cons]
    by_cases hacc : a ∉ st.board_items ∧ st.board.length < BOARD_SIZE
    · rw [fillStep_accepted st a hacc]
      have hstep : fillStepSpec (st.board, st.available) a =
          (st.board ++ [a], consumeItem st.available a) := by
        unfold fillStepSpec
        rw [if_pos ⟨hacc.2, fun hb => hacc.1 ((hiff a).mpr hb)⟩]
      rw [hstep]
      refine ih _ ?_
      intro y
      rw [List.mem_cons, List.mem_append, List.mem_singleton, hiff y]
      tauto
    · rw [fillStep_not_accepted st a hacc]
      have hstep : fillStepSpec (st.board, st.available) a = (st.board, st.available) := by
        unfold fillStepSpec
        rw [if_neg (fun hc => hacc ⟨fun hb => (hc.2 ((hiff a).mp hb)), hc.1⟩)]
      rw [hstep]
      exact ih st hiff

/-! ### The board loop of one attempt -/

theorem buildLoop_succ (g : σ → List α → List α × σ) (n : Nat)
    (av : List (α × Int)) (boards : List (List α)) (s : σ) :
    buildLoop g (Nat.succ n) av boards s =
      if (fillBoard av (g s (elements av)).1).board.length ≠ BOARD_SIZE
      then (boards, (g s (elements av)).2)
      else buildLoop g n (fillBoard av (g s (elements av)).1).available
        (boards ++ [(fillBoard av (g s (elements av)).1).board])
        (g s (elements av)).2 := by
  rw [buildLoop]

theorem buildLoop_boards (g : σ → List α → List α × σ) :
    ∀ (n : Nat) (av : List (α × Int)) (boards : List (List α)) (s : σ),
      ∀ b ∈ (buildLoop g n av boards s).1,
        b ∈ boards ∨ (b.length = BOARD_SIZE ∧ b.Nodup) := by
  intro n
  induction n with
  | zero => intro av boards s b hb; exact Or.inl hb
  | succ n ih =>
    intro av boards s b hb
    rw [buildLoop_succ] at hb
    by_cases hlen : (fillBoard av (g s (elements av)).1).board.length ≠ BOARD_SIZE
    · rw [if_pos hlen] at hb
      exact Or.inl hb
    · rw [if_neg hlen] at hb
      rcases ih _ _ _ b hb with hmem | hgood
      · rcases List.mem_append.mp hmem with hmem' | hmem'
        · exact Or.inl hmem'
        · refine Or.inr ?_
          rw [List.mem_singleton.mp hmem']
          exact ⟨by omega, fillBoard_nodup av (g s (elements av)).1⟩
      · exact Or.inr hgood

theorem buildLoop_counts (g : σ → List α → List α × σ)
    (hg : ∀ (s : σ) (l : List α), ((g s l).1).Perm l) :
    ∀ (n : Nat) (av : List (α × Int)) (boards : List (List α)) (s : σ),
      keysNodup av → posVals av →
      ∃ avF, keysNodup avF ∧ posVals avF ∧
        (∀ y, counterGet avF y = counterGet av y -
          (((buildLoop g n av boards s).1.flatten.count y : Int) -
            (boards.flatten.count y : Int))) ∧
        ((elements avF).length + (buildLoop g n av boards s).1.flatten.length =
          (elements av).length + boards.flatten.length) := by
  intro n
  induction n with
  | zero =>
    intro av boards s hk hp
    refine ⟨av, hk, hp, ?_, ?_⟩
    · intro y; simp [buildLoop]
    · simp [buildLoop]
  | succ n ih =>
    intro av boards s hk hp
    rw [buildLoop_succ]
    by_cases hlen : (fillBoard av (g s (elements av)).1).board.length ≠ BOARD_SIZE
    · rw [if_pos hlen]
      refine ⟨av, hk, hp, ?_, ?_⟩
      · intro y; simp
      · simp
    · rw [if_neg hlen]
      have hperm : ((g s (elements av)).1).Perm (elements av) := hg s (elements av)
      have hsub : ∀ y ∈ (g s (elements av)).1, y ∈ elements av :=
        fun y hy => hperm.mem_iff.mp hy
      have hinv := fillBoard_inv av (g s (elements av)).1 hk hp hsub
      rcases ih (fillBoard av (g s (elements av)).1).available
          (boards ++ [(fillBoard av (g s (elements av)).1).board]) (g s (elements av)).2
          hinv.keys_nodup hinv.pos with ⟨avF, hkF, hpF, hgetF, hlenF⟩
      refine ⟨avF, hkF, hpF, ?_, ?_⟩
      · intro y
        rw [hgetF y, hinv.get_eq y]
        have heq : (boards ++ [(fillBoard av (g s (elements av)).1).board]).flatten.count y =
            boards.flatten.count y + (fillBoard av (g s (elements av)).1).board.count y := by
          rw [List.flatten_append]
          simp
        rw [heq]
        push_cast
        ring
      · have heq : (boards ++ [(fillBoard av (g s (elements av)).1).board]).flatten.length =
            boards.flatten.length + (fillBoard av (g s (elements av)).1).board.length := by
          rw [List.flatten_append]
          simp
        rw [heq] at hlenF
        have hle := hinv.len_eq
        omega

theorem promote_perm : ∀ (front l : List α), (promote front l).Perm l := by
  intro front
  induction front with
  | nil => intro l; exact List.Perm.refl l
  | cons x xs ih =>
    intro l
    rw [promote]
    by_cases hx : x ∈ l
    · rw [if_pos hx]
      exact ((ih (l.erase x)).cons x).trans (List.perm_cons_erase hx).symm
    · rw [if_neg hx]
      exact ih l

theorem scriptG_perm : ∀ (n : Nat) (l : List String), ((scriptG n l).1).Perm l :=
  fun n l => promote_perm (cexChunks.getD n []) l

set_option maxRecDepth 4000 in
theorem create_master_pool_length : create_master_pool.length = 240 := by decide

set_option maxRecDepth 4000 in
theorem create_master_pool_count_first :
    ((ITEMS.take 24).all fun a => create_master_pool.count a == FIRST_24_FREQUENCY) = true := by
  decide

set_option maxRecDepth 4000 in
theorem create_master_pool_count_last :
    ((ITEMS.drop 24).all fun a => create_master_pool.count a == LAST_12_FREQUENCY) = true := by
  decide

theorem tryAttempt_eq (g : σ → List α → List α × σ) (pool : List α) (s : σ) :
    tryAttempt g pool s =
      (Except.ok
        (if (buildLoop g NUM_BOARDS (mkCounter pool) [] s).1.length = NUM_BOARDS
          then some (buildLoop g NUM_BOARDS (mkCounter pool) [] s).1 else none),
        (buildLoop g NUM_BOARDS (mkCounter pool) [] s).2) := rfl

theorem length_flatten_of_uniform (bs : List (List α)) (m : Nat)
    (h : ∀ b ∈ bs, b.length = m) : bs.flatten.length = bs.length * m := by
  induction bs with
  | nil => simp
  | cons b t ih =>
    rw [List.flatten_cons, List.length_append, h b (List.mem_cons_self b t),
      ih (fun b' hb' => h b' (List.mem_cons_of_mem b hb')), List.length_cons,
      Nat.succ_mul]
    omega

theorem tryAttempt_ok (g : σ → List α → List α × σ)
    (hg : ∀ (s : σ) (l : List α), ((g s l).1).Perm l)
    (pool : List α) (s s' : σ) (bs : List (List α))
    (h : tryAttempt g pool s = (Except.ok (some bs), s')) :
    bs.length = NUM_BOARDS ∧ (∀ b ∈ bs, b.length = BOARD_SIZE ∧ b.Nodup) ∧
      (pool.length = NUM_BOARDS * BOARD_SIZE →
        ∀ y, bs.flatten.count y = pool.count y) := by
  rw [tryAttempt_eq] at h
  have h1 : (if (buildLoop g NUM_BOARDS (mkCounter pool) [] s).1.length = NUM_BOARDS
      then some (buildLoop g NUM_BOARDS (mkCounter pool) [] s).1 else none) = some bs := by
    have := congrArg Prod.fst h
    simpa using this
  by_cases hcond : (buildLoop g NUM_BOARDS (mkCounter pool) [] s).1.length = NUM_BOARDS
  · rw [if_pos hcond, Option.some.injEq] at h1
    subst h1
    have hboards : ∀ b ∈ (buildLoop g NUM_BOARDS (mkCounter pool) [] s).1,
        b.length = BOARD_SIZE ∧ b.Nodup := by
      intro b hb
      rcases buildLoop_boards g NUM_BOARDS (mkCounter pool) [] s b hb with hin | hgood
      · simp at hin
      · exact hgood
    refine ⟨hcond, hboards, ?_⟩
    intro hpool y
    rcases buildLoop_counts g hg NUM_BOARDS (mkCounter pool) [] s
        (keysNodup_mkCounter pool) (posVals_mkCounter pool) with
      ⟨avF, hkF, hpF, hgetF, hlenF⟩
    have hflatlen : (buildLoop g NUM_BOARDS (mkCounter pool) [] s).1.flatten.length =
        NUM_BOARDS * BOARD_SIZE := by
      rw [length_flatten_of_uniform _ BOARD_SIZE (fun b hb => (hboards b hb).1), hcond]
    have hpoollen : (elements (mkCounter pool)).length = pool.length :=
      (elements_mkCounter_perm pool).length_eq
    have hzero : (elements avF).length = 0 := by
      have := hlenF
      rw [hflatlen, hpoollen] at this
      simpa [hpool] using this
    have havF : avF = [] :=
      eq_nil_of_elements_eq_nil avF hpF (List.length_eq_zero.mp hzero)
    have hget := hgetF y
    rw [havF, counterGet_nil, counterGet_mkCounter] at hget
    have : ((buildLoop g NUM_BOARDS (mkCounter pool) [] s).1.flatten.count y : Int) =
        (pool.count y : Int) := by
      simp only [List.flatten_nil, List.count_nil, Nat.cast_zero, sub_zero] at hget
      omega
    exact_mod_cast this
  · rw [if_neg hcond] at h1
    simp at h1

/-! ### The attempt loop -/

theorem genLoop_ok_attempt (att : σ → Except String (Option (List (List α))) × σ)
    (total : Nat) :
    ∀ (k : Nat) (s : σ) (bs : List (List α)),
      (genLoop att total k s).1 = Except.ok bs →
      ∃ s₁ s₂, att s₁ = (Except.ok (some bs), s₂) := by
  intro k
  induction k with
  | zero => intro s bs h; exact absurd h (by simp [genLoop])
  | succ k ih =>
    intro s bs h
    rw [genLoop] at h
    rcases ha : att s with ⟨r, s'⟩
    rw [ha] at h
    match r, h with
    | Except.ok (some boards), h =>
      have hb : boards = bs := by simpa using h
      exact ⟨s, s', by rw [ha, hb]⟩
    | Except.ok none, h => exact ih s' bs h
    | Except.error e, h => exact ih s' bs h

theorem genLoop_error_val (att : σ → Except String (Option (List (List α))) × σ)
    (total : Nat) :
    ∀ (k : Nat) (s : σ) (c : Nat),
      (genLoop att total k s).1 = Except.error c → c = total := by
  intro k
  induction k with
  | zero =>
    intro s c h
    rw [genLoop] at h
    injection h with h'
    omega
  | succ k ih =>
    intro s c h
    rw [genLoop] at h
    rcases ha : att s with ⟨r, s'⟩
    rw [ha] at h
    match r, h with
    | Except.ok (some boards), h => simp at h
    | Except.ok none, h => exact ih s' c h
    | Except.error e, h => exact ih s' c h

theorem failTrail_shift (att : σ → Except String (Option (List (List α))) × σ)
    (s : σ) : ∀ (j : Nat), failTrail att ((att s).2) j = failTrail att s (j + 1) := by
  intro j
  induction j with
  | zero => rfl
  | succ j ih =>
    show (att (failTrail att ((att s).2) j)).2 = (att (failTrail att s (j + 1))).2
    rw [ih]

theorem genLoop_error_iff (att : σ → Except String (Option (List (List α))) × σ)
    (total : Nat) :
    ∀ (k : Nat) (s : σ),
      (genLoop att total k s).1 = Except.error total ↔
        ∀ j, j < k → attemptIsSuccess (att (failTrail att s j)).1 = false := by
  intro k
  induction k with
  | zero =>
    intro s
    simp [genLoop]
  | succ k ih =>
    intro s
    rw [genLoop]
    rcases ha : att s with ⟨r, s'⟩
    constructor
    · intro h j hj
      match r, h with
      | Except.ok (some boards), h => simp at h
      | Except.ok none, h =>
        match j with
        | 0 => simp [failTrail, ha, attemptIsSuccess]
        | Nat.succ j =>
          have h2 : failTrail att s' j = failTrail att s (j + 1) := by
            rw [← failTrail_shift att s j, ha]
          have h3 := ((ih s').mp h) j (by omega)
          rw [h2] at h3
          simpa [Nat.succ_eq_add_one] using h3
      | Except.error e, h =>
        match j with
        | 0 => simp [failTrail, ha, attemptIsSuccess]
        | Nat.succ j =>
          have h2 : failTrail att s' j = failTrail att s (j + 1) := by
            rw [← failTrail_shift att s j, ha]
          have h3 := ((ih s').mp h) j (by omega)
          rw [h2] at h3
          simpa [Nat.succ_eq_add_one] using h3
    · intro h
      have h0 := h 0 (by omega)
      rw [failTrail] at h0
      rw [ha] at h0
      match r, h0 with
      | Except.ok none, _ =>
        refine (ih s').mpr ?_
        intro j hj
        have h2 : failTrail att s' j = failTrail att s (j + 1) := by
          rw [← failTrail_shift att s j, ha]
        have h3 := h (j + 1) (by omega)
        rw [← h2] at h3
        exact h3
      | Except.error e, _ =>
        refine (ih s').mpr ?_
        intro j hj
        have h2 : failTrail att s' j = failTrail att s (j + 1) := by
          rw [← failTrail_shift att s j, ha]
        have h3 := h (j + 1) (by omega)
        rw [← h2] at h3
        exact h3

theorem genLoop_succ_ok (att : σ → Except String (Option (List (List α))) × σ)
    (total k : Nat) (s s' : σ) (bs : List (List α))
    (h : att s = (Except.ok (some bs), s')) :
    genLoop att total (Nat.succ k) s = (Except.ok bs, s') := by
  rw [genLoop, h]

theorem genLoop_retry (att : σ → Except String (Option (List (List α))) × σ)
    (total k : Nat) (s : σ)
    (h : attemptIsSuccess (att s).1 = false) :
    genLoop att total (Nat.succ k) s = genLoop att total k (att s).2 := by
  rw [genLoop]
  rcases ha : att s with ⟨r, s'⟩
  rw [ha] at h
  match r, h with
  | Except.ok none, _ => rfl
  | Except.error e, _ => rfl

theorem genLoop_shape (att : σ → Except String (Option (List (List α))) × σ)
    (total : Nat) :
    ∀ (k : Nat) (s : σ),
      (∃ bs, (genLoop att total k s).1 = Except.ok bs) ∨
        (genLoop att total k s).1 = Except.error total := by
  intro k
  induction k with
  | zero => intro s; exact Or.inr rfl
  | succ k ih =>
    intro s
    rw [genLoop]
    rcases ha : att s with ⟨r, s'⟩
    match r with
    | Except.ok (some boards) => exact Or.inl ⟨boards, rfl⟩
    | Except.ok none => exact ih s'
    | Except.error e => exact ih s'

end Loteria

namespace Loteria

variable {α : Type} [DecidableEq α] {σ : Type}

/-! ### Attempt-level facts not needing the permutation property -/

theorem tryAttempt_boards (g : σ → List α → List α × σ) (pool : List α)
    (s s' : σ) (bs : List (List α))
    (h : tryAttempt g pool s = (Except.ok (some bs), s')) :
    bs.length = NUM_BOARDS ∧ ∀ b ∈ bs, b.length = BOARD_SIZE ∧ b.Nodup := by
  rw [tryAttempt_eq] at h
  have h1 : (if (buildLoop g NUM_BOARDS (mkCounter pool) [] s).1.length = NUM_BOARDS
      then some (buildLoop g NUM_BOARDS (mkCounter pool) [] s).1 else none) = some bs := by
    have := congrArg Prod.fst h
    simpa using this
  by_cases hcond : (buildLoop g NUM_BOARDS (mkCounter pool) [] s).1.length = NUM_BOARDS
  · rw [if_pos hcond, Option.some.injEq] at h1
    subst h1
    refine ⟨hcond, ?_⟩
    intro b hb
    rcases buildLoop_boards g NUM_BOARDS (mkCounter pool) [] s b hb with hin | hgood
    · simp at hin
    · exact hgood
  · rw [if_neg hcond] at h1
    simp at h1

theorem dedup_length_eq_iff (l : List α) : l.dedup.length = l.length ↔ l.Nodup := by
  constructor
  · intro h
    have hsub : l.dedup.Sublist l := List.dedup_sublist l
    have : l.dedup = l := hsub.eq_of_length h
    rw [← this]
    exact List.nodup_dedup l
  · intro h
    rw [List.dedup_eq_self.mpr h]

/-! ## The claims -/

/-- C1: every board list returned (rather than raised) by `generate_boards`
on the reference master pool contains exactly 15 boards, and flattening the
boards and counting per item gives exactly 7 occurrences for each of the
first 24 catalogue items and 6 for each of the last 12.  The hypothesis is
that every shuffle outcome is a permutation of its input, which is what
`random.shuffle` guarantees. -/
theorem conservation_on_reference_pool (g : σ → List String → List String × σ)
    (hg : ∀ (s : σ) (l : List String), ((g s l).1).Perm l)
    (max_attempts : Nat) (s : σ) :
    conservationCheck (generate_boards g create_master_pool max_attempts s).1 = true := by
  cases hres : (generate_boards g create_master_pool max_attempts s).1 with
  | error n => rfl
  | ok bs =>
    rcases genLoop_ok_attempt (tryAttempt g create_master_pool) max_attempts
        max_attempts s bs hres with ⟨s₁, s₂, hatt⟩
    rcases tryAttempt_ok g hg create_master_pool s₁ s₂ bs hatt with ⟨hlen, hbd, hcnt⟩
    have hcnt' := hcnt (by rw [create_master_pool_length]; rfl)
    simp only [conservationCheck, Bool.and_eq_true]
    refine ⟨⟨by simp [hlen], ?_⟩, ?_⟩
    · rw [List.all_eq_true]
      intro a ha
      rw [hcnt' a]
      exact (List.all_eq_true.mp create_master_pool_count_first) a ha
    · rw [List.all_eq_true]
      intro a ha
      rw [hcnt' a]
      exact (List.all_eq_true.mp create_master_pool_count_last) a ha

/-- C1 witness: the hypotheses are satisfiable — the scripted shuffle is a
permutation-valid generator, and with it the conservation property of the
result on the reference pool is established at a concrete input. -/
theorem conservation_on_reference_pool_witness :
    conservationCheck (generate_boards scriptG create_master_pool 1 0).1 = true :=
  conservation_on_reference_pool scriptG (fun s l => scriptG_perm s l) 1 0

/-- C2: every board list returned by `generate_boards` (for any item type,
pool, attempt budget, generator and seed) consists of boards of exactly 16
pairwise distinct items: the `dedup` of each board has the board's own
length, i.e. no item value repeats within a board. -/
theorem intra_board_uniqueness (g : σ → List α → List α × σ) (pool : List α)
    (max_attempts : Nat) (s : σ) :
    intraBoardCheck (generate_boards g pool max_attempts s).1 = true := by
  cases hres : (generate_boards g pool max_attempts s).1 with
  | error n => rfl
  | ok bs =>
    rcases genLoop_ok_attempt (tryAttempt g pool) max_attempts
        max_attempts s bs hres with ⟨s₁, s₂, hatt⟩
    rcases tryAttempt_boards g pool s₁ s₂ bs hatt with ⟨hlen, hbd⟩
    simp only [intraBoardCheck]
    rw [List.all_eq_true]
    intro b hb
    rcases hbd b hb with ⟨hblen, hbnd⟩
    rw [Bool.and_eq_true]
    constructor
    · simp [hblen]
    · simp [(dedup_length_eq_iff b).mpr hbnd]

/-- C4: `generate_boards` raises if and only if no attempt in the budget
succeeds, the raised error always carries `max_attempts` itself, and a zero
budget raises immediately with attempt count 0 and an untouched generator
state (no allocation work). -/
theorem exhaustion_error_iff (g : σ → List α → List α × σ) (pool : List α)
    (max_attempts : Nat) (s : σ) :
    (∀ (c : Nat) (s' : σ), generate_boards g pool max_attempts s = (Except.error c, s') →
      c = max_attempts) ∧
    generate_boards g pool 0 s = (Except.error 0, s) ∧
    ((generate_boards g pool max_attempts s).1 = Except.error max_attempts ↔
      ∀ j, j < max_attempts →
        attemptIsSuccess (tryAttempt g pool (failTrail (tryAttempt g pool) s j)).1 = false) := by
  refine ⟨?_, rfl, ?_⟩
  · intro c s' h
    have h1 : (generate_boards g pool max_attempts s).1 = Except.error c := by
      rw [h]
    exact genLoop_error_val (tryAttempt g pool) max_attempts max_attempts s c h1
  · exact genLoop_error_iff (tryAttempt g pool) max_attempts max_attempts s

/-- C4 witness: the theorem applied at a concrete input; in particular a zero
attempt budget raises immediately with attempt count 0 and unchanged state. -/
theorem exhaustion_error_iff_witness :
    generate_boards idG pool10 0 0 = (Except.error 0, 0) :=
  (exhaustion_error_iff idG pool10 0 0).2.1

/-- C5: within an attempt, each board is built by shuffling the flat
materialization (`elements`) of the current counter afresh and scanning it
left to right, accepting a token exactly when the board is not full and the
token's value is not yet on the board, and consuming it from the counter on
acceptance — the source scan (with its auxiliary `board_items` set) computes
exactly the board and counter described by the spec. -/
theorem greedy_scan_matches_spec :
    (∀ (av : List (α × Int)) (sh : List α),
      ((fillBoard av sh).board, (fillBoard av sh).available) = fillBoardSpec av sh) ∧
    (∀ (g : σ → List α → List α × σ) (n : Nat) (av : List (α × Int))
      (boards : List (List α)) (s : σ),
      buildLoop g (Nat.succ n) av boards s =
        if (fillBoard av (g s (elements av)).1).board.length ≠ BOARD_SIZE
        then (boards, (g s (elements av)).2)
        else buildLoop g n (fillBoard av (g s (elements av)).1).available
          (boards ++ [(fillBoard av (g s (elements av)).1).board])
          (g s (elements av)).2) := by
  constructor
  · intro av sh
    unfold fillBoard fillBoardSpec
    exact fillFold_agrees_spec sh { board := [], board_items := [], available := av }
      (by intro y; simp)
  · intro g n av boards s
    exact buildLoop_succ g n av boards s

/-- C6: a returned board set is all-or-nothing — always exactly 15 boards of
exactly 16 items, never a partial set — and a failed attempt abandons
everything: the loop continues on the same untouched `master_pool` (a fresh
counter is rebuilt inside `tryAttempt`), only the attempt counter and the
random state moving forward. -/
theorem all_or_nothing_attempts (g : σ → List α → List α × σ) (pool : List α)
    (max_attempts : Nat) (s : σ) :
    allOrNothingCheck (generate_boards g pool max_attempts s).1 = true ∧
    (∀ (k : Nat) (s₀ : σ), attemptIsSuccess (tryAttempt g pool s₀).1 = false →
      genLoop (tryAttempt g pool) max_attempts (Nat.succ k) s₀ =
        genLoop (tryAttempt g pool) max_attempts k (tryAttempt g pool s₀).2) := by
  constructor
  · cases hres : (generate_boards g pool max_attempts s).1 with
    | error n => rfl
    | ok bs =>
      rcases genLoop_ok_attempt (tryAttempt g pool) max_attempts
          max_attempts s bs hres with ⟨s₁, s₂, hatt⟩
      rcases tryAttempt_boards g pool s₁ s₂ bs hatt with ⟨hlen, hbd⟩
      simp only [allOrNothingCheck, Bool.and_eq_true]
      constructor
      · simp [hlen]
      · rw [List.all_eq_true]
        intro b hb
        simp [(hbd b hb).1]
  · intro k s₀ hfail
    exact genLoop_retry (tryAttempt g pool) max_attempts k s₀ hfail

/-- C6 witness: the theorem applied at a concrete input, with the failing
attempt hypothesis discharged by evaluation on a 10-token pool. -/
theorem all_or_nothing_attempts_witness :
    allOrNothingCheck (generate_boards idG pool10 3 0).1 = true ∧
    genLoop (tryAttempt idG pool10) 3 1 0 =
      genLoop (tryAttempt idG pool10) 3 0 (tryAttempt idG pool10 0).2 :=
  ⟨(all_or_nothing_attempts idG pool10 3 0).1,
    (all_or_nothing_attempts idG pool10 3 0).2 0 0 (by rfl)⟩

/-- C9: `generate_boards` is deterministic in the explicit random state: two
runs from the same generator, pool, budget and state give identical results —
the same board list or the same attempt-count failure. -/
theorem determinism_fixed_seed (g : σ → List α → List α × σ) (pool : List α)
    (max_attempts : Nat) (s : σ) (r₁ r₂ : Except Nat (List (List α)) × σ)
    (h₁ : r₁ = generate_boards g pool max_attempts s)
    (h₂ : r₂ = generate_boards g pool max_attempts s) : r₁ = r₂ :=
  h₁.trans h₂.symm

/-- C9 witness: two evaluated runs at a concrete input coincide. -/
theorem determinism_fixed_seed_witness :
    ((Except.error 1, 1) : Except Nat (List (List Nat)) × Nat) = (Except.error 1, 1) :=
  determinism_fixed_seed idG pool10 1 0 (Except.error 1, 1) (Except.error 1, 1)
    (by rfl) (by rfl)

/-- C10: an exception raised inside one attempt is caught by the
`except Exception: continue` and consumes exactly one attempt from the
budget; the loop's only outcomes are a returned board list or the final
`RuntimeError` carrying `max_attempts` — no body exception propagates. -/
theorem attempt_exceptions_contained
    (att : σ → Except String (Option (List (List α))) × σ)
    (g : σ → List α → List α × σ) (pool : List α) (total k : Nat) (s : σ) :
    (∀ (e : String) (s' : σ), att s = (Except.error e, s') →
      genLoop att total (Nat.succ k) s = genLoop att total k s') ∧
    ((∃ bs, (genLoop att total k s).1 = Except.ok bs) ∨
      (genLoop att total k s).1 = Except.error total) ∧
    ((∃ bs, (generate_boards g pool k s).1 = Except.ok bs) ∨
      (generate_boards g pool k s).1 = Except.error k) := by
  refine ⟨?_, genLoop_shape att total k s, genLoop_shape (tryAttempt g pool) k k s⟩
  intro e s' ha
  have hfail : attemptIsSuccess (att s).1 = false := by
    rw [ha]
    rfl
  have := genLoop_retry att total k s hfail
  rwa [ha] at this

/-- C10 witness: an attempt body that raises is caught and consumes one
attempt, at a concrete input. -/
theorem attempt_exceptions_contained_witness :
    genLoop raisingAtt 2 2 0 = genLoop raisingAtt 2 1 1 :=
  (attempt_exceptions_contained raisingAtt idG pool10 2 1 0).1 "boom" 1 rfl

/-- C7: the reference master pool has 240 tokens: each of the first 24
catalogue items occurs exactly 7 times and each of the last 12 exactly 6
times, and 24 * 7 + 12 * 6 = 240. -/
theorem master_pool_reference_counts :
    create_master_pool.length = 240 ∧
    ((ITEMS.take 24).all fun a => create_master_pool.count a == FIRST_24_FREQUENCY) = true ∧
    ((ITEMS.drop 24).all fun a => create_master_pool.count a == LAST_12_FREQUENCY) = true :=
  ⟨create_master_pool_length, create_master_pool_count_first, create_master_pool_count_last⟩

/-! ### A pool too small to fill the boards: every attempt runs and fails -/

set_option maxRecDepth 2000 in
theorem tryAttempt_pool10 (s : Nat) : tryAttempt idG pool10 s = (Except.ok none, s + 1) := rfl

theorem genLoop_pool10 (total : Nat) :
    ∀ (k : Nat) (s : Nat),
      genLoop (tryAttempt idG pool10) total k s = (Except.error total, s + k) := by
  intro k
  induction k with
  | zero => intro s; simp [genLoop]
  | succ k ih =>
    intro s
    rw [genLoop, tryAttempt_pool10 s]
    show genLoop (tryAttempt idG pool10) total k (s + 1) = (Except.error total, s + (k + 1))
    rw [ih (s + 1)]
    congr 1
    omega

/-- C8 counterexample: with a 10-token pool (total target count 10 < 240)
and budget 3, `generate_boards` does not fail fast: the final random state 3
shows that all 3 attempts ran a shuffle before the `RuntimeError`; there is
no configuration pre-check and no immediate failure. -/
theorem fail_fast_cex : generate_boards idG pool10 3 0 = (Except.error 3, 3) := by
  unfold generate_boards
  have h := genLoop_pool10 3 3 0
  simpa using h

/-- C8 amended: on a pool too small to fill the boards, `generate_boards`
performs every one of the `max_attempts` attempts (each consuming one shuffle
of the pool) and only then raises the `RuntimeError` carrying
`max_attempts`; no ConfigurationError and no fast failure exist. -/
theorem fail_fast_amended (max_attempts : Nat) (s : Nat) :
    generate_boards idG pool10 max_attempts s = (Except.error max_attempts, s + max_attempts) := by
  unfold generate_boards
  exact genLoop_pool10 max_attempts max_attempts s

end Loteria


namespace Loteria

set_option maxRecDepth 2000 in
theorem cexPoolSplit : create_master_pool = ((idxList (rle [(0, 7), (1, 7), (2, 7), (3, 7), (4, 7), (5, 7), (6, 7), (7, 7), (8, 4)])) ++ ((idxList (rle [(8, 3), (9, 7), (10, 7), (11, 7), (12, 7), (13, 7), (14, 7), (15, 7), (16, 7), (17, 1)])) ++ ((idxList (rle [(17, 6), (18, 7), (19, 7), (20, 7), (21, 7), (22, 7), (23, 7), (24, 6), (25, 6)])) ++ (idxList (rle [(26, 6), (27, 6), (28, 6), (29, 6), (30, 6), (31, 6), (32, 6), (33, 6), (34, 6), (35, 6)]))))) := by decide

set_option maxRecDepth 2000 in
theorem cexMkc1 : List.foldl counterAdd [] (idxList (rle [(0, 7), (1, 7), (2, 7), (3, 7), (4, 7), (5, 7), (6, 7), (7, 7), (8, 4)])) = (idxCounter [(0, 7), (1, 7), (2, 7), (3, 7), (4, 7), (5, 7), (6, 7), (7, 7), (8, 4)]) := by decide

set_option maxRecDepth 2000 in
theorem cexMkc2 : List.foldl counterAdd (idxCounter [(0, 7), (1, 7), (2, 7), (3, 7), (4, 7), (5, 7), (6, 7), (7, 7), (8, 4)]) (idxList (rle [(8, 3), (9, 7), (10, 7), (11, 7), (12, 7), (13, 7), (14, 7), (15, 7), (16, 7), (17, 1)])) = (idxCounter [(0, 7), (1, 7), (2, 7), (3, 7), (4, 7), (5, 7), (6, 7), (7, 7), (8, 7), (9, 7), (10, 7), (11, 7), (12, 7), (13, 7), (14, 7), (15, 7), (16, 7), (17, 1)]) := by decide

set_option maxRecDepth 2000 in
theorem cexMkc3 : List.foldl counterAdd (idxCounter [(0, 7), (1, 7), (2, 7), (3, 7), (4, 7), (5, 7), (6, 7), (7, 7), (8, 7), (9, 7), (10, 7), (11, 7), (12, 7), (13, 7), (14, 7), (15, 7), (16, 7), (17, 1)]) (idxList (rle [(17, 6), (18, 7), (19, 7), (20, 7), (21, 7), (22, 7), (23, 7), (24, 6), (25, 6)])) = (idxCounter [(0, 7), (1, 7), (2, 7), (3, 7), (4, 7), (5, 7), (6, 7), (7, 7), (8, 7), (9, 7), (10, 7), (11, 7), (12, 7), (13, 7), (14, 7), (15, 7), (16, 7), (17, 7), (18, 7), (19, 7), (20, 7), (21, 7), (22, 7), (23, 7), (24, 6), (25, 6)]) := by decide

set_option maxRecDepth 2000 in
theorem cexMkc4 : List.foldl counterAdd (idxCounter [(0, 7), (1, 7), (2, 7), (3, 7), (4, 7), (5, 7), (6, 7), (7, 7), (8, 7), (9, 7), (10, 7), (11, 7), (12, 7), (13, 7), (14, 7), (15, 7), (16, 7), (17, 7), (18, 7), (19, 7), (20, 7), (21, 7), (22, 7), (23, 7), (24, 6), (25, 6)]) (idxList (rle [(26, 6), (27, 6), (28, 6), (29, 6), (30, 6), (31, 6), (32, 6), (33, 6), (34, 6), (35, 6)])) = (idxCounter [(0, 7), (1, 7), (2, 7), (3, 7), (4, 7), (5, 7), (6, 7), (7, 7), (8, 7), (9, 7), (10, 7), (11, 7), (12, 7), (13, 7), (14, 7), (15, 7), (16, 7), (17, 7), (18, 7), (19, 7), (20, 7), (21, 7), (22, 7), (23, 7), (24, 6), (25, 6), (26, 6), (27, 6), (28, 6), (29, 6), (30, 6), (31, 6), (32, 6), (33, 6), (34, 6), (35, 6)]) := by decide

theorem cexMk : mkCounter create_master_pool = (idxCounter [(0, 7), (1, 7), (2, 7), (3, 7), (4, 7), (5, 7), (6, 7), (7, 7), (8, 7), (9, 7), (10, 7), (11, 7), (12, 7), (13, 7), (14, 7), (15, 7), (16, 7), (17, 7), (18, 7), (19, 7), (20, 7), (21, 7), (22, 7), (23, 7), (24, 6), (25, 6), (26, 6), (27, 6), (28, 6), (29, 6), (30, 6), (31, 6), (32, 6), (33, 6), (34, 6), (35, 6)]) := by
  unfold mkCounter
  rw [cexPoolSplit, List.foldl_append, cexMkc1, List.foldl_append, cexMkc2, List.foldl_append, cexMkc3, cexMkc4]

set_option maxRecDepth 2000 in
theorem cexEl0 : elements (idxCounter [(0, 7), (1, 7), (2, 7), (3, 7), (4, 7), (5, 7), (6, 7), (7, 7), (8, 7), (9, 7), (10, 7), (11, 7), (12, 7), (13, 7), (14, 7), (15, 7), (16, 7), (17, 7), (18, 7), (19, 7), (20, 7), (21, 7), (22, 7), (23, 7), (24, 6), (25, 6), (26, 6), (27, 6), (28, 6), (29, 6), (30, 6), (31, 6), (32, 6), (33, 6), (34, 6), (35, 6)]) = (idxList (rle [(0, 7), (1, 7), (2, 7), (3, 7), (4, 7), (5, 7), (6, 7), (7, 7), (8, 7), (9, 7), (10, 7), (11, 7), (12, 7), (13, 7), (14, 7), (15, 7), (16, 7), (17, 7), (18, 7), (19, 7), (20, 7), (21, 7), (22, 7), (23, 7), (24, 6), (25, 6), (26, 6), (27, 6), (28, 6), (29, 6), (30, 6), (31, 6), (32, 6), (33, 6), (34, 6), (35, 6)])) := by decide

set_option maxRecDepth 2000 in
theorem cexSh0 : (scriptG 0 (idxList (rle [(0, 7), (1, 7), (2, 7), (3, 7), (4, 7), (5, 7), (6, 7), (7, 7), (8, 7), (9, 7), (10, 7), (11, 7), (12, 7), (13, 7), (14, 7), (15, 7), (16, 7), (17, 7), (18, 7), (19, 7), (20, 7), (21, 7), (22, 7), (23, 7), (24, 6), (25, 6), (26, 6), (27, 6), (28, 6), (29, 6), (30, 6), (31, 6), (32, 6), (33, 6), (34, 6), (35, 6)]))).1 = ((idxList (rle [(0, 1), (1, 1), (2, 1), (3, 1), (4, 1), (5, 1), (6, 1), (7, 1), (8, 1), (9, 1), (10, 1), (11, 1), (12, 1), (13, 1), (14, 1), (15, 1), (0, 6), (1, 6), (2, 6), (3, 6), (4, 6), (5, 6), (6, 6), (7, 2)])) ++ ((idxList (rle [(7, 4), (8, 6), (9, 6), (10, 6), (11, 6), (12, 6), (13, 6), (14, 6), (15, 6), (16, 7), (17, 1)])) ++ ((idxList (rle [(17, 6), (18, 7), (19, 7), (20, 7), (21, 7), (22, 7), (23, 7), (24, 6), (25, 6)])) ++ (idxList (rle [(26, 6), (27, 6), (28, 6), (29, 6), (30, 6), (31, 6), (32, 6), (33, 6), (34, 6), (35, 6)]))))) := by decide

theorem cexShS0 : (scriptG 0 (idxList (rle [(0, 7), (1, 7), (2, 7), (3, 7), (4, 7), (5, 7), (6, 7), (7, 7), (8, 7), (9, 7), (10, 7), (11, 7), (12, 7), (13, 7), (14, 7), (15, 7), (16, 7), (17, 7), (18, 7), (19, 7), (20, 7), (21, 7), (22, 7), (23, 7), (24, 6), (25, 6), (26, 6), (27, 6), (28, 6), (29, 6), (30, 6), (31, 6), (32, 6), (33, 6), (34, 6), (35, 6)]))).2 = 1 := rfl

set_option maxRecDepth 2000 in
theorem cexFc0x1 : List.foldl fillStep ({ board := [], board_items := [], available := (idxCounter [(0, 7), (1, 7), (2, 7), (3, 7), (4, 7), (5, 7), (6, 7), (7, 7), (8, 7), (9, 7), (10, 7), (11, 7), (12, 7), (13, 7), (14, 7), (15, 7), (16, 7), (17, 7), (18, 7), (19, 7), (20, 7), (21, 7), (22, 7), (23, 7), (24, 6), (25, 6), (26, 6), (27, 6), (28, 6), (29, 6), (30, 6), (31, 6), (32, 6), (33, 6), (34, 6), (35, 6)]) } : FillState String) (idxList (rle [(0, 1), (1, 1), (2, 1), (3, 1), (4, 1), (5, 1), (6, 1), (7, 1), (8, 1), (9, 1), (10, 1), (11, 1), (12, 1), (13, 1), (14, 1), (15, 1), (0, 6), (1, 6), (2, 6), (3, 6), (4, 6), (5, 6), (6, 6), (7, 2)])) = ({ board := (idxList (rle [(0, 1), (1, 1), (2, 1), (3, 1), (4, 1), (5, 1), (6, 1), (7, 1), (8, 1), (9, 1), (10, 1), (11, 1), (12, 1), (13, 1), (14, 1), (15, 1)])), board_items := (idxList (rle [(15, 1), (14, 1), (13, 1), (12, 1), (11, 1), (10, 1), (9, 1), (8, 1), (7, 1), (6, 1), (5, 1), (4, 1), (3, 1), (2, 1), (1, 1), (0, 1)])), available := (idxCounter [(0, 6), (1, 6), (2, 6), (3, 6), (4, 6), (5, 6), (6, 6), (7, 6), (8, 6), (9, 6), (10, 6), (11, 6), (12, 6), (13, 6), (14, 6), (15, 6), (16, 7), (17, 7), (18, 7), (19, 7), (20, 7), (21, 7), (22, 7), (23, 7), (24, 6), (25, 6), (26, 6), (27, 6), (28, 6), (29, 6), (30, 6), (31, 6), (32, 6), (33, 6), (34, 6), (35, 6)]) } : FillState String) := by decide

set_option maxRecDepth 2000 in
theorem cexFc0x2 : List.foldl fillStep ({ board := (idxList (rle [(0, 1), (1, 1), (2, 1), (3, 1), (4, 1), (5, 1), (6, 1), (7, 1), (8, 1), (9, 1), (10, 1), (11, 1), (12, 1), (13, 1), (14, 1), (15, 1)])), board_items := (idxList (rle [(15, 1), (14, 1), (13, 1), (12, 1), (11, 1), (10, 1), (9, 1), (8, 1), (7, 1), (6, 1), (5, 1), (4, 1), (3, 1), (2, 1), (1, 1), (0, 1)])), available := (idxCounter [(0, 6), (1, 6), (2, 6), (3, 6), (4, 6), (5, 6), (6, 6), (7, 6), (8, 6), (9, 6), (10, 6), (11, 6), (12, 6), (13, 6), (14, 6), (15, 6), (16, 7), (17, 7), (18, 7), (19, 7), (20, 7), (21, 7), (22, 7), (23, 7), (24, 6), (25, 6), (26, 6), (27, 6), (28, 6), (29, 6), (30, 6), (31, 6), (32, 6), (33, 6), (34, 6), (35, 6)]) } : FillState String) (idxList (rle [(7, 4), (8, 6), (9, 6), (10, 6), (11, 6), (12, 6), (13, 6), (14, 6), (15, 6), (16, 7), (17, 1)])) = ({ board := (idxList (rle [(0, 1), (1, 1), (2, 1), (3, 1), (4, 1), (5, 1), (6, 1), (7, 1), (8, 1), (9, 1), (10, 1), (11, 1), (12, 1), (13, 1), (14, 1), (15, 1)])), board_items := (idxList (rle [(15, 1), (14, 1), (13, 1), (12, 1), (11, 1), (10, 1), (9, 1), (8, 1), (7, 1), (6, 1), (5, 1), (4, 1), (3, 1), (2, 1), (1, 1), (0, 1)])), available := (idxCounter [(0, 6), (1, 6), (2, 6), (3, 6), (4, 6), (5, 6), (6, 6), (7, 6), (8, 6), (9, 6), (10, 6), (11, 6), (12, 6), (13, 6), (14, 6), (15, 6), (16, 7), (17, 7), (18, 7), (19, 7), (20, 7), (21, 7), (22, 7), (23, 7), (24, 6), (25, 6), (26, 6), (27, 6), (28, 6), (29, 6), (30, 6), (31, 6), (32, 6), (33, 6), (34, 6), (35, 6)]) } : FillState String) := by decide

set_option maxRecDepth 2000 in
theorem cexFc0x3 : List.foldl fillStep ({ board := (idxList (rle [(0, 1), (1, 1), (2, 1), (3, 1), (4, 1), (5, 1), (6, 1), (7, 1), (8, 1), (9, 1), (10, 1), (11, 1), (12, 1), (13, 1), (14, 1), (15, 1)])), board_items := (idxList (rle [(15, 1), (14, 1), (13, 1), (12, 1), (11, 1), (10, 1), (9, 1), (8, 1), (7, 1), (6, 1), (5, 1), (4, 1), (3, 1), (2, 1), (1, 1), (0, 1)])), available := (idxCounter [(0, 6), (1, 6), (2, 6), (3, 6), (4, 6), (5, 6), (6, 6), (7, 6), (8, 6), (9, 6), (10, 6), (11, 6), (12, 6), (13, 6), (14, 6), (15, 6), (16, 7), (17, 7), (18, 7), (19, 7), (20, 7), (21, 7), (22, 7), (23, 7), (24, 6), (25, 6), (26, 6), (27, 6), (28, 6), (29, 6), (30, 6), (31, 6), (32, 6), (33, 6), (34, 6), (35, 6)]) } : FillState String) (idxList (rle [(17, 6), (18, 7), (19, 7), (20, 7), (21, 7), (22, 7), (23, 7), (24, 6), (25, 6)])) = ({ board := (idxList (rle [(0, 1), (1, 1), (2, 1), (3, 1), (4, 1), (5, 1), (6, 1), (7, 1), (8, 1), (9, 1), (10, 1), (11, 1), (12, 1), (13, 1), (14, 1), (15, 1)])), board_items := (idxList (rle [(15, 1), (14, 1), (13, 1), (12, 1), (11, 1), (10, 1), (9, 1), (8, 1), (7, 1), (6, 1), (5, 1), (4, 1), (3, 1), (2, 1), (1, 1), (0, 1)])), available := (idxCounter [(0, 6), (1, 6), (2, 6), (3, 6), (4, 6), (5, 6), (6, 6), (7, 6), (8, 6), (9, 6), (10, 6), (11, 6), (12, 6), (13, 6), (14, 6), (15, 6), (16, 7), (17, 7), (18, 7), (19, 7), (20, 7), (21, 7), (22, 7), (23, 7), (24, 6), (25, 6), (26, 6), (27, 6), (28, 6), (29, 6), (30, 6), (31, 6), (32, 6), (33, 6), (34, 6), (35, 6)]) } : FillState String) := by decide

set_option maxRecDepth 2000 in
theorem cexFc0x4 : List.foldl fillStep ({ board := (idxList (rle [(0, 1), (1, 1), (2, 1), (3, 1), (4, 1), (5, 1), (6, 1), (7, 1), (8, 1), (9, 1), (10, 1), (11, 1), (12, 1), (13, 1), (14, 1), (15, 1)])), board_items := (idxList (rle [(15, 1), (14, 1), (13, 1), (12, 1), (11, 1), (10, 1), (9, 1), (8, 1), (7, 1), (6, 1), (5, 1), (4, 1), (3, 1), (2, 1), (1, 1), (0, 1)])), available := (idxCounter [(0, 6), (1, 6), (2, 6), (3, 6), (4, 6), (5, 6), (6, 6), (7, 6), (8, 6), (9, 6), (10, 6), (11, 6), (12, 6), (13, 6), (14, 6), (15, 6), (16, 7), (17, 7), (18, 7), (19, 7), (20, 7), (21, 7), (22, 7), (23, 7), (24, 6), (25, 6), (26, 6), (27, 6), (28, 6), (29, 6), (30, 6), (31, 6), (32, 6), (33, 6), (34, 6), (35, 6)]) } : FillState String) (idxList (rle [(26, 6), (27, 6), (28, 6), (29, 6), (30, 6), (31, 6), (32, 6), (33, 6), (34, 6), (35, 6)])) = ({ board := (idxList (rle [(0, 1), (1, 1), (2, 1), (3, 1), (4, 1), (5, 1), (6, 1), (7, 1), (8, 1), (9, 1), (10, 1), (11, 1), (12, 1), (13, 1), (14, 1), (15, 1)])), board_items := (idxList (rle [(15, 1), (14, 1), (13, 1), (12, 1), (11, 1), (10, 1), (9, 1), (8, 1), (7, 1), (6, 1), (5, 1), (4, 1), (3, 1), (2, 1), (1, 1), (0, 1)])), available := (idxCounter [(0, 6), (1, 6), (2, 6), (3, 6), (4, 6), (5, 6), (6, 6), (7, 6), (8, 6), (9, 6), (10, 6), (11, 6), (12, 6), (13, 6), (14, 6), (15, 6), (16, 7), (17, 7), (18, 7), (19, 7), (20, 7), (21, 7), (22, 7), (23, 7), (24, 6), (25, 6), (26, 6), (27, 6), (28, 6), (29, 6), (30, 6), (31, 6), (32, 6), (33, 6), (34, 6), (35, 6)]) } : FillState String) := by decide

theorem cexFill0 : fillBoard (idxCounter [(0, 7), (1, 7), (2, 7), (3, 7), (4, 7), (5, 7), (6, 7), (7, 7), (8, 7), (9, 7), (10, 7), (11, 7), (12, 7), (13, 7), (14, 7), (15, 7), (16, 7), (17, 7), (18, 7), (19, 7), (20, 7), (21, 7), (22, 7), (23, 7), (24, 6), (25, 6), (26, 6), (27, 6), (28, 6), (29, 6), (30, 6), (31, 6), (32, 6), (33, 6), (34, 6), (35, 6)]) ((idxList (rle [(0, 1), (1, 1), (2, 1), (3, 1), (4, 1), (5, 1), (6, 1), (7, 1), (8, 1), (9, 1), (10, 1), (11, 1), (12, 1), (13, 1), (14, 1), (15, 1), (0, 6), (1, 6), (2, 6), (3, 6), (4, 6), (5, 6), (6, 6), (7, 2)])) ++ ((idxList (rle [(7, 4), (8, 6), (9, 6), (10, 6), (11, 6), (12, 6), (13, 6), (14, 6), (15, 6), (16, 7), (17, 1)])) ++ ((idxList (rle [(17, 6), (18, 7), (19, 7), (20, 7), (21, 7), (22, 7), (23, 7), (24, 6), (25, 6)])) ++ (idxList (rle [(26, 6), (27, 6), (28, 6), (29, 6), (30, 6), (31, 6), (32, 6), (33, 6), (34, 6), (35, 6)]))))) = ({ board := (idxList (rle [(0, 1), (1, 1), (2, 1), (3, 1), (4, 1), (5, 1), (6, 1), (7, 1), (8, 1), (9, 1), (10, 1), (11, 1), (12, 1), (13, 1), (14, 1), (15, 1)])), board_items := (idxList (rle [(15, 1), (14, 1), (13, 1), (12, 1), (11, 1), (10, 1), (9, 1), (8, 1), (7, 1), (6, 1), (5, 1), (4, 1), (3, 1), (2, 1), (1, 1), (0, 1)])), available := (idxCounter [(0, 6), (1, 6), (2, 6), (3, 6), (4, 6), (5, 6), (6, 6), (7, 6), (8, 6), (9, 6), (10, 6), (11, 6), (12, 6), (13, 6), (14, 6), (15, 6), (16, 7), (17, 7), (18, 7), (19, 7), (20, 7), (21, 7), (22, 7), (23, 7), (24, 6), (25, 6), (26, 6), (27, 6), (28, 6), (29, 6), (30, 6), (31, 6), (32, 6), (33, 6), (34, 6), (35, 6)]) } : FillState String) := by
  unfold fillBoard
  rw [List.foldl_append, cexFc0x1, List.foldl_append, cexFc0x2, List.foldl_append, cexFc0x3, cexFc0x4]

set_option maxRecDepth 2000 in
theorem cexEl1 : elements (idxCounter [(0, 6), (1, 6), (2, 6), (3, 6), (4, 6), (5, 6), (6, 6), (7, 6), (8, 6), (9, 6), (10, 6), (11, 6), (12, 6), (13, 6), (14, 6), (15, 6), (16, 7), (17, 7), (18, 7), (19, 7), (20, 7), (21, 7), (22, 7), (23, 7), (24, 6), (25, 6), (26, 6), (27, 6), (28, 6), (29, 6), (30, 6), (31, 6), (32, 6), (33, 6), (34, 6), (35, 6)]) = (idxList (rle [(0, 6), (1, 6), (2, 6), (3, 6), (4, 6), (5, 6), (6, 6), (7, 6), (8, 6), (9, 6), (10, 6), (11, 6), (12, 6), (13, 6), (14, 6), (15, 6), (16, 7), (17, 7), (18, 7), (19, 7), (20, 7), (21, 7), (22, 7), (23, 7), (24, 6), (25, 6), (26, 6), (27, 6), (28, 6), (29, 6), (30, 6), (31, 6), (32, 6), (33, 6), (34, 6), (35, 6)])) := by decide

set_option maxRecDepth 2000 in
theorem cexSh1 : (scriptG 1 (idxList (rle [(0, 6), (1, 6), (2, 6), (3, 6), (4, 6), (5, 6), (6, 6), (7, 6), (8, 6), (9, 6), (10, 6), (11, 6), (12, 6), (13, 6), (14, 6), (15, 6), (16, 7), (17, 7), (18, 7), (19, 7), (20, 7), (21, 7), (22, 7), (23, 7), (24, 6), (25, 6), (26, 6), (27, 6), (28, 6), (29, 6), (30, 6), (31, 6), (32, 6), (33, 6), (34, 6), (35, 6)]))).1 = ((idxList (rle [(0, 1), (1, 1), (2, 1), (3, 1), (4, 1), (5, 1), (6, 1), (7, 1), (8, 1), (9, 1), (10, 1), (11, 1), (12, 1), (13, 1), (14, 1), (15, 1), (0, 5), (1, 5), (2, 5), (3, 5), (4, 5), (5, 5), (6, 5), (7, 5), (8, 4)])) ++ ((idxList (rle [(8, 1), (9, 5), (10, 5), (11, 5), (12, 5), (13, 5), (14, 5), (15, 5), (16, 7), (17, 7), (18, 7), (19, 3)])) ++ ((idxList (rle [(19, 4), (20, 7), (21, 7), (22, 7), (23, 7), (24, 6), (25, 6), (26, 6), (27, 6), (28, 4)])) ++ (idxList (rle [(28, 2), (29, 6), (30, 6), (31, 6), (32, 6), (33, 6), (34, 6), (35, 6)]))))) := by decide

theorem cexShS1 : (scriptG 1 (idxList (rle [(0, 6), (1, 6), (2, 6), (3, 6), (4, 6), (5, 6), (6, 6), (7, 6), (8, 6), (9, 6), (10, 6), (11, 6), (12, 6), (13, 6), (14, 6), (15, 6), (16, 7), (17, 7), (18, 7), (19, 7), (20, 7), (21, 7), (22, 7), (23, 7), (24, 6), (25, 6), (26, 6), (27, 6), (28, 6), (29, 6), (30, 6), (31, 6), (32, 6), (33, 6), (34, 6), (35, 6)]))).2 = 2 := rfl

set_option maxRecDepth 2000 in
theorem cexFc1x1 : List.foldl fillStep ({ board := [], board_items := [], available := (idxCounter [(0, 6), (1, 6), (2, 6), (3, 6), (4, 6), (5, 6), (6, 6), (7, 6), (8, 6), (9, 6), (10, 6), (11, 6), (12, 6), (13, 6), (14, 6), (15, 6), (16, 7), (17, 7), (18, 7), (19, 7), (20, 7), (21, 7), (22, 7), (23, 7), (24, 6), (25, 6), (26, 6), (27, 6), (28, 6), (29, 6), (30, 6), (31, 6), (32, 6), (33, 6), (34, 6), (35, 6)]) } : FillState String) (idxList (rle [(0, 1), (1, 1), (2, 1), (3, 1), (4, 1), (5, 1), (6, 1), (7, 1), (8, 1), (9, 1), (10, 1), (11, 1), (12, 1), (13, 1), (14, 1), (15, 1), (0, 5), (1, 5), (2, 5), (3, 5), (4, 5), (5, 5), (6, 5), (7, 5), (8, 4)])) = ({ board := (idxList (rle [(0, 1), (1, 1), (2, 1), (3, 1), (4, 1), (5, 1), (6, 1), (7, 1), (8, 1), (9, 1), (10, 1), (11, 1), (12, 1), (13, 1), (14, 1), (15, 1)])), board_items := (idxList (rle [(15, 1), (14, 1), (13, 1), (12, 1), (11, 1), (10, 1), (9, 1), (8, 1), (7, 1), (6, 1), (5, 1), (4, 1), (3, 1), (2, 1), (1, 1), (0, 1)])), available := (idxCounter [(0, 5), (1, 5), (2, 5), (3, 5), (4, 5), (5, 5), (6, 5), (7, 5), (8, 5), (9, 5), (10, 5), (11, 5), (12, 5), (13, 5), (14, 5), (15, 5), (16, 7), (17, 7), (18, 7), (19, 7), (20, 7), (21, 7), (22, 7), (23, 7), (24, 6), (25, 6), (26, 6), (27, 6), (28, 6), (29, 6), (30, 6), (31, 6), (32, 6), (33, 6), (34, 6), (35, 6)]) } : FillState String) := by decide

set_option maxRecDepth 2000 in
theorem cexFc1x2 : List.foldl fillStep ({ board := (idxList (rle [(0, 1), (1, 1), (2, 1), (3, 1), (4, 1), (5, 1), (6, 1), (7, 1), (8, 1), (9, 1), (10, 1), (11, 1), (12, 1), (13, 1), (14, 1), (15, 1)])), board_items := (idxList (rle [(15, 1), (14, 1), (13, 1), (12, 1), (11, 1), (10, 1), (9, 1), (8, 1), (7, 1), (6, 1), (5, 1), (4, 1), (3, 1), (2, 1), (1, 1), (0, 1)])), available := (idxCounter [(0, 5), (1, 5), (2, 5), (3, 5), (4, 5), (5, 5), (6, 5), (7, 5), (8, 5), (9, 5), (10, 5), (11, 5), (12, 5), (13, 5), (14, 5), (15, 5), (16, 7), (17, 7), (18, 7), (19, 7), (20, 7), (21, 7), (22, 7), (23, 7), (24, 6), (25, 6), (26, 6), (27, 6), (28, 6), (29, 6), (30, 6), (31, 6), (32, 6), (33, 6), (34, 6), (35, 6)]) } : FillState String) (idxList (rle [(8, 1), (9, 5), (10, 5), (11, 5), (12, 5), (13, 5), (14, 5), (15, 5), (16, 7), (17, 7), (18, 7), (19, 3)])) = ({ board := (idxList (rle [(0, 1), (1, 1), (2, 1), (3, 1), (4, 1), (5, 1), (6, 1), (7, 1), (8, 1), (9, 1), (10, 1), (11, 1), (12, 1), (13, 1), (14, 1), (15, 1)])), board_items := (idxList (rle [(15, 1), (14, 1), (13, 1), (12, 1), (11, 1), (10, 1), (9, 1), (8, 1), (7, 1), (6, 1), (5, 1), (4, 1), (3, 1), (2, 1), (1, 1), (0, 1)])), available := (idxCounter [(0, 5), (1, 5), (2, 5), (3, 5), (4, 5), (5, 5), (6, 5), (7, 5), (8, 5), (9, 5), (10, 5), (11, 5), (12, 5), (13, 5), (14, 5), (15, 5), (16, 7), (17, 7), (18, 7), (19, 7), (20, 7), (21, 7), (22, 7), (23, 7), (24, 6), (25, 6), (26, 6), (27, 6), (28, 6), (29, 6), (30, 6), (31, 6), (32, 6), (33, 6), (34, 6), (35, 6)]) } : FillState String) := by decide

set_option maxRecDepth 2000 in
theorem cexFc1x3 : List.foldl fillStep ({ board := (idxList (rle [(0, 1), (1, 1), (2, 1), (3, 1), (4, 1), (5, 1), (6, 1), (7, 1), (8, 1), (9, 1), (10, 1), (11, 1), (12, 1), (13, 1), (14, 1), (15, 1)])), board_items := (idxList (rle [(15, 1), (14, 1), (13, 1), (12, 1), (11, 1), (10, 1), (9, 1), (8, 1), (7, 1), (6, 1), (5, 1), (4, 1), (3, 1), (2, 1), (1, 1), (0, 1)])), available := (idxCounter [(0, 5), (1, 5), (2, 5), (3, 5), (4, 5), (5, 5), (6, 5), (7, 5), (8, 5), (9, 5), (10, 5), (11, 5), (12, 5), (13, 5), (14, 5), (15, 5), (16, 7), (17, 7), (18, 7), (19, 7), (20, 7), (21, 7), (22, 7), (23, 7), (24, 6), (25, 6), (26, 6), (27, 6), (28, 6), (29, 6), (30, 6), (31, 6), (32, 6), (33, 6), (34, 6), (35, 6)]) } : FillState String) (idxList (rle [(19, 4), (20, 7), (21, 7), (22, 7), (23, 7), (24, 6), (25, 6), (26, 6), (27, 6), (28, 4)])) = ({ board := (idxList (rle [(0, 1), (1, 1), (2, 1), (3, 1), (4, 1), (5, 1), (6, 1), (7, 1), (8, 1), (9, 1), (10, 1), (11, 1), (12, 1), (13, 1), (14, 1), (15, 1)])), board_items := (idxList (rle [(15, 1), (14, 1), (13, 1), (12, 1), (11, 1), (10, 1), (9, 1), (8, 1), (7, 1), (6, 1), (5, 1), (4, 1), (3, 1), (2, 1), (1, 1), (0, 1)])), available := (idxCounter [(0, 5), (1, 5), (2, 5), (3, 5), (4, 5), (5, 5), (6, 5), (7, 5), (8, 5), (9, 5), (10, 5), (11, 5), (12, 5), (13, 5), (14, 5), (15, 5), (16, 7), (17, 7), (18, 7), (19, 7), (20, 7), (21, 7), (22, 7), (23, 7), (24, 6), (25, 6), (26, 6), (27, 6), (28, 6), (29, 6), (30, 6), (31, 6), (32, 6), (33, 6), (34, 6), (35, 6)]) } : FillState String) := by decide

set_option maxRecDepth 2000 in
theorem cexFc1x4 : List.foldl fillStep ({ board := (idxList (rle [(0, 1), (1, 1), (2, 1), (3, 1), (4, 1), (5, 1), (6, 1), (7, 1), (8, 1), (9, 1), (10, 1), (11, 1), (12, 1), (13, 1), (14, 1), (15, 1)])), board_items := (idxList (rle [(15, 1), (14, 1), (13, 1), (12, 1), (11, 1), (10, 1), (9, 1), (8, 1), (7, 1), (6, 1), (5, 1), (4, 1), (3, 1), (2, 1), (1, 1), (0, 1)])), available := (idxCounter [(0, 5), (1, 5), (2, 5), (3, 5), (4, 5), (5, 5), (6, 5), (7, 5), (8, 5), (9, 5), (10, 5), (11, 5), (12, 5), (13, 5), (14, 5), (15, 5), (16, 7), (17, 7), (18, 7), (19, 7), (20, 7), (21, 7), (22, 7), (23, 7), (24, 6), (25, 6), (26, 6), (27, 6), (28, 6), (29, 6), (30, 6), (31, 6), (32, 6), (33, 6), (34, 6), (35, 6)]) } : FillState String) (idxList (rle [(28, 2), (29, 6), (30, 6), (31, 6), (32, 6), (33, 6), (34, 6), (35, 6)])) = ({ board := (idxList (rle [(0, 1), (1, 1), (2, 1), (3, 1), (4, 1), (5, 1), (6, 1), (7, 1), (8, 1), (9, 1), (10, 1), (11, 1), (12, 1), (13, 1), (14, 1), (15, 1)])), board_items := (idxList (rle [(15, 1), (14, 1), (13, 1), (12, 1), (11, 1), (10, 1), (9, 1), (8, 1), (7, 1), (6, 1), (5, 1), (4, 1), (3, 1), (2, 1), (1, 1), (0, 1)])), available := (idxCounter [(0, 5), (1, 5), (2, 5), (3, 5), (4, 5), (5, 5), (6, 5), (7, 5), (8, 5), (9, 5), (10, 5), (11, 5), (12, 5), (13, 5), (14, 5), (15, 5), (16, 7), (17, 7), (18, 7), (19, 7), (20, 7), (21, 7), (22, 7), (23, 7), (24, 6), (25, 6), (26, 6), (27, 6), (28, 6), (29, 6), (30, 6), (31, 6), (32, 6), (33, 6), (34, 6), (35, 6)]) } : FillState String) := by decide

theorem cexFill1 : fillBoard (idxCounter [(0, 6), (1, 6), (2, 6), (3, 6), (4, 6), (5, 6), (6, 6), (7, 6), (8, 6), (9, 6), (10, 6), (11, 6), (12, 6), (13, 6), (14, 6), (15, 6), (16, 7), (17, 7), (18, 7), (19, 7), (20, 7), (21, 7), (22, 7), (23, 7), (24, 6), (25, 6), (26, 6), (27, 6), (28, 6), (29, 6), (30, 6), (31, 6), (32, 6), (33, 6), (34, 6), (35, 6)]) ((idxList (rle [(0, 1), (1, 1), (2, 1), (3, 1), (4, 1), (5, 1), (6, 1), (7, 1), (8, 1), (9, 1), (10, 1), (11, 1), (12, 1), (13, 1), (14, 1), (15, 1), (0, 5), (1, 5), (2, 5), (3, 5), (4, 5), (5, 5), (6, 5), (7, 5), (8, 4)])) ++ ((idxList (rle [(8, 1), (9, 5), (10, 5), (11, 5), (12, 5), (13, 5), (14, 5), (15, 5), (16, 7), (17, 7), (18, 7), (19, 3)])) ++ ((idxList (rle [(19, 4), (20, 7), (21, 7), (22, 7), (23, 7), (24, 6), (25, 6), (26, 6), (27, 6), (28, 4)])) ++ (idxList (rle [(28, 2), (29, 6), (30, 6), (31, 6), (32, 6), (33, 6), (34, 6), (35, 6)]))))) = ({ board := (idxList (rle [(0, 1), (1, 1), (2, 1), (3, 1), (4, 1), (5, 1), (6, 1), (7, 1), (8, 1), (9, 1), (10, 1), (11, 1), (12, 1), (13, 1), (14, 1), (15, 1)])), board_items := (idxList (rle [(15, 1), (14, 1), (13, 1), (12, 1), (11, 1), (10, 1), (9, 1), (8, 1), (7, 1), (6, 1), (5, 1), (4, 1), (3, 1), (2, 1), (1, 1), (0, 1)])), available := (idxCounter [(0, 5), (1, 5), (2, 5), (3, 5), (4, 5), (5, 5), (6, 5), (7, 5), (8, 5), (9, 5), (10, 5), (11, 5), (12, 5), (13, 5), (14, 5), (15, 5), (16, 7), (17, 7), (18, 7), (19, 7), (20, 7), (21, 7), (22, 7), (23, 7), (24, 6), (25, 6), (26, 6), (27, 6), (28, 6), (29, 6), (30, 6), (31, 6), (32, 6), (33, 6), (34, 6), (35, 6)]) } : FillState String) := by
  unfold fillBoard
  rw [List.foldl_append, cexFc1x1, List.foldl_append, cexFc1x2, List.foldl_append, cexFc1x3, cexFc1x4]

set_option maxRecDepth 2000 in
theorem cexEl2 : elements (idxCounter [(0, 5), (1, 5), (2, 5), (3, 5), (4, 5), (5, 5), (6, 5), (7, 5), (8, 5), (9, 5), (10, 5), (11, 5), (12, 5), (13, 5), (14, 5), (15, 5), (16, 7), (17, 7), (18, 7), (19, 7), (20, 7), (21, 7), (22, 7), (23, 7), (24, 6), (25, 6), (26, 6), (27, 6), (28, 6), (29, 6), (30, 6), (31, 6), (32, 6), (33, 6), (34, 6), (35, 6)]) = (idxList (rle [(0, 5), (1, 5), (2, 5), (3, 5), (4, 5), (5, 5), (6, 5), (7, 5), (8, 5), (9, 5), (10, 5), (11, 5), (12, 5), (13, 5), (14, 5), (15, 5), (16, 7), (17, 7), (18, 7), (19, 7), (20, 7), (21, 7), (22, 7), (23, 7), (24, 6), (25, 6), (26, 6), (27, 6), (28, 6), (29, 6), (30, 6), (31, 6), (32, 6), (33, 6), (34, 6), (35, 6)])) := by decide

set_option maxRecDepth 2000 in
theorem cexSh2 : (scriptG 2 (idxList (rle [(0, 5), (1, 5), (2, 5), (3, 5), (4, 5), (5, 5), (6, 5), (7, 5), (8, 5), (9, 5), (10, 5), (11, 5), (12, 5), (13, 5), (14, 5), (15, 5), (16, 7), (17, 7), (18, 7), (19, 7), (20, 7), (21, 7), (22, 7), (23, 7), (24, 6), (25, 6), (26, 6), (27, 6), (28, 6), (29, 6), (30, 6), (31, 6), (32, 6), (33, 6), (34, 6), (35, 6)]))).1 = ((idxList (rle [(0, 1), (1, 1), (2, 1), (3, 1), (4, 1), (5, 1), (6, 1), (7, 1), (8, 1), (9, 1), (10, 1), (11, 1), (12, 1), (13, 1), (14, 1), (15, 1), (0, 4), (1, 4), (2, 4), (3, 4), (4, 4), (5, 4), (6, 4), (7, 4), (8, 4), (9, 4), (10, 4)])) ++ ((idxList (rle [(11, 4), (12, 4), (13, 4), (14, 4), (15, 4), (16, 7), (17, 7), (18, 7), (19, 7), (20, 7), (21, 5)])) ++ ((idxList (rle [(21, 2), (22, 7), (23, 7), (24, 6), (25, 6), (26, 6), (27, 6), (28, 6), (29, 6), (30, 6), (31, 2)])) ++ (idxList (rle [(31, 4), (32, 6), (33, 6), (34, 6), (35, 6)]))))) := by decide

theorem cexShS2 : (scriptG 2 (idxList (rle [(0, 5), (1, 5), (2, 5), (3, 5), (4, 5), (5, 5), (6, 5), (7, 5), (8, 5), (9, 5), (10, 5), (11, 5), (12, 5), (13, 5), (14, 5), (15, 5), (16, 7), (17, 7), (18, 7), (19, 7), (20, 7), (21, 7), (22, 7), (23, 7), (24, 6), (25, 6), (26, 6), (27, 6), (28, 6), (29, 6), (30, 6), (31, 6), (32, 6), (33, 6), (34, 6), (35, 6)]))).2 = 3 := rfl

set_option maxRecDepth 2000 in
theorem cexFc2x1 : List.foldl fillStep ({ board := [], board_items := [], available := (idxCounter [(0, 5), (1, 5), (2, 5), (3, 5), (4, 5), (5, 5), (6, 5), (7, 5), (8, 5), (9, 5), (10, 5), (11, 5), (12, 5), (13, 5), (14, 5), (15, 5), (16, 7), (17, 7), (18, 7), (19, 7), (20, 7), (21, 7), (22, 7), (23, 7), (24, 6), (25, 6), (26, 6), (27, 6), (28, 6), (29, 6), (30, 6), (31, 6), (32, 6), (33, 6), (34, 6), (35, 6)]) } : FillState String) (idxList (rle [(0, 1), (1, 1), (2, 1), (3, 1), (4, 1), (5, 1), (6, 1), (7, 1), (8, 1), (9, 1), (10, 1), (11, 1), (12, 1), (13, 1), (14, 1), (15, 1), (0, 4), (1, 4), (2, 4), (3, 4), (4, 4), (5, 4), (6, 4), (7, 4), (8, 4), (9, 4), (10, 4)])) = ({ board := (idxList (rle [(0, 1), (1, 1), (2, 1), (3, 1), (4, 1), (5, 1), (6, 1), (7, 1), (8, 1), (9, 1), (10, 1), (11, 1), (12, 1), (13, 1), (14, 1), (15, 1)])), board_items := (idxList (rle [(15, 1), (14, 1), (13, 1), (12, 1), (11, 1), (10, 1), (9, 1), (8, 1), (7, 1), (6, 1), (5, 1), (4, 1), (3, 1), (2, 1), (1, 1), (0, 1)])), available := (idxCounter [(0, 4), (1, 4), (2, 4), (3, 4), (4, 4), (5, 4), (6, 4), (7, 4), (8, 4), (9, 4), (10, 4), (11, 4), (12, 4), (13, 4), (14, 4), (15, 4), (16, 7), (17, 7), (18, 7), (19, 7), (20, 7), (21, 7), (22, 7), (23, 7), (24, 6), (25, 6), (26, 6), (27, 6), (28, 6), (29, 6), (30, 6), (31, 6), (32, 6), (33, 6), (34, 6), (35, 6)]) } : FillState String) := by decide

set_option maxRecDepth 2000 in
theorem cexFc2x2 : List.foldl fillStep ({ board := (idxList (rle [(0, 1), (1, 1), (2, 1), (3, 1), (4, 1), (5, 1), (6, 1), (7, 1), (8, 1), (9, 1), (10, 1), (11, 1), (12, 1), (13, 1), (14, 1), (15, 1)])), board_items := (idxList (rle [(15, 1), (14, 1), (13, 1), (12, 1), (11, 1), (10, 1), (9, 1), (8, 1), (7, 1), (6, 1), (5, 1), (4, 1), (3, 1), (2, 1), (1, 1), (0, 1)])), available := (idxCounter [(0, 4), (1, 4), (2, 4), (3, 4), (4, 4), (5, 4), (6, 4), (7, 4), (8, 4), (9, 4), (10, 4), (11, 4), (12, 4), (13, 4), (14, 4), (15, 4), (16, 7), (17, 7), (18, 7), (19, 7), (20, 7), (21, 7), (22, 7), (23, 7), (24, 6), (25, 6), (26, 6), (27, 6), (28, 6), (29, 6), (30, 6), (31, 6), (32, 6), (33, 6), (34, 6), (35, 6)]) } : FillState String) (idxList (rle [(11, 4), (12, 4), (13, 4), (14, 4), (15, 4), (16, 7), (17, 7), (18, 7), (19, 7), (20, 7), (21, 5)])) = ({ board := (idxList (rle [(0, 1), (1, 1), (2, 1), (3, 1), (4, 1), (5, 1), (6, 1), (7, 1), (8, 1), (9, 1), (10, 1), (11, 1), (12, 1), (13, 1), (14, 1), (15, 1)])), board_items := (idxList (rle [(15, 1), (14, 1), (13, 1), (12, 1), (11, 1), (10, 1), (9, 1), (8, 1), (7, 1), (6, 1), (5, 1), (4, 1), (3, 1), (2, 1), (1, 1), (0, 1)])), available := (idxCounter [(0, 4), (1, 4), (2, 4), (3, 4), (4, 4), (5, 4), (6, 4), (7, 4), (8, 4), (9, 4), (10, 4), (11, 4), (12, 4), (13, 4), (14, 4), (15, 4), (16, 7), (17, 7), (18, 7), (19, 7), (20, 7), (21, 7), (22, 7), (23, 7), (24, 6), (25, 6), (26, 6), (27, 6), (28, 6), (29, 6), (30, 6), (31, 6), (32, 6), (33, 6), (34, 6), (35, 6)]) } : FillState String) := by decide

set_option maxRecDepth 2000 in
theorem cexFc2x3 : List.foldl fillStep ({ board := (idxList (rle [(0, 1), (1, 1), (2, 1), (3, 1), (4, 1), (5, 1), (6, 1), (7, 1), (8, 1), (9, 1), (10, 1), (11, 1), (12, 1), (13, 1), (14, 1), (15, 1)])), board_items := (idxList (rle [(15, 1), (14, 1), (13, 1), (12, 1), (11, 1), (10, 1), (9, 1), (8, 1), (7, 1), (6, 1), (5, 1), (4, 1), (3, 1), (2, 1), (1, 1), (0, 1)])), available := (idxCounter [(0, 4), (1, 4), (2, 4), (3, 4), (4, 4), (5, 4), (6, 4), (7, 4), (8, 4), (9, 4), (10, 4), (11, 4), (12, 4), (13, 4), (14, 4), (15, 4), (16, 7), (17, 7), (18, 7), (19, 7), (20, 7), (21, 7), (22, 7), (23, 7), (24, 6), (25, 6), (26, 6), (27, 6), (28, 6), (29, 6), (30, 6), (31, 6), (32, 6), (33, 6), (34, 6), (35, 6)]) } : FillState String) (idxList (rle [(21, 2), (22, 7), (23, 7), (24, 6), (25, 6), (26, 6), (27, 6), (28, 6), (29, 6), (30, 6), (31, 2)])) = ({ board := (idxList (rle [(0, 1), (1, 1), (2, 1), (3, 1), (4, 1), (5, 1), (6, 1), (7, 1), (8, 1), (9, 1), (10, 1), (11, 1), (12, 1), (13, 1), (14, 1), (15, 1)])), board_items := (idxList (rle [(15, 1), (14, 1), (13, 1), (12, 1), (11, 1), (10, 1), (9, 1), (8, 1), (7, 1), (6, 1), (5, 1), (4, 1), (3, 1), (2, 1), (1, 1), (0, 1)])), available := (idxCounter [(0, 4), (1, 4), (2, 4), (3, 4), (4, 4), (5, 4), (6, 4), (7, 4), (8, 4), (9, 4), (10, 4), (11, 4), (12, 4), (13, 4), (14, 4), (15, 4), (16, 7), (17, 7), (18, 7), (19, 7), (20, 7), (21, 7), (22, 7), (23, 7), (24, 6), (25, 6), (26, 6), (27, 6), (28, 6), (29, 6), (30, 6), (31, 6), (32, 6), (33, 6), (34, 6), (35, 6)]) } : FillState String) := by decide

set_option maxRecDepth 2000 in
theorem cexFc2x4 : List.foldl fillStep ({ board := (idxList (rle [(0, 1), (1, 1), (2, 1), (3, 1), (4, 1), (5, 1), (6, 1), (7, 1), (8, 1), (9, 1), (10, 1), (11, 1), (12, 1), (13, 1), (14, 1), (15, 1)])), board_items := (idxList (rle [(15, 1), (14, 1), (13, 1), (12, 1), (11, 1), (10, 1), (9, 1), (8, 1), (7, 1), (6, 1), (5, 1), (4, 1), (3, 1), (2, 1), (1, 1), (0, 1)])), available := (idxCounter [(0, 4), (1, 4), (2, 4), (3, 4), (4, 4), (5, 4), (6, 4), (7, 4), (8, 4), (9, 4), (10, 4), (11, 4), (12, 4), (13, 4), (14, 4), (15, 4), (16, 7), (17, 7), (18, 7), (19, 7), (20, 7), (21, 7), (22, 7), (23, 7), (24, 6), (25, 6), (26, 6), (27, 6), (28, 6), (29, 6), (30, 6), (31, 6), (32, 6), (33, 6), (34, 6), (35, 6)]) } : FillState String) (idxList (rle [(31, 4), (32, 6), (33, 6), (34, 6), (35, 6)])) = ({ board := (idxList (rle [(0, 1), (1, 1), (2, 1), (3, 1), (4, 1), (5, 1), (6, 1), (7, 1), (8, 1), (9, 1), (10, 1), (11, 1), (12, 1), (13, 1), (14, 1), (15, 1)])), board_items := (idxList (rle [(15, 1), (14, 1), (13, 1), (12, 1), (11, 1), (10, 1), (9, 1), (8, 1), (7, 1), (6, 1), (5, 1), (4, 1), (3, 1), (2, 1), (1, 1), (0, 1)])), available := (idxCounter [(0, 4), (1, 4), (2, 4), (3, 4), (4, 4), (5, 4), (6, 4), (7, 4), (8, 4), (9, 4), (10, 4), (11, 4), (12, 4), (13, 4), (14, 4), (15, 4), (16, 7), (17, 7), (18, 7), (19, 7), (20, 7), (21, 7), (22, 7), (23, 7), (24, 6), (25, 6), (26, 6), (27, 6), (28, 6), (29, 6), (30, 6), (31, 6), (32, 6), (33, 6), (34, 6), (35, 6)]) } : FillState String) := by decide

theorem cexFill2 : fillBoard (idxCounter [(0, 5), (1, 5), (2, 5), (3, 5), (4, 5), (5, 5), (6, 5), (7, 5), (8, 5), (9, 5), (10, 5), (11, 5), (12, 5), (13, 5), (14, 5), (15, 5), (16, 7), (17, 7), (18, 7), (19, 7), (20, 7), (21, 7), (22, 7), (23, 7), (24, 6), (25, 6), (26, 6), (27, 6), (28, 6), (29, 6), (30, 6), (31, 6), (32, 6), (33, 6), (34, 6), (35, 6)]) ((idxList (rle [(0, 1), (1, 1), (2, 1), (3, 1), (4, 1), (5, 1), (6, 1), (7, 1), (8, 1), (9, 1), (10, 1), (11, 1), (12, 1), (13, 1), (14, 1), (15, 1), (0, 4), (1, 4), (2, 4), (3, 4), (4, 4), (5, 4), (6, 4), (7, 4), (8, 4), (9, 4), (10, 4)])) ++ ((idxList (rle [(11, 4), (12, 4), (13, 4), (14, 4), (15, 4), (16, 7), (17, 7), (18, 7), (19, 7), (20, 7), (21, 5)])) ++ ((idxList (rle [(21, 2), (22, 7), (23, 7), (24, 6), (25, 6), (26, 6), (27, 6), (28, 6), (29, 6), (30, 6), (31, 2)])) ++ (idxList (rle [(31, 4), (32, 6), (33, 6), (34, 6), (35, 6)]))))) = ({ board := (idxList (rle [(0, 1), (1, 1), (2, 1), (3, 1), (4, 1), (5, 1), (6, 1), (7, 1), (8, 1), (9, 1), (10, 1), (11, 1), (12, 1), (13, 1), (14, 1), (15, 1)])), board_items := (idxList (rle [(15, 1), (14, 1), (13, 1), (12, 1), (11, 1), (10, 1), (9, 1), (8, 1), (7, 1), (6, 1), (5, 1), (4, 1), (3, 1), (2, 1), (1, 1), (0, 1)])), available := (idxCounter [(0, 4), (1, 4), (2, 4), (3, 4), (4, 4), (5, 4), (6, 4), (7, 4), (8, 4), (9, 4), (10, 4), (11, 4), (12, 4), (13, 4), (14, 4), (15, 4), (16, 7), (17, 7), (18, 7), (19, 7), (20, 7), (21, 7), (22, 7), (23, 7), (24, 6), (25, 6), (26, 6), (27, 6), (28, 6), (29, 6), (30, 6), (31, 6), (32, 6), (33, 6), (34, 6), (35, 6)]) } : FillState String) := by
  unfold fillBoard
  rw [List.foldl_append, cexFc2x1, List.foldl_append, cexFc2x2, List.foldl_append, cexFc2x3, cexFc2x4]

set_option maxRecDepth 2000 in
theorem cexEl3 : elements (idxCounter [(0, 4), (1, 4), (2, 4), (3, 4), (4, 4), (5, 4), (6, 4), (7, 4), (8, 4), (9, 4), (10, 4), (11, 4), (12, 4), (13, 4), (14, 4), (15, 4), (16, 7), (17, 7), (18, 7), (19, 7), (20, 7), (21, 7), (22, 7), (23, 7), (24, 6), (25, 6), (26, 6), (27, 6), (28, 6), (29, 6), (30, 6), (31, 6), (32, 6), (33, 6), (34, 6), (35, 6)]) = (idxList (rle [(0, 4), (1, 4), (2, 4), (3, 4), (4, 4), (5, 4), (6, 4), (7, 4), (8, 4), (9, 4), (10, 4), (11, 4), (12, 4), (13, 4), (14, 4), (15, 4), (16, 7), (17, 7), (18, 7), (19, 7), (20, 7), (21, 7), (22, 7), (23, 7), (24, 6), (25, 6), (26, 6), (27, 6), (28, 6), (29, 6), (30, 6), (31, 6), (32, 6), (33, 6), (34, 6), (35, 6)])) := by decide

set_option maxRecDepth 2000 in
theorem cexSh3 : (scriptG 3 (idxList (rle [(0, 4), (1, 4), (2, 4), (3, 4), (4, 4), (5, 4), (6, 4), (7, 4), (8, 4), (9, 4), (10, 4), (11, 4), (12, 4), (13, 4), (14, 4), (15, 4), (16, 7), (17, 7), (18, 7), (19, 7), (20, 7), (21, 7), (22, 7), (23, 7), (24, 6), (25, 6), (26, 6), (27, 6), (28, 6), (29, 6), (30, 6), (31, 6), (32, 6), (33, 6), (34, 6), (35, 6)]))).1 = ((idxList (rle [(16, 1), (17, 1), (18, 1), (19, 1), (20, 1), (21, 1), (22, 1), (23, 1), (24, 1), (25, 1), (26, 1), (27, 1), (28, 1), (29, 1), (30, 1), (31, 1), (0, 4), (1, 4), (2, 4), (3, 4), (4, 4), (5, 4), (6, 4), (7, 4), (8, 4), (9, 4), (10, 4)])) ++ ((idxList (rle [(11, 4), (12, 4), (13, 4), (14, 4), (15, 4), (16, 6), (17, 6), (18, 6), (19, 6), (20, 6), (21, 6), (22, 4)])) ++ ((idxList (rle [(22, 2), (23, 6), (24, 5), (25, 5), (26, 5), (27, 5), (28, 5), (29, 5), (30, 5), (31, 5), (32, 6), (33, 6)])) ++ (idxList (rle [(34, 6), (35, 6)]))))) := by decide

theorem cexShS3 : (scriptG 3 (idxList (rle [(0, 4), (1, 4), (2, 4), (3, 4), (4, 4), (5, 4), (6, 4), (7, 4), (8, 4), (9, 4), (10, 4), (11, 4), (12, 4), (13, 4), (14, 4), (15, 4), (16, 7), (17, 7), (18, 7), (19, 7), (20, 7), (21, 7), (22, 7), (23, 7), (24, 6), (25, 6), (26, 6), (27, 6), (28, 6), (29, 6), (30, 6), (31, 6), (32, 6), (33, 6), (34, 6), (35, 6)]))).2 = 4 := rfl

set_option maxRecDepth 2000 in
theorem cexFc3x1 : List.foldl fillStep ({ board := [], board_items := [], available := (idxCounter [(0, 4), (1, 4), (2, 4), (3, 4), (4, 4), (5, 4), (6, 4), (7, 4), (8, 4), (9, 4), (10, 4), (11, 4), (12, 4), (13, 4), (14, 4), (15, 4), (16, 7), (17, 7), (18, 7), (19, 7), (20, 7), (21, 7), (22, 7), (23, 7), (24, 6), (25, 6), (26, 6), (27, 6), (28, 6), (29, 6), (30, 6), (31, 6), (32, 6), (33, 6), (34, 6), (35, 6)]) } : FillState String) (idxList (rle [(16, 1), (17, 1), (18, 1), (19, 1), (20, 1), (21, 1), (22, 1), (23, 1), (24, 1), (25, 1), (26, 1), (27, 1), (28, 1), (29, 1), (30, 1), (31, 1), (0, 4), (1, 4), (2, 4), (3, 4), (4, 4), (5, 4), (6, 4), (7, 4), (8, 4), (9, 4), (10, 4)])) = ({ board := (idxList (rle [(16, 1), (17, 1), (18, 1), (19, 1), (20, 1), (21, 1), (22, 1), (23, 1), (24, 1), (25, 1), (26, 1), (27, 1), (28, 1), (29, 1), (30, 1), (31, 1)])), board_items := (idxList (rle [(31, 1), (30, 1), (29, 1), (28, 1), (27, 1), (26, 1), (25, 1), (24, 1), (23, 1), (22, 1), (21, 1), (20, 1), (19, 1), (18, 1), (17, 1), (16, 1)])), available := (idxCounter [(0, 4), (1, 4), (2, 4), (3, 4), (4, 4), (5, 4), (6, 4), (7, 4), (8, 4), (9, 4), (10, 4), (11, 4), (12, 4), (13, 4), (14, 4), (15, 4), (16, 6), (17, 6), (18, 6), (19, 6), (20, 6), (21, 6), (22, 6), (23, 6), (24, 5), (25, 5), (26, 5), (27, 5), (28, 5), (29, 5), (30, 5), (31, 5), (32, 6), (33, 6), (34, 6), (35, 6)]) } : FillState String) := by decide

set_option maxRecDepth 2000 in
theorem cexFc3x2 : List.foldl fillStep ({ board := (idxList (rle [(16, 1), (17, 1), (18, 1), (19, 1), (20, 1), (21, 1), (22, 1), (23, 1), (24, 1), (25, 1), (26, 1), (27, 1), (28, 1), (29, 1), (30, 1), (31, 1)])), board_items := (idxList (rle [(31, 1), (30, 1), (29, 1), (28, 1), (27, 1), (26, 1), (25, 1), (24, 1), (23, 1), (22, 1), (21, 1), (20, 1), (19, 1), (18, 1), (17, 1), (16, 1)])), available := (idxCounter [(0, 4), (1, 4), (2, 4), (3, 4), (4, 4), (5, 4), (6, 4), (7, 4), (8, 4), (9, 4), (10, 4), (11, 4), (12, 4), (13, 4), (14, 4), (15, 4), (16, 6), (17, 6), (18, 6), (19, 6), (20, 6), (21, 6), (22, 6), (23, 6), (24, 5), (25, 5), (26, 5), (27, 5), (28, 5), (29, 5), (30, 5), (31, 5), (32, 6), (33, 6), (34, 6), (35, 6)]) } : FillState String) (idxList (rle [(11, 4), (12, 4), (13, 4), (14, 4), (15, 4), (16, 6), (17, 6), (18, 6), (19, 6), (20, 6), (21, 6), (22, 4)])) = ({ board := (idxList (rle [(16, 1), (17, 1), (18, 1), (19, 1), (20, 1), (21, 1), (22, 1), (23, 1), (24, 1), (25, 1), (26, 1), (27, 1), (28, 1), (29, 1), (30, 1), (31, 1)])), board_items := (idxList (rle [(31, 1), (30, 1), (29, 1), (28, 1), (27, 1), (26, 1), (25, 1), (24, 1), (23, 1), (22, 1), (21, 1), (20, 1), (19, 1), (18, 1), (17, 1), (16, 1)])), available := (idxCounter [(0, 4), (1, 4), (2, 4), (3, 4), (4, 4), (5, 4), (6, 4), (7, 4), (8, 4), (9, 4), (10, 4), (11, 4), (12, 4), (13, 4), (14, 4), (15, 4), (16, 6), (17, 6), (18, 6), (19, 6), (20, 6), (21, 6), (22, 6), (23, 6), (24, 5), (25, 5), (26, 5), (27, 5), (28, 5), (29, 5), (30, 5), (31, 5), (32, 6), (33, 6), (34, 6), (35, 6)]) } : FillState String) := by decide

set_option maxRecDepth 2000 in
theorem cexFc3x3 : List.foldl fillStep ({ board := (idxList (rle [(16, 1), (17, 1), (18, 1), (19, 1), (20, 1), (21, 1), (22, 1), (23, 1), (24, 1), (25, 1), (26, 1), (27, 1), (28, 1), (29, 1), (30, 1), (31, 1)])), board_items := (idxList (rle [(31, 1), (30, 1), (29, 1), (28, 1), (27, 1), (26, 1), (25, 1), (24, 1), (23, 1), (22, 1), (21, 1), (20, 1), (19, 1), (18, 1), (17, 1), (16, 1)])), available := (idxCounter [(0, 4), (1, 4), (2, 4), (3, 4), (4, 4), (5, 4), (6, 4), (7, 4), (8, 4), (9, 4), (10, 4), (11, 4), (12, 4), (13, 4), (14, 4), (15, 4), (16, 6), (17, 6), (18, 6), (19, 6), (20, 6), (21, 6), (22, 6), (23, 6), (24, 5), (25, 5), (26, 5), (27, 5), (28, 5), (29, 5), (30, 5), (31, 5), (32, 6), (33, 6), (34, 6), (35, 6)]) } : FillState String) (idxList (rle [(22, 2), (23, 6), (24, 5), (25, 5), (26, 5), (27, 5), (28, 5), (29, 5), (30, 5), (31, 5), (32, 6), (33, 6)])) = ({ board := (idxList (rle [(16, 1), (17, 1), (18, 1), (19, 1), (20, 1), (21, 1), (22, 1), (23, 1), (24, 1), (25, 1), (26, 1), (27, 1), (28, 1), (29, 1), (30, 1), (31, 1)])), board_items := (idxList (rle [(31, 1), (30, 1), (29, 1), (28, 1), (27, 1), (26, 1), (25, 1), (24, 1), (23, 1), (22, 1), (21, 1), (20, 1), (19, 1), (18, 1), (17, 1), (16, 1)])), available := (idxCounter [(0, 4), (1, 4), (2, 4), (3, 4), (4, 4), (5, 4), (6, 4), (7, 4), (8, 4), (9, 4), (10, 4), (11, 4), (12, 4), (13, 4), (14, 4), (15, 4), (16, 6), (17, 6), (18, 6), (19, 6), (20, 6), (21, 6), (22, 6), (23, 6), (24, 5), (25, 5), (26, 5), (27, 5), (28, 5), (29, 5), (30, 5), (31, 5), (32, 6), (33, 6), (34, 6), (35, 6)]) } : FillState String) := by decide

set_option maxRecDepth 2000 in
theorem cexFc3x4 : List.foldl fillStep ({ board := (idxList (rle [(16, 1), (17, 1), (18, 1), (19, 1), (20, 1), (21, 1), (22, 1), (23, 1), (24, 1), (25, 1), (26, 1), (27, 1), (28, 1), (29, 1), (30, 1), (31, 1)])), board_items := (idxList (rle [(31, 1), (30, 1), (29, 1), (28, 1), (27, 1), (26, 1), (25, 1), (24, 1), (23, 1), (22, 1), (21, 1), (20, 1), (19, 1), (18, 1), (17, 1), (16, 1)])), available := (idxCounter [(0, 4), (1, 4), (2, 4), (3, 4), (4, 4), (5, 4), (6, 4), (7, 4), (8, 4), (9, 4), (10, 4), (11, 4), (12, 4), (13, 4), (14, 4), (15, 4), (16, 6), (17, 6), (18, 6), (19, 6), (20, 6), (21, 6), (22, 6), (23, 6), (24, 5), (25, 5), (26, 5), (27, 5), (28, 5), (29, 5), (30, 5), (31, 5), (32, 6), (33, 6), (34, 6), (35, 6)]) } : FillState String) (idxList (rle [(34, 6), (35, 6)])) = ({ board := (idxList (rle [(16, 1), (17, 1), (18, 1), (19, 1), (20, 1), (21, 1), (22, 1), (23, 1), (24, 1), (25, 1), (26, 1), (27, 1), (28, 1), (29, 1), (30, 1), (31, 1)])), board_items := (idxList (rle [(31, 1), (30, 1), (29, 1), (28, 1), (27, 1), (26, 1), (25, 1), (24, 1), (23, 1), (22, 1), (21, 1), (20, 1), (19, 1), (18, 1), (17, 1), (16, 1)])), available := (idxCounter [(0, 4), (1, 4), (2, 4), (3, 4), (4, 4), (5, 4), (6, 4), (7, 4), (8, 4), (9, 4), (10, 4), (11, 4), (12, 4), (13, 4), (14, 4), (15, 4), (16, 6), (17, 6), (18, 6), (19, 6), (20, 6), (21, 6), (22, 6), (23, 6), (24, 5), (25, 5), (26, 5), (27, 5), (28, 5), (29, 5), (30, 5), (31, 5), (32, 6), (33, 6), (34, 6), (35, 6)]) } : FillState String) := by decide

theorem cexFill3 : fillBoard (idxCounter [(0, 4), (1, 4), (2, 4), (3, 4), (4, 4), (5, 4), (6, 4), (7, 4), (8, 4), (9, 4), (10, 4), (11, 4), (12, 4), (13, 4), (14, 4), (15, 4), (16, 7), (17, 7), (18, 7), (19, 7), (20, 7), (21, 7), (22, 7), (23, 7), (24, 6), (25, 6), (26, 6), (27, 6), (28, 6), (29, 6), (30, 6), (31, 6), (32, 6), (33, 6), (34, 6), (35, 6)]) ((idxList (rle [(16, 1), (17, 1), (18, 1), (19, 1), (20, 1), (21, 1), (22, 1), (23, 1), (24, 1), (25, 1), (26, 1), (27, 1), (28, 1), (29, 1), (30, 1), (31, 1), (0, 4), (1, 4), (2, 4), (3, 4), (4, 4), (5, 4), (6, 4), (7, 4), (8, 4), (9, 4), (10, 4)])) ++ ((idxList (rle [(11, 4), (12, 4), (13, 4), (14, 4), (15, 4), (16, 6), (17, 6), (18, 6), (19, 6), (20, 6), (21, 6), (22, 4)])) ++ ((idxList (rle [(22, 2), (23, 6), (24, 5), (25, 5), (26, 5), (27, 5), (28, 5), (29, 5), (30, 5), (31, 5), (32, 6), (33, 6)])) ++ (idxList (rle [(34, 6), (35, 6)]))))) = ({ board := (idxList (rle [(16, 1), (17, 1), (18, 1), (19, 1), (20, 1), (21, 1), (22, 1), (23, 1), (24, 1), (25, 1), (26, 1), (27, 1), (28, 1), (29, 1), (30, 1), (31, 1)])), board_items := (idxList (rle [(31, 1), (30, 1), (29, 1), (28, 1), (27, 1), (26, 1), (25, 1), (24, 1), (23, 1), (22, 1), (21, 1), (20, 1), (19, 1), (18, 1), (17, 1), (16, 1)])), available := (idxCounter [(0, 4), (1, 4), (2, 4), (3, 4), (4, 4), (5, 4), (6, 4), (7, 4), (8, 4), (9, 4), (10, 4), (11, 4), (12, 4), (13, 4), (14, 4), (15, 4), (16, 6), (17, 6), (18, 6), (19, 6), (20, 6), (21, 6), (22, 6), (23, 6), (24, 5), (25, 5), (26, 5), (27, 5), (28, 5), (29, 5), (30, 5), (31, 5), (32, 6), (33, 6), (34, 6), (35, 6)]) } : FillState String) := by
  unfold fillBoard
  rw [List.foldl_append, cexFc3x1, List.foldl_append, cexFc3x2, List.foldl_append, cexFc3x3, cexFc3x4]

set_option maxRecDepth 2000 in
theorem cexEl4 : elements (idxCounter [(0, 4), (1, 4), (2, 4), (3, 4), (4, 4), (5, 4), (6, 4), (7, 4), (8, 4), (9, 4), (10, 4), (11, 4), (12, 4), (13, 4), (14, 4), (15, 4), (16, 6), (17, 6), (18, 6), (19, 6), (20, 6), (21, 6), (22, 6), (23, 6), (24, 5), (25, 5), (26, 5), (27, 5), (28, 5), (29, 5), (30, 5), (31, 5), (32, 6), (33, 6), (34, 6), (35, 6)]) = (idxList (rle [(0, 4), (1, 4), (2, 4), (3, 4), (4, 4), (5, 4), (6, 4), (7, 4), (8, 4), (9, 4), (10, 4), (11, 4), (12, 4), (13, 4), (14, 4), (15, 4), (16, 6), (17, 6), (18, 6), (19, 6), (20, 6), (21, 6), (22, 6), (23, 6), (24, 5), (25, 5), (26, 5), (27, 5), (28, 5), (29, 5), (30, 5), (31, 5), (32, 6), (33, 6), (34, 6), (35, 6)])) := by decide

set_option maxRecDepth 2000 in
theorem cexSh4 : (scriptG 4 (idxList (rle [(0, 4), (1, 4), (2, 4), (3, 4), (4, 4), (5, 4), (6, 4), (7, 4), (8, 4), (9, 4), (10, 4), (11, 4), (12, 4), (13, 4), (14, 4), (15, 4), (16, 6), (17, 6), (18, 6), (19, 6), (20, 6), (21, 6), (22, 6), (23, 6), (24, 5), (25, 5), (26, 5), (27, 5), (28, 5), (29, 5), (30, 5), (31, 5), (32, 6), (33, 6), (34, 6), (35, 6)]))).1 = ((idxList (rle [(32, 1), (33, 1), (34, 1), (35, 1), (0, 1), (1, 1), (2, 1), (3, 1), (4, 1), (5, 1), (6, 1), (7, 1), (8, 1), (9, 1), (10, 1), (11, 1), (0, 3), (1, 3), (2, 3), (3, 3), (4, 3), (5, 3), (6, 3), (7, 3), (8, 3), (9, 3), (10, 3), (11, 3), (12, 4), (13, 4)])) ++ ((idxList (rle [(14, 4), (15, 4), (16, 6), (17, 6), (18, 6), (19, 6), (20, 6), (21, 6), (22, 6), (23, 6), (24, 4)])) ++ (idxList (rle [(24, 1), (25, 5), (26, 5), (27, 5), (28, 5), (29, 5), (30, 5), (31, 5), (32, 5), (33, 5), (34, 5), (35, 5)])))) := by decide

theorem cexShS4 : (scriptG 4 (idxList (rle [(0, 4), (1, 4), (2, 4), (3, 4), (4, 4), (5, 4), (6, 4), (7, 4), (8, 4), (9, 4), (10, 4), (11, 4), (12, 4), (13, 4), (14, 4), (15, 4), (16, 6), (17, 6), (18, 6), (19, 6), (20, 6), (21, 6), (22, 6), (23, 6), (24, 5), (25, 5), (26, 5), (27, 5), (28, 5), (29, 5), (30, 5), (31, 5), (32, 6), (33, 6), (34, 6), (35, 6)]))).2 = 5 := rfl

set_option maxRecDepth 2000 in
theorem cexFc4x1 : List.foldl fillStep ({ board := [], board_items := [], available := (idxCounter [(0, 4), (1, 4), (2, 4), (3, 4), (4, 4), (5, 4), (6, 4), (7, 4), (8, 4), (9, 4), (10, 4), (11, 4), (12, 4), (13, 4), (14, 4), (15, 4), (16, 6), (17, 6), (18, 6), (19, 6), (20, 6), (21, 6), (22, 6), (23, 6), (24, 5), (25, 5), (26, 5), (27, 5), (28, 5), (29, 5), (30, 5), (31, 5), (32, 6), (33, 6), (34, 6), (35, 6)]) } : FillState String) (idxList (rle [(32, 1), (33, 1), (34, 1), (35, 1), (0, 1), (1, 1), (2, 1), (3, 1), (4, 1), (5, 1), (6, 1), (7, 1), (8, 1), (9, 1), (10, 1), (11, 1), (0, 3), (1, 3), (2, 3), (3, 3), (4, 3), (5, 3), (6, 3), (7, 3), (8, 3), (9, 3), (10, 3), (11, 3), (12, 4), (13, 4)])) = ({ board := (idxList (rle [(32, 1), (33, 1), (34, 1), (35, 1), (0, 1), (1, 1), (2, 1), (3, 1), (4, 1), (5, 1), (6, 1), (7, 1), (8, 1), (9, 1), (10, 1), (11, 1)])), board_items := (idxList (rle [(11, 1), (10, 1), (9, 1), (8, 1), (7, 1), (6, 1), (5, 1), (4, 1), (3, 1), (2, 1), (1, 1), (0, 1), (35, 1), (34, 1), (33, 1), (32, 1)])), available := (idxCounter [(0, 3), (1, 3), (2, 3), (3, 3), (4, 3), (5, 3), (6, 3), (7, 3), (8, 3), (9, 3), (10, 3), (11, 3), (12, 4), (13, 4), (14, 4), (15, 4), (16, 6), (17, 6), (18, 6), (19, 6), (20, 6), (21, 6), (22, 6), (23, 6), (24, 5), (25, 5), (26, 5), (27, 5), (28, 5), (29, 5), (30, 5), (31, 5), (32, 5), (33, 5), (34, 5), (35, 5)]) } : FillState String) := by decide

set_option maxRecDepth 2000 in
theorem cexFc4x2 : List.foldl fillStep ({ board := (idxList (rle [(32, 1), (33, 1), (34, 1), (35, 1), (0, 1), (1, 1), (2, 1), (3, 1), (4, 1), (5, 1), (6, 1), (7, 1), (8, 1), (9, 1), (10, 1), (11, 1)])), board_items := (idxList (rle [(11, 1), (10, 1), (9, 1), (8, 1), (7, 1), (6, 1), (5, 1), (4, 1), (3, 1), (2, 1), (1, 1), (0, 1), (35, 1), (34, 1), (33, 1), (32, 1)])), available := (idxCounter [(0, 3), (1, 3), (2, 3), (3, 3), (4, 3), (5, 3), (6, 3), (7, 3), (8, 3), (9, 3), (10, 3), (11, 3), (12, 4), (13, 4), (14, 4), (15, 4), (16, 6), (17, 6), (18, 6), (19, 6), (20, 6), (21, 6), (22, 6), (23, 6), (24, 5), (25, 5), (26, 5), (27, 5), (28, 5), (29, 5), (30, 5), (31, 5), (32, 5), (33, 5), (34, 5), (35, 5)]) } : FillState String) (idxList (rle [(14, 4), (15, 4), (16, 6), (17, 6), (18, 6), (19, 6), (20, 6), (21, 6), (22, 6), (23, 6), (24, 4)])) = ({ board := (idxList (rle [(32, 1), (33, 1), (34, 1), (35, 1), (0, 1), (1, 1), (2, 1), (3, 1), (4, 1), (5, 1), (6, 1), (7, 1), (8, 1), (9, 1), (10, 1), (11, 1)])), board_items := (idxList (rle [(11, 1), (10, 1), (9, 1), (8, 1), (7, 1), (6, 1), (5, 1), (4, 1), (3, 1), (2, 1), (1, 1), (0, 1), (35, 1), (34, 1), (33, 1), (32, 1)])), available := (idxCounter [(0, 3), (1, 3), (2, 3), (3, 3), (4, 3), (5, 3), (6, 3), (7, 3), (8, 3), (9, 3), (10, 3), (11, 3), (12, 4), (13, 4), (14, 4), (15, 4), (16, 6), (17, 6), (18, 6), (19, 6), (20, 6), (21, 6), (22, 6), (23, 6), (24, 5), (25, 5), (26, 5), (27, 5), (28, 5), (29, 5), (30, 5), (31, 5), (32, 5), (33, 5), (34, 5), (35, 5)]) } : FillState String) := by decide

set_option maxRecDepth 2000 in
theorem cexFc4x3 : List.foldl fillStep ({ board := (idxList (rle [(32, 1), (33, 1), (34, 1), (35, 1), (0, 1), (1, 1), (2, 1), (3, 1), (4, 1), (5, 1), (6, 1), (7, 1), (8, 1), (9, 1), (10, 1), (11, 1)])), board_items := (idxList (rle [(11, 1), (10, 1), (9, 1), (8, 1), (7, 1), (6, 1), (5, 1), (4, 1), (3, 1), (2, 1), (1, 1), (0, 1), (35, 1), (34, 1), (33, 1), (32, 1)])), available := (idxCounter [(0, 3), (1, 3), (2, 3), (3, 3), (4, 3), (5, 3), (6, 3), (7, 3), (8, 3), (9, 3), (10, 3), (11, 3), (12, 4), (13, 4), (14, 4), (15, 4), (16, 6), (17, 6), (18, 6), (19, 6), (20, 6), (21, 6), (22, 6), (23, 6), (24, 5), (25, 5), (26, 5), (27, 5), (28, 5), (29, 5), (30, 5), (31, 5), (32, 5), (33, 5), (34, 5), (35, 5)]) } : FillState String) (idxList (rle [(24, 1), (25, 5), (26, 5), (27, 5), (28, 5), (29, 5), (30, 5), (31, 5), (32, 5), (33, 5), (34, 5), (35, 5)])) = ({ board := (idxList (rle [(32, 1), (33, 1), (34, 1), (35, 1), (0, 1), (1, 1), (2, 1), (3, 1), (4, 1), (5, 1), (6, 1), (7, 1), (8, 1), (9, 1), (10, 1), (11, 1)])), board_items := (idxList (rle [(11, 1), (10, 1), (9, 1), (8, 1), (7, 1), (6, 1), (5, 1), (4, 1), (3, 1), (2, 1), (1, 1), (0, 1), (35, 1), (34, 1), (33, 1), (32, 1)])), available := (idxCounter [(0, 3), (1, 3), (2, 3), (3, 3), (4, 3), (5, 3), (6, 3), (7, 3), (8, 3), (9, 3), (10, 3), (11, 3), (12, 4), (13, 4), (14, 4), (15, 4), (16, 6), (17, 6), (18, 6), (19, 6), (20, 6), (21, 6), (22, 6), (23, 6), (24, 5), (25, 5), (26, 5), (27, 5), (28, 5), (29, 5), (30, 5), (31, 5), (32, 5), (33, 5), (34, 5), (35, 5)]) } : FillState String) := by decide

theorem cexFill4 : fillBoard (idxCounter [(0, 4), (1, 4), (2, 4), (3, 4), (4, 4), (5, 4), (6, 4), (7, 4), (8, 4), (9, 4), (10, 4), (11, 4), (12, 4), (13, 4), (14, 4), (15, 4), (16, 6), (17, 6), (18, 6), (19, 6), (20, 6), (21, 6), (22, 6), (23, 6), (24, 5), (25, 5), (26, 5), (27, 5), (28, 5), (29, 5), (30, 5), (31, 5), (32, 6), (33, 6), (34, 6), (35, 6)]) ((idxList (rle [(32, 1), (33, 1), (34, 1), (35, 1), (0, 1), (1, 1), (2, 1), (3, 1), (4, 1), (5, 1), (6, 1), (7, 1), (8, 1), (9, 1), (10, 1), (11, 1), (0, 3), (1, 3), (2, 3), (3, 3), (4, 3), (5, 3), (6, 3), (7, 3), (8, 3), (9, 3), (10, 3), (11, 3), (12, 4), (13, 4)])) ++ ((idxList (rle [(14, 4), (15, 4), (16, 6), (17, 6), (18, 6), (19, 6), (20, 6), (21, 6), (22, 6), (23, 6), (24, 4)])) ++ (idxList (rle [(24, 1), (25, 5), (26, 5), (27, 5), (28, 5), (29, 5), (30, 5), (31, 5), (32, 5), (33, 5), (34, 5), (35, 5)])))) = ({ board := (idxList (rle [(32, 1), (33, 1), (34, 1), (35, 1), (0, 1), (1, 1), (2, 1), (3, 1), (4, 1), (5, 1), (6, 1), (7, 1), (8, 1), (9, 1), (10, 1), (11, 1)])), board_items := (idxList (rle [(11, 1), (10, 1), (9, 1), (8, 1), (7, 1), (6, 1), (5, 1), (4, 1), (3, 1), (2, 1), (1, 1), (0, 1), (35, 1), (34, 1), (33, 1), (32, 1)])), available := (idxCounter [(0, 3), (1, 3), (2, 3), (3, 3), (4, 3), (5, 3), (6, 3), (7, 3), (8, 3), (9, 3), (10, 3), (11, 3), (12, 4), (13, 4), (14, 4), (15, 4), (16, 6), (17, 6), (18, 6), (19, 6), (20, 6), (21, 6), (22, 6), (23, 6), (24, 5), (25, 5), (26, 5), (27, 5), (28, 5), (29, 5), (30, 5), (31, 5), (32, 5), (33, 5), (34, 5), (35, 5)]) } : FillState String) := by
  unfold fillBoard
  rw [List.foldl_append, cexFc4x1, List.foldl_append, cexFc4x2, cexFc4x3]

set_option maxRecDepth 2000 in
theorem cexEl5 : elements (idxCounter [(0, 3), (1, 3), (2, 3), (3, 3), (4, 3), (5, 3), (6, 3), (7, 3), (8, 3), (9, 3), (10, 3), (11, 3), (12, 4), (13, 4), (14, 4), (15, 4), (16, 6), (17, 6), (18, 6), (19, 6), (20, 6), (21, 6), (22, 6), (23, 6), (24, 5), (25, 5), (26, 5), (27, 5), (28, 5), (29, 5), (30, 5), (31, 5), (32, 5), (33, 5), (34, 5), (35, 5)]) = (idxList (rle [(0, 3), (1, 3), (2, 3), (3, 3), (4, 3), (5, 3), (6, 3), (7, 3), (8, 3), (9, 3), (10, 3), (11, 3), (12, 4), (13, 4), (14, 4), (15, 4), (16, 6), (17, 6), (18, 6), (19, 6), (20, 6), (21, 6), (22, 6), (23, 6), (24, 5), (25, 5), (26, 5), (27, 5), (28, 5), (29, 5), (30, 5), (31, 5), (32, 5), (33, 5), (34, 5), (35, 5)])) := by decide

set_option maxRecDepth 2000 in
theorem cexSh5 : (scriptG 5 (idxList (rle [(0, 3), (1, 3), (2, 3), (3, 3), (4, 3), (5, 3), (6, 3), (7, 3), (8, 3), (9, 3), (10, 3), (11, 3), (12, 4), (13, 4), (14, 4), (15, 4), (16, 6), (17, 6), (18, 6), (19, 6), (20, 6), (21, 6), (22, 6), (23, 6), (24, 5), (25, 5), (26, 5), (27, 5), (28, 5), (29, 5), (30, 5), (31, 5), (32, 5), (33, 5), (34, 5), (35, 5)]))).1 = ((idxList (rle [(12, 1), (13, 1), (14, 1), (15, 1), (16, 1), (17, 1), (18, 1), (19, 1), (20, 1), (21, 1), (22, 1), (23, 1), (24, 1), (25, 1), (26, 1), (27, 1), (0, 3), (1, 3), (2, 3), (3, 3), (4, 3), (5, 3), (6, 3), (7, 3), (8, 3), (9, 3), (10, 3), (11, 3), (12, 3), (13, 3), (14, 2)])) ++ ((idxList (rle [(14, 1), (15, 3), (16, 5), (17, 5), (18, 5), (19, 5), (20, 5), (21, 5), (22, 5), (23, 5), (24, 4), (25, 4), (26, 4), (27, 4)])) ++ (idxList (rle [(28, 5), (29, 5), (30, 5), (31, 5), (32, 5), (33, 5), (34, 5), (35, 5)])))) := by decide

theorem cexShS5 : (scriptG 5 (idxList (rle [(0, 3), (1, 3), (2, 3), (3, 3), (4, 3), (5, 3), (6, 3), (7, 3), (8, 3), (9, 3), (10, 3), (11, 3), (12, 4), (13, 4), (14, 4), (15, 4), (16, 6), (17, 6), (18, 6), (19, 6), (20, 6), (21, 6), (22, 6), (23, 6), (24, 5), (25, 5), (26, 5), (27, 5), (28, 5), (29, 5), (30, 5), (31, 5), (32, 5), (33, 5), (34, 5), (35, 5)]))).2 = 6 := rfl

set_option maxRecDepth 2000 in
theorem cexFc5x1 : List.foldl fillStep ({ board := [], board_items := [], available := (idxCounter [(0, 3), (1, 3), (2, 3), (3, 3), (4, 3), (5, 3), (6, 3), (7, 3), (8, 3), (9, 3), (10, 3), (11, 3), (12, 4), (13, 4), (14, 4), (15, 4), (16, 6), (17, 6), (18, 6), (19, 6), (20, 6), (21, 6), (22, 6), (23, 6), (24, 5), (25, 5), (26, 5), (27, 5), (28, 5), (29, 5), (30, 5), (31, 5), (32, 5), (33, 5), (34, 5), (35, 5)]) } : FillState String) (idxList (rle [(12, 1), (13, 1), (14, 1), (15, 1), (16, 1), (17, 1), (18, 1), (19, 1), (20, 1), (21, 1), (22, 1), (23, 1), (24, 1), (25, 1), (26, 1), (27, 1), (0, 3), (1, 3), (2, 3), (3, 3), (4, 3), (5, 3), (6, 3), (7, 3), (8, 3), (9, 3), (10, 3), (11, 3), (12, 3), (13, 3), (14, 2)])) = ({ board := (idxList (rle [(12, 1), (13, 1), (14, 1), (15, 1), (16, 1), (17, 1), (18, 1), (19, 1), (20, 1), (21, 1), (22, 1), (23, 1), (24, 1), (25, 1), (26, 1), (27, 1)])), board_items := (idxList (rle [(27, 1), (26, 1), (25, 1), (24, 1), (23, 1), (22, 1), (21, 1), (20, 1), (19, 1), (18, 1), (17, 1), (16, 1), (15, 1), (14, 1), (13, 1), (12, 1)])), available := (idxCounter [(0, 3), (1, 3), (2, 3), (3, 3), (4, 3), (5, 3), (6, 3), (7, 3), (8, 3), (9, 3), (10, 3), (11, 3), (12, 3), (13, 3), (14, 3), (15, 3), (16, 5), (17, 5), (18, 5), (19, 5), (20, 5), (21, 5), (22, 5), (23, 5), (24, 4), (25, 4), (26, 4), (27, 4), (28, 5), (29, 5), (30, 5), (31, 5), (32, 5), (33, 5), (34, 5), (35, 5)]) } : FillState String) := by decide

set_option maxRecDepth 2000 in
theorem cexFc5x2 : List.foldl fillStep ({ board := (idxList (rle [(12, 1), (13, 1), (14, 1), (15, 1), (16, 1), (17, 1), (18, 1), (19, 1), (20, 1), (21, 1), (22, 1), (23, 1), (24, 1), (25, 1), (26, 1), (27, 1)])), board_items := (idxList (rle [(27, 1), (26, 1), (25, 1), (24, 1), (23, 1), (22, 1), (21, 1), (20, 1), (19, 1), (18, 1), (17, 1), (16, 1), (15, 1), (14, 1), (13, 1), (12, 1)])), available := (idxCounter [(0, 3), (1, 3), (2, 3), (3, 3), (4, 3), (5, 3), (6, 3), (7, 3), (8, 3), (9, 3), (10, 3), (11, 3), (12, 3), (13, 3), (14, 3), (15, 3), (16, 5), (17, 5), (18, 5), (19, 5), (20, 5), (21, 5), (22, 5), (23, 5), (24, 4), (25, 4), (26, 4), (27, 4), (28, 5), (29, 5), (30, 5), (31, 5), (32, 5), (33, 5), (34, 5), (35, 5)]) } : FillState String) (idxList (rle [(14, 1), (15, 3), (16, 5), (17, 5), (18, 5), (19, 5), (20, 5), (21, 5), (22, 5), (23, 5), (24, 4), (25, 4), (26, 4), (27, 4)])) = ({ board := (idxList (rle [(12, 1), (13, 1), (14, 1), (15, 1), (16, 1), (17, 1), (18, 1), (19, 1), (20, 1), (21, 1), (22, 1), (23, 1), (24, 1), (25, 1), (26, 1), (27, 1)])), board_items := (idxList (rle [(27, 1), (26, 1), (25, 1), (24, 1), (23, 1), (22, 1), (21, 1), (20, 1), (19, 1), (18, 1), (17, 1), (16, 1), (15, 1), (14, 1), (13, 1), (12, 1)])), available := (idxCounter [(0, 3), (1, 3), (2, 3), (3, 3), (4, 3), (5, 3), (6, 3), (7, 3), (8, 3), (9, 3), (10, 3), (11, 3), (12, 3), (13, 3), (14, 3), (15, 3), (16, 5), (17, 5), (18, 5), (19, 5), (20, 5), (21, 5), (22, 5), (23, 5), (24, 4), (25, 4), (26, 4), (27, 4), (28, 5), (29, 5), (30, 5), (31, 5), (32, 5), (33, 5), (34, 5), (35, 5)]) } : FillState String) := by decide

set_option maxRecDepth 2000 in
theorem cexFc5x3 : List.foldl fillStep ({ board := (idxList (rle [(12, 1), (13, 1), (14, 1), (15, 1), (16, 1), (17, 1), (18, 1), (19, 1), (20, 1), (21, 1), (22, 1), (23, 1), (24, 1), (25, 1), (26, 1), (27, 1)])), board_items := (idxList (rle [(27, 1), (26, 1), (25, 1), (24, 1), (23, 1), (22, 1), (21, 1), (20, 1), (19, 1), (18, 1), (17, 1), (16, 1), (15, 1), (14, 1), (13, 1), (12, 1)])), available := (idxCounter [(0, 3), (1, 3), (2, 3), (3, 3), (4, 3), (5, 3), (6, 3), (7, 3), (8, 3), (9, 3), (10, 3), (11, 3), (12, 3), (13, 3), (14, 3), (15, 3), (16, 5), (17, 5), (18, 5), (19, 5), (20, 5), (21, 5), (22, 5), (23, 5), (24, 4), (25, 4), (26, 4), (27, 4), (28, 5), (29, 5), (30, 5), (31, 5), (32, 5), (33, 5), (34, 5), (35, 5)]) } : FillState String) (idxList (rle [(28, 5), (29, 5), (30, 5), (31, 5), (32, 5), (33, 5), (34, 5), (35, 5)])) = ({ board := (idxList (rle [(12, 1), (13, 1), (14, 1), (15, 1), (16, 1), (17, 1), (18, 1), (19, 1), (20, 1), (21, 1), (22, 1), (23, 1), (24, 1), (25, 1), (26, 1), (27, 1)])), board_items := (idxList (rle [(27, 1), (26, 1), (25, 1), (24, 1), (23, 1), (22, 1), (21, 1), (20, 1), (19, 1), (18, 1), (17, 1), (16, 1), (15, 1), (14, 1), (13, 1), (12, 1)])), available := (idxCounter [(0, 3), (1, 3), (2, 3), (3, 3), (4, 3), (5, 3), (6, 3), (7, 3), (8, 3), (9, 3), (10, 3), (11, 3), (12, 3), (13, 3), (14, 3), (15, 3), (16, 5), (17, 5), (18, 5), (19, 5), (20, 5), (21, 5), (22, 5), (23, 5), (24, 4), (25, 4), (26, 4), (27, 4), (28, 5), (29, 5), (30, 5), (31, 5), (32, 5), (33, 5), (34, 5), (35, 5)]) } : FillState String) := by decide

theorem cexFill5 : fillBoard (idxCounter [(0, 3), (1, 3), (2, 3), (3, 3), (4, 3), (5, 3), (6, 3), (7, 3), (8, 3), (9, 3), (10, 3), (11, 3), (12, 4), (13, 4), (14, 4), (15, 4), (16, 6), (17, 6), (18, 6), (19, 6), (20, 6), (21, 6), (22, 6), (23, 6), (24, 5), (25, 5), (26, 5), (27, 5), (28, 5), (29, 5), (30, 5), (31, 5), (32, 5), (33, 5), (34, 5), (35, 5)]) ((idxList (rle [(12, 1), (13, 1), (14, 1), (15, 1), (16, 1), (17, 1), (18, 1), (19, 1), (20, 1), (21, 1), (22, 1), (23, 1), (24, 1), (25, 1), (26, 1), (27, 1), (0, 3), (1, 3), (2, 3), (3, 3), (4, 3), (5, 3), (6, 3), (7, 3), (8, 3), (9, 3), (10, 3), (11, 3), (12, 3), (13, 3), (14, 2)])) ++ ((idxList (rle [(14, 1), (15, 3), (16, 5), (17, 5), (18, 5), (19, 5), (20, 5), (21, 5), (22, 5), (23, 5), (24, 4), (25, 4), (26, 4), (27, 4)])) ++ (idxList (rle [(28, 5), (29, 5), (30, 5), (31, 5), (32, 5), (33, 5), (34, 5), (35, 5)])))) = ({ board := (idxList (rle [(12, 1), (13, 1), (14, 1), (15, 1), (16, 1), (17, 1), (18, 1), (19, 1), (20, 1), (21, 1), (22, 1), (23, 1), (24, 1), (25, 1), (26, 1), (27, 1)])), board_items := (idxList (rle [(27, 1), (26, 1), (25, 1), (24, 1), (23, 1), (22, 1), (21, 1), (20, 1), (19, 1), (18, 1), (17, 1), (16, 1), (15, 1), (14, 1), (13, 1), (12, 1)])), available := (idxCounter [(0, 3), (1, 3), (2, 3), (3, 3), (4, 3), (5, 3), (6, 3), (7, 3), (8, 3), (9, 3), (10, 3), (11, 3), (12, 3), (13, 3), (14, 3), (15, 3), (16, 5), (17, 5), (18, 5), (19, 5), (20, 5), (21, 5), (22, 5), (23, 5), (24, 4), (25, 4), (26, 4), (27, 4), (28, 5), (29, 5), (30, 5), (31, 5), (32, 5), (33, 5), (34, 5), (35, 5)]) } : FillState String) := by
  unfold fillBoard
  rw [List.foldl_append, cexFc5x1, List.foldl_append, cexFc5x2, cexFc5x3]

set_option maxRecDepth 2000 in
theorem cexEl6 : elements (idxCounter [(0, 3), (1, 3), (2, 3), (3, 3), (4, 3), (5, 3), (6, 3), (7, 3), (8, 3), (9, 3), (10, 3), (11, 3), (12, 3), (13, 3), (14, 3), (15, 3), (16, 5), (17, 5), (18, 5), (19, 5), (20, 5), (21, 5), (22, 5), (23, 5), (24, 4), (25, 4), (26, 4), (27, 4), (28, 5), (29, 5), (30, 5), (31, 5), (32, 5), (33, 5), (34, 5), (35, 5)]) = (idxList (rle [(0, 3), (1, 3), (2, 3), (3, 3), (4, 3), (5, 3), (6, 3), (7, 3), (8, 3), (9, 3), (10, 3), (11, 3), (12, 3), (13, 3), (14, 3), (15, 3), (16, 5), (17, 5), (18, 5), (19, 5), (20, 5), (21, 5), (22, 5), (23, 5), (24, 4), (25, 4), (26, 4), (27, 4), (28, 5), (29, 5), (30, 5), (31, 5), (32, 5), (33, 5), (34, 5), (35, 5)])) := by decide

set_option maxRecDepth 2000 in
theorem cexSh6 : (scriptG 6 (idxList (rle [(0, 3), (1, 3), (2, 3), (3, 3), (4, 3), (5, 3), (6, 3), (7, 3), (8, 3), (9, 3), (10, 3), (11, 3), (12, 3), (13, 3), (14, 3), (15, 3), (16, 5), (17, 5), (18, 5), (19, 5), (20, 5), (21, 5), (22, 5), (23, 5), (24, 4), (25, 4), (26, 4), (27, 4), (28, 5), (29, 5), (30, 5), (31, 5), (32, 5), (33, 5), (34, 5), (35, 5)]))).1 = ((idxList (rle [(28, 1), (29, 1), (30, 1), (31, 1), (32, 1), (33, 1), (34, 1), (35, 1), (0, 1), (1, 1), (2, 1), (3, 1), (4, 1), (5, 1), (6, 1), (7, 1), (0, 2), (1, 2), (2, 2), (3, 2), (4, 2), (5, 2), (6, 2), (7, 2), (8, 3), (9, 3), (10, 3), (11, 3), (12, 3), (13, 3), (14, 3), (15, 3), (16, 4)])) ++ ((idxList (rle [(16, 1), (17, 5), (18, 5), (19, 5), (20, 5), (21, 5), (22, 5), (23, 5), (24, 4), (25, 4), (26, 4), (27, 4), (28, 4), (29, 4)])) ++ (idxList (rle [(30, 4), (31, 4), (32, 4), (33, 4), (34, 4), (35, 4)])))) := by decide

theorem cexShS6 : (scriptG 6 (idxList (rle [(0, 3), (1, 3), (2, 3), (3, 3), (4, 3), (5, 3), (6, 3), (7, 3), (8, 3), (9, 3), (10, 3), (11, 3), (12, 3), (13, 3), (14, 3), (15, 3), (16, 5), (17, 5), (18, 5), (19, 5), (20, 5), (21, 5), (22, 5), (23, 5), (24, 4), (25, 4), (26, 4), (27, 4), (28, 5), (29, 5), (30, 5), (31, 5), (32, 5), (33, 5), (34, 5), (35, 5)]))).2 = 7 := rfl

set_option maxRecDepth 2000 in
theorem cexFc6x1 : List.foldl fillStep ({ board := [], board_items := [], available := (idxCounter [(0, 3), (1, 3), (2, 3), (3, 3), (4, 3), (5, 3), (6, 3), (7, 3), (8, 3), (9, 3), (10, 3), (11, 3), (12, 3), (13, 3), (14, 3), (15, 3), (16, 5), (17, 5), (18, 5), (19, 5), (20, 5), (21, 5), (22, 5), (23, 5), (24, 4), (25, 4), (26, 4), (27, 4), (28, 5), (29, 5), (30, 5), (31, 5), (32, 5), (33, 5), (34, 5), (35, 5)]) } : FillState String) (idxList (rle [(28, 1), (29, 1), (30, 1), (31, 1), (32, 1), (33, 1), (34, 1), (35, 1), (0, 1), (1, 1), (2, 1), (3, 1), (4, 1), (5, 1), (6, 1), (7, 1), (0, 2), (1, 2), (2, 2), (3, 2), (4, 2), (5, 2), (6, 2), (7, 2), (8, 3), (9, 3), (10, 3), (11, 3), (12, 3), (13, 3), (14, 3), (15, 3), (16, 4)])) = ({ board := (idxList (rle [(28, 1), (29, 1), (30, 1), (31, 1), (32, 1), (33, 1), (34, 1), (35, 1), (0, 1), (1, 1), (2, 1), (3, 1), (4, 1), (5, 1), (6, 1), (7, 1)])), board_items := (idxList (rle [(7, 1), (6, 1), (5, 1), (4, 1), (3, 1), (2, 1), (1, 1), (0, 1), (35, 1), (34, 1), (33, 1), (32, 1), (31, 1), (30, 1), (29, 1), (28, 1)])), available := (idxCounter [(0, 2), (1, 2), (2, 2), (3, 2), (4, 2), (5, 2), (6, 2), (7, 2), (8, 3), (9, 3), (10, 3), (11, 3), (12, 3), (13, 3), (14, 3), (15, 3), (16, 5), (17, 5), (18, 5), (19, 5), (20, 5), (21, 5), (22, 5), (23, 5), (24, 4), (25, 4), (26, 4), (27, 4), (28, 4), (29, 4), (30, 4), (31, 4), (32, 4), (33, 4), (34, 4), (35, 4)]) } : FillState String) := by decide

set_option maxRecDepth 2000 in
theorem cexFc6x2 : List.foldl fillStep ({ board := (idxList (rle [(28, 1), (29, 1), (30, 1), (31, 1), (32, 1), (33, 1), (34, 1), (35, 1), (0, 1), (1, 1), (2, 1), (3, 1), (4, 1), (5, 1), (6, 1), (7, 1)])), board_items := (idxList (rle [(7, 1), (6, 1), (5, 1), (4, 1), (3, 1), (2, 1), (1, 1), (0, 1), (35, 1), (34, 1), (33, 1), (32, 1), (31, 1), (30, 1), (29, 1), (28, 1)])), available := (idxCounter [(0, 2), (1, 2), (2, 2), (3, 2), (4, 2), (5, 2), (6, 2), (7, 2), (8, 3), (9, 3), (10, 3), (11, 3), (12, 3), (13, 3), (14, 3), (15, 3), (16, 5), (17, 5), (18, 5), (19, 5), (20, 5), (21, 5), (22, 5), (23, 5), (24, 4), (25, 4), (26, 4), (27, 4), (28, 4), (29, 4), (30, 4), (31, 4), (32, 4), (33, 4), (34, 4), (35, 4)]) } : FillState String) (idxList (rle [(16, 1), (17, 5), (18, 5), (19, 5), (20, 5), (21, 5), (22, 5), (23, 5), (24, 4), (25, 4), (26, 4), (27, 4), (28, 4), (29, 4)])) = ({ board := (idxList (rle [(28, 1), (29, 1), (30, 1), (31, 1), (32, 1), (33, 1), (34, 1), (35, 1), (0, 1), (1, 1), (2, 1), (3, 1), (4, 1), (5, 1), (6, 1), (7, 1)])), board_items := (idxList (rle [(7, 1), (6, 1), (5, 1), (4, 1), (3, 1), (2, 1), (1, 1), (0, 1), (35, 1), (34, 1), (33, 1), (32, 1), (31, 1), (30, 1), (29, 1), (28, 1)])), available := (idxCounter [(0, 2), (1, 2), (2, 2), (3, 2), (4, 2), (5, 2), (6, 2), (7, 2), (8, 3), (9, 3), (10, 3), (11, 3), (12, 3), (13, 3), (14, 3), (15, 3), (16, 5), (17, 5), (18, 5), (19, 5), (20, 5), (21, 5), (22, 5), (23, 5), (24, 4), (25, 4), (26, 4), (27, 4), (28, 4), (29, 4), (30, 4), (31, 4), (32, 4), (33, 4), (34, 4), (35, 4)]) } : FillState String) := by decide

set_option maxRecDepth 2000 in
theorem cexFc6x3 : List.foldl fillStep ({ board := (idxList (rle [(28, 1), (29, 1), (30, 1), (31, 1), (32, 1), (33, 1), (34, 1), (35, 1), (0, 1), (1, 1), (2, 1), (3, 1), (4, 1), (5, 1), (6, 1), (7, 1)])), board_items := (idxList (rle [(7, 1), (6, 1), (5, 1), (4, 1), (3, 1), (2, 1), (1, 1), (0, 1), (35, 1), (34, 1), (33, 1), (32, 1), (31, 1), (30, 1), (29, 1), (28, 1)])), available := (idxCounter [(0, 2), (1, 2), (2, 2), (3, 2), (4, 2), (5, 2), (6, 2), (7, 2), (8, 3), (9, 3), (10, 3), (11, 3), (12, 3), (13, 3), (14, 3), (15, 3), (16, 5), (17, 5), (18, 5), (19, 5), (20, 5), (21, 5), (22, 5), (23, 5), (24, 4), (25, 4), (26, 4), (27, 4), (28, 4), (29, 4), (30, 4), (31, 4), (32, 4), (33, 4), (34, 4), (35, 4)]) } : FillState String) (idxList (rle [(30, 4), (31, 4), (32, 4), (33, 4), (34, 4), (35, 4)])) = ({ board := (idxList (rle [(28, 1), (29, 1), (30, 1), (31, 1), (32, 1), (33, 1), (34, 1), (35, 1), (0, 1), (1, 1), (2, 1), (3, 1), (4, 1), (5, 1), (6, 1), (7, 1)])), board_items := (idxList (rle [(7, 1), (6, 1), (5, 1), (4, 1), (3, 1), (2, 1), (1, 1), (0, 1), (35, 1), (34, 1), (33, 1), (32, 1), (31, 1), (30, 1), (29, 1), (28, 1)])), available := (idxCounter [(0, 2), (1, 2), (2, 2), (3, 2), (4, 2), (5, 2), (6, 2), (7, 2), (8, 3), (9, 3), (10, 3), (11, 3), (12, 3), (13, 3), (14, 3), (15, 3), (16, 5), (17, 5), (18, 5), (19, 5), (20, 5), (21, 5), (22, 5), (23, 5), (24, 4), (25, 4), (26, 4), (27, 4), (28, 4), (29, 4), (30, 4), (31, 4), (32, 4), (33, 4), (34, 4), (35, 4)]) } : FillState String) := by decide

theorem cexFill6 : fillBoard (idxCounter [(0, 3), (1, 3), (2, 3), (3, 3), (4, 3), (5, 3), (6, 3), (7, 3), (8, 3), (9, 3), (10, 3), (11, 3), (12, 3), (13, 3), (14, 3), (15, 3), (16, 5), (17, 5), (18, 5), (19, 5), (20, 5), (21, 5), (22, 5), (23, 5), (24, 4), (25, 4), (26, 4), (27, 4), (28, 5), (29, 5), (30, 5), (31, 5), (32, 5), (33, 5), (34, 5), (35, 5)]) ((idxList (rle [(28, 1), (29, 1), (30, 1), (31, 1), (32, 1), (33, 1), (34, 1), (35, 1), (0, 1), (1, 1), (2, 1), (3, 1), (4, 1), (5, 1), (6, 1), (7, 1), (0, 2), (1, 2), (2, 2), (3, 2), (4, 2), (5, 2), (6, 2), (7, 2), (8, 3), (9, 3), (10, 3), (11, 3), (12, 3), (13, 3), (14, 3), (15, 3), (16, 4)])) ++ ((idxList (rle [(16, 1), (17, 5), (18, 5), (19, 5), (20, 5), (21, 5), (22, 5), (23, 5), (24, 4), (25, 4), (26, 4), (27, 4), (28, 4), (29, 4)])) ++ (idxList (rle [(30, 4), (31, 4), (32, 4), (33, 4), (34, 4), (35, 4)])))) = ({ board := (idxList (rle [(28, 1), (29, 1), (30, 1), (31, 1), (32, 1), (33, 1), (34, 1), (35, 1), (0, 1), (1, 1), (2, 1), (3, 1), (4, 1), (5, 1), (6, 1), (7, 1)])), board_items := (idxList (rle [(7, 1), (6, 1), (5, 1), (4, 1), (3, 1), (2, 1), (1, 1), (0, 1), (35, 1), (34, 1), (33, 1), (32, 1), (31, 1), (30, 1), (29, 1), (28, 1)])), available := (idxCounter [(0, 2), (1, 2), (2, 2), (3, 2), (4, 2), (5, 2), (6, 2), (7, 2), (8, 3), (9, 3), (10, 3), (11, 3), (12, 3), (13, 3), (14, 3), (15, 3), (16, 5), (17, 5), (18, 5), (19, 5), (20, 5), (21, 5), (22, 5), (23, 5), (24, 4), (25, 4), (26, 4), (27, 4), (28, 4), (29, 4), (30, 4), (31, 4), (32, 4), (33, 4), (34, 4), (35, 4)]) } : FillState String) := by
  unfold fillBoard
  rw [List.foldl_append, cexFc6x1, List.foldl_append, cexFc6x2, cexFc6x3]

set_option maxRecDepth 2000 in
theorem cexEl7 : elements (idxCounter [(0, 2), (1, 2), (2, 2), (3, 2), (4, 2), (5, 2), (6, 2), (7, 2), (8, 3), (9, 3), (10, 3), (11, 3), (12, 3), (13, 3), (14, 3), (15, 3), (16, 5), (17, 5), (18, 5), (19, 5), (20, 5), (21, 5), (22, 5), (23, 5), (24, 4), (25, 4), (26, 4), (27, 4), (28, 4), (29, 4), (30, 4), (31, 4), (32, 4), (33, 4), (34, 4), (35, 4)]) = (idxList (rle [(0, 2), (1, 2), (2, 2), (3, 2), (4, 2), (5, 2), (6, 2), (7, 2), (8, 3), (9, 3), (10, 3), (11, 3), (12, 3), (13, 3), (14, 3), (15, 3), (16, 5), (17, 5), (18, 5), (19, 5), (20, 5), (21, 5), (22, 5), (23, 5), (24, 4), (25, 4), (26, 4), (27, 4), (28, 4), (29, 4), (30, 4), (31, 4), (32, 4), (33, 4), (34, 4), (35, 4)])) := by decide

set_option maxRecDepth 2000 in
theorem cexSh7 : (scriptG 7 (idxList (rle [(0, 2), (1, 2), (2, 2), (3, 2), (4, 2), (5, 2), (6, 2), (7, 2), (8, 3), (9, 3), (10, 3), (11, 3), (12, 3), (13, 3), (14, 3), (15, 3), (16, 5), (17, 5), (18, 5), (19, 5), (20, 5), (21, 5), (22, 5), (23, 5), (24, 4), (25, 4), (26, 4), (27, 4), (28, 4), (29, 4), (30, 4), (31, 4), (32, 4), (33, 4), (34, 4), (35, 4)]))).1 = ((idxList (rle [(8, 1), (9, 1), (10, 1), (11, 1), (12, 1), (13, 1), (14, 1), (15, 1), (16, 1), (17, 1), (18, 1), (19, 1), (20, 1), (21, 1), (22, 1), (23, 1), (0, 2), (1, 2), (2, 2), (3, 2), (4, 2), (5, 2), (6, 2), (7, 2), (8, 2), (9, 2), (10, 2), (11, 2), (12, 2), (13, 2), (14, 2), (15, 2), (16, 4), (17, 4), (18, 4)])) ++ ((idxList (rle [(19, 4), (20, 4), (21, 4), (22, 4), (23, 4), (24, 4), (25, 4), (26, 4), (27, 4), (28, 4), (29, 4), (30, 4), (31, 4), (32, 4), (33, 4)])) ++ (idxList (rle [(34, 4), (35, 4)])))) := by decide

theorem cexShS7 : (scriptG 7 (idxList (rle [(0, 2), (1, 2), (2, 2), (3, 2), (4, 2), (5, 2), (6, 2), (7, 2), (8, 3), (9, 3), (10, 3), (11, 3), (12, 3), (13, 3), (14, 3), (15, 3), (16, 5), (17, 5), (18, 5), (19, 5), (20, 5), (21, 5), (22, 5), (23, 5), (24, 4), (25, 4), (26, 4), (27, 4), (28, 4), (29, 4), (30, 4), (31, 4), (32, 4), (33, 4), (34, 4), (35, 4)]))).2 = 8 := rfl

set_option maxRecDepth 2000 in
theorem cexFc7x1 : List.foldl fillStep ({ board := [], board_items := [], available := (idxCounter [(0, 2), (1, 2), (2, 2), (3, 2), (4, 2), (5, 2), (6, 2), (7, 2), (8, 3), (9, 3), (10, 3), (11, 3), (12, 3), (13, 3), (14, 3), (15, 3), (16, 5), (17, 5), (18, 5), (19, 5), (20, 5), (21, 5), (22, 5), (23, 5), (24, 4), (25, 4), (26, 4), (27, 4), (28, 4), (29, 4), (30, 4), (31, 4), (32, 4), (33, 4), (34, 4), (35, 4)]) } : FillState String) (idxList (rle [(8, 1), (9, 1), (10, 1), (11, 1), (12, 1), (13, 1), (14, 1), (15, 1), (16, 1), (17, 1), (18, 1), (19, 1), (20, 1), (21, 1), (22, 1), (23, 1), (0, 2), (1, 2), (2, 2), (3, 2), (4, 2), (5, 2), (6, 2), (7, 2), (8, 2), (9, 2), (10, 2), (11, 2), (12, 2), (13, 2), (14, 2), (15, 2), (16, 4), (17, 4), (18, 4)])) = ({ board := (idxList (rle [(8, 1), (9, 1), (10, 1), (11, 1), (12, 1), (13, 1), (14, 1), (15, 1), (16, 1), (17, 1), (18, 1), (19, 1), (20, 1), (21, 1), (22, 1), (23, 1)])), board_items := (idxList (rle [(23, 1), (22, 1), (21, 1), (20, 1), (19, 1), (18, 1), (17, 1), (16, 1), (15, 1), (14, 1), (13, 1), (12, 1), (11, 1), (10, 1), (9, 1), (8, 1)])), available := (idxCounter [(0, 2), (1, 2), (2, 2), (3, 2), (4, 2), (5, 2), (6, 2), (7, 2), (8, 2), (9, 2), (10, 2), (11, 2), (12, 2), (13, 2), (14, 2), (15, 2), (16, 4), (17, 4), (18, 4), (19, 4), (20, 4), (21, 4), (22, 4), (23, 4), (24, 4), (25, 4), (26, 4), (27, 4), (28, 4), (29, 4), (30, 4), (31, 4), (32, 4), (33, 4), (34, 4), (35, 4)]) } : FillState String) := by decide

set_option maxRecDepth 2000 in
theorem cexFc7x2 : List.foldl fillStep ({ board := (idxList (rle [(8, 1), (9, 1), (10, 1), (11, 1), (12, 1), (13, 1), (14, 1), (15, 1), (16, 1), (17, 1), (18, 1), (19, 1), (20, 1), (21, 1), (22, 1), (23, 1)])), board_items := (idxList (rle [(23, 1), (22, 1), (21, 1), (20, 1), (19, 1), (18, 1), (17, 1), (16, 1), (15, 1), (14, 1), (13, 1), (12, 1), (11, 1), (10, 1), (9, 1), (8, 1)])), available := (idxCounter [(0, 2), (1, 2), (2, 2), (3, 2), (4, 2), (5, 2), (6, 2), (7, 2), (8, 2), (9, 2), (10, 2), (11, 2), (12, 2), (13, 2), (14, 2), (15, 2), (16, 4), (17, 4), (18, 4), (19, 4), (20, 4), (21, 4), (22, 4), (23, 4), (24, 4), (25, 4), (26, 4), (27, 4), (28, 4), (29, 4), (30, 4), (31, 4), (32, 4), (33, 4), (34, 4), (35, 4)]) } : FillState String) (idxList (rle [(19, 4), (20, 4), (21, 4), (22, 4), (23, 4), (24, 4), (25, 4), (26, 4), (27, 4), (28, 4), (29, 4), (30, 4), (31, 4), (32, 4), (33, 4)])) = ({ board := (idxList (rle [(8, 1), (9, 1), (10, 1), (11, 1), (12, 1), (13, 1), (14, 1), (15, 1), (16, 1), (17, 1), (18, 1), (19, 1), (20, 1), (21, 1), (22, 1), (23, 1)])), board_items := (idxList (rle [(23, 1), (22, 1), (21, 1), (20, 1), (19, 1), (18, 1), (17, 1), (16, 1), (15, 1), (14, 1), (13, 1), (12, 1), (11, 1), (10, 1), (9, 1), (8, 1)])), available := (idxCounter [(0, 2), (1, 2), (2, 2), (3, 2), (4, 2), (5, 2), (6, 2), (7, 2), (8, 2), (9, 2), (10, 2), (11, 2), (12, 2), (13, 2), (14, 2), (15, 2), (16, 4), (17, 4), (18, 4), (19, 4), (20, 4), (21, 4), (22, 4), (23, 4), (24, 4), (25, 4), (26, 4), (27, 4), (28, 4), (29, 4), (30, 4), (31, 4), (32, 4), (33, 4), (34, 4), (35, 4)]) } : FillState String) := by decide

set_option maxRecDepth 2000 in
theorem cexFc7x3 : List.foldl fillStep ({ board := (idxList (rle [(8, 1), (9, 1), (10, 1), (11, 1), (12, 1), (13, 1), (14, 1), (15, 1), (16, 1), (17, 1), (18, 1), (19, 1), (20, 1), (21, 1), (22, 1), (23, 1)])), board_items := (idxList (rle [(23, 1), (22, 1), (21, 1), (20, 1), (19, 1), (18, 1), (17, 1), (16, 1), (15, 1), (14, 1), (13, 1), (12, 1), (11, 1), (10, 1), (9, 1), (8, 1)])), available := (idxCounter [(0, 2), (1, 2), (2, 2), (3, 2), (4, 2), (5, 2), (6, 2), (7, 2), (8, 2), (9, 2), (10, 2), (11, 2), (12, 2), (13, 2), (14, 2), (15, 2), (16, 4), (17, 4), (18, 4), (19, 4), (20, 4), (21, 4), (22, 4), (23, 4), (24, 4), (25, 4), (26, 4), (27, 4), (28, 4), (29, 4), (30, 4), (31, 4), (32, 4), (33, 4), (34, 4), (35, 4)]) } : FillState String) (idxList (rle [(34, 4), (35, 4)])) = ({ board := (idxList (rle [(8, 1), (9, 1), (10, 1), (11, 1), (12, 1), (13, 1), (14, 1), (15, 1), (16, 1), (17, 1), (18, 1), (19, 1), (20, 1), (21, 1), (22, 1), (23, 1)])), board_items := (idxList (rle [(23, 1), (22, 1), (21, 1), (20, 1), (19, 1), (18, 1), (17, 1), (16, 1), (15, 1), (14, 1), (13, 1), (12, 1), (11, 1), (10, 1), (9, 1), (8, 1)])), available := (idxCounter [(0, 2), (1, 2), (2, 2), (3, 2), (4, 2), (5, 2), (6, 2), (7, 2), (8, 2), (9, 2), (10, 2), (11, 2), (12, 2), (13, 2), (14, 2), (15, 2), (16, 4), (17, 4), (18, 4), (19, 4), (20, 4), (21, 4), (22, 4), (23, 4), (24, 4), (25, 4), (26, 4), (27, 4), (28, 4), (29, 4), (30, 4), (31, 4), (32, 4), (33, 4), (34, 4), (35, 4)]) } : FillState String) := by decide

theorem cexFill7 : fillBoard (idxCounter [(0, 2), (1, 2), (2, 2), (3, 2), (4, 2), (5, 2), (6, 2), (7, 2), (8, 3), (9, 3), (10, 3), (11, 3), (12, 3), (13, 3), (14, 3), (15, 3), (16, 5), (17, 5), (18, 5), (19, 5), (20, 5), (21, 5), (22, 5), (23, 5), (24, 4), (25, 4), (26, 4), (27, 4), (28, 4), (29, 4), (30, 4), (31, 4), (32, 4), (33, 4), (34, 4), (35, 4)]) ((idxList (rle [(8, 1), (9, 1), (10, 1), (11, 1), (12, 1), (13, 1), (14, 1), (15, 1), (16, 1), (17, 1), (18, 1), (19, 1), (20, 1), (21, 1), (22, 1), (23, 1), (0, 2), (1, 2), (2, 2), (3, 2), (4, 2), (5, 2), (6, 2), (7, 2), (8, 2), (9, 2), (10, 2), (11, 2), (12, 2), (13, 2), (14, 2), (15, 2), (16, 4), (17, 4), (18, 4)])) ++ ((idxList (rle [(19, 4), (20, 4), (21, 4), (22, 4), (23, 4), (24, 4), (25, 4), (26, 4), (27, 4), (28, 4), (29, 4), (30, 4), (31, 4), (32, 4), (33, 4)])) ++ (idxList (rle [(34, 4), (35, 4)])))) = ({ board := (idxList (rle [(8, 1), (9, 1), (10, 1), (11, 1), (12, 1), (13, 1), (14, 1), (15, 1), (16, 1), (17, 1), (18, 1), (19, 1), (20, 1), (21, 1), (22, 1), (23, 1)])), board_items := (idxList (rle [(23, 1), (22, 1), (21, 1), (20, 1), (19, 1), (18, 1), (17, 1), (16, 1), (15, 1), (14, 1), (13, 1), (12, 1), (11, 1), (10, 1), (9, 1), (8, 1)])), available := (idxCounter [(0, 2), (1, 2), (2, 2), (3, 2), (4, 2), (5, 2), (6, 2), (7, 2), (8, 2), (9, 2), (10, 2), (11, 2), (12, 2), (13, 2), (14, 2), (15, 2), (16, 4), (17, 4), (18, 4), (19, 4), (20, 4), (21, 4), (22, 4), (23, 4), (24, 4), (25, 4), (26, 4), (27, 4), (28, 4), (29, 4), (30, 4), (31, 4), (32, 4), (33, 4), (34, 4), (35, 4)]) } : FillState String) := by
  unfold fillBoard
  rw [List.foldl_append, cexFc7x1, List.foldl_append, cexFc7x2, cexFc7x3]

set_option maxRecDepth 2000 in
theorem cexEl8 : elements (idxCounter [(0, 2), (1, 2), (2, 2), (3, 2), (4, 2), (5, 2), (6, 2), (7, 2), (8, 2), (9, 2), (10, 2), (11, 2), (12, 2), (13, 2), (14, 2), (15, 2), (16, 4), (17, 4), (18, 4), (19, 4), (20, 4), (21, 4), (22, 4), (23, 4), (24, 4), (25, 4), (26, 4), (27, 4), (28, 4), (29, 4), (30, 4), (31, 4), (32, 4), (33, 4), (34, 4), (35, 4)]) = (idxList (rle [(0, 2), (1, 2), (2, 2), (3, 2), (4, 2), (5, 2), (6, 2), (7, 2), (8, 2), (9, 2), (10, 2), (11, 2), (12, 2), (13, 2), (14, 2), (15, 2), (16, 4), (17, 4), (18, 4), (19, 4), (20, 4), (21, 4), (22, 4), (23, 4), (24, 4), (25, 4), (26, 4), (27, 4), (28, 4), (29, 4), (30, 4), (31, 4), (32, 4), (33, 4), (34, 4), (35, 4)])) := by decide

set_option maxRecDepth 2000 in
theorem cexSh8 : (scriptG 8 (idxList (rle [(0, 2), (1, 2), (2, 2), (3, 2), (4, 2), (5, 2), (6, 2), (7, 2), (8, 2), (9, 2), (10, 2), (11, 2), (12, 2), (13, 2), (14, 2), (15, 2), (16, 4), (17, 4), (18, 4), (19, 4), (20, 4), (21, 4), (22, 4), (23, 4), (24, 4), (25, 4), (26, 4), (27, 4), (28, 4), (29, 4), (30, 4), (31, 4), (32, 4), (33, 4), (34, 4), (35, 4)]))).1 = ((idxList (rle [(24, 1), (25, 1), (26, 1), (27, 1), (28, 1), (29, 1), (30, 1), (31, 1), (32, 1), (33, 1), (34, 1), (35, 1), (0, 1), (1, 1), (2, 1), (3, 1), (0, 1), (1, 1), (2, 1), (3, 1), (4, 2), (5, 2), (6, 2), (7, 2), (8, 2), (9, 2), (10, 2), (11, 2), (12, 2), (13, 2), (14, 2), (15, 2), (16, 4), (17, 4), (18, 4), (19, 4)])) ++ (idxList (rle [(20, 4), (21, 4), (22, 4), (23, 4), (24, 3), (25, 3), (26, 3), (27, 3), (28, 3), (29, 3), (30, 3), (31, 3), (32, 3), (33, 3), (34, 3), (35, 3)]))) := by decide

theorem cexShS8 : (scriptG 8 (idxList (rle [(0, 2), (1, 2), (2, 2), (3, 2), (4, 2), (5, 2), (6, 2), (7, 2), (8, 2), (9, 2), (10, 2), (11, 2), (12, 2), (13, 2), (14, 2), (15, 2), (16, 4), (17, 4), (18, 4), (19, 4), (20, 4), (21, 4), (22, 4), (23, 4), (24, 4), (25, 4), (26, 4), (27, 4), (28, 4), (29, 4), (30, 4), (31, 4), (32, 4), (33, 4), (34, 4), (35, 4)]))).2 = 9 := rfl

set_option maxRecDepth 2000 in
theorem cexFc8x1 : List.foldl fillStep ({ board := [], board_items := [], available := (idxCounter [(0, 2), (1, 2), (2, 2), (3, 2), (4, 2), (5, 2), (6, 2), (7, 2), (8, 2), (9, 2), (10, 2), (11, 2), (12, 2), (13, 2), (14, 2), (15, 2), (16, 4), (17, 4), (18, 4), (19, 4), (20, 4), (21, 4), (22, 4), (23, 4), (24, 4), (25, 4), (26, 4), (27, 4), (28, 4), (29, 4), (30, 4), (31, 4), (32, 4), (33, 4), (34, 4), (35, 4)]) } : FillState String) (idxList (rle [(24, 1), (25, 1), (26, 1), (27, 1), (28, 1), (29, 1), (30, 1), (31, 1), (32, 1), (33, 1), (34, 1), (35, 1), (0, 1), (1, 1), (2, 1), (3, 1), (0, 1), (1, 1), (2, 1), (3, 1), (4, 2), (5, 2), (6, 2), (7, 2), (8, 2), (9, 2), (10, 2), (11, 2), (12, 2), (13, 2), (14, 2), (15, 2), (16, 4), (17, 4), (18, 4), (19, 4)])) = ({ board := (idxList (rle [(24, 1), (25, 1), (26, 1), (27, 1), (28, 1), (29, 1), (30, 1), (31, 1), (32, 1), (33, 1), (34, 1), (35, 1), (0, 1), (1, 1), (2, 1), (3, 1)])), board_items := (idxList (rle [(3, 1), (2, 1), (1, 1), (0, 1), (35, 1), (34, 1), (33, 1), (32, 1), (31, 1), (30, 1), (29, 1), (28, 1), (27, 1), (26, 1), (25, 1), (24, 1)])), available := (idxCounter [(0, 1), (1, 1), (2, 1), (3, 1), (4, 2), (5, 2), (6, 2), (7, 2), (8, 2), (9, 2), (10, 2), (11, 2), (12, 2), (13, 2), (14, 2), (15, 2), (16, 4), (17, 4), (18, 4), (19, 4), (20, 4), (21, 4), (22, 4), (23, 4), (24, 3), (25, 3), (26, 3), (27, 3), (28, 3), (29, 3), (30, 3), (31, 3), (32, 3), (33, 3), (34, 3), (35, 3)]) } : FillState String) := by decide

set_option maxRecDepth 2000 in
theorem cexFc8x2 : List.foldl fillStep ({ board := (idxList (rle [(24, 1), (25, 1), (26, 1), (27, 1), (28, 1), (29, 1), (30, 1), (31, 1), (32, 1), (33, 1), (34, 1), (35, 1), (0, 1), (1, 1), (2, 1), (3, 1)])), board_items := (idxList (rle [(3, 1), (2, 1), (1, 1), (0, 1), (35, 1), (34, 1), (33, 1), (32, 1), (31, 1), (30, 1), (29, 1), (28, 1), (27, 1), (26, 1), (25, 1), (24, 1)])), available := (idxCounter [(0, 1), (1, 1), (2, 1), (3, 1), (4, 2), (5, 2), (6, 2), (7, 2), (8, 2), (9, 2), (10, 2), (11, 2), (12, 2), (13, 2), (14, 2), (15, 2), (16, 4), (17, 4), (18, 4), (19, 4), (20, 4), (21, 4), (22, 4), (23, 4), (24, 3), (25, 3), (26, 3), (27, 3), (28, 3), (29, 3), (30, 3), (31, 3), (32, 3), (33, 3), (34, 3), (35, 3)]) } : FillState String) (idxList (rle [(20, 4), (21, 4), (22, 4), (23, 4), (24, 3), (25, 3), (26, 3), (27, 3), (28, 3), (29, 3), (30, 3), (31, 3), (32, 3), (33, 3), (34, 3), (35, 3)])) = ({ board := (idxList (rle [(24, 1), (25, 1), (26, 1), (27, 1), (28, 1), (29, 1), (30, 1), (31, 1), (32, 1), (33, 1), (34, 1), (35, 1), (0, 1), (1, 1), (2, 1), (3, 1)])), board_items := (idxList (rle [(3, 1), (2, 1), (1, 1), (0, 1), (35, 1), (34, 1), (33, 1), (32, 1), (31, 1), (30, 1), (29, 1), (28, 1), (27, 1), (26, 1), (25, 1), (24, 1)])), available := (idxCounter [(0, 1), (1, 1), (2, 1), (3, 1), (4, 2), (5, 2), (6, 2), (7, 2), (8, 2), (9, 2), (10, 2), (11, 2), (12, 2), (13, 2), (14, 2), (15, 2), (16, 4), (17, 4), (18, 4), (19, 4), (20, 4), (21, 4), (22, 4), (23, 4), (24, 3), (25, 3), (26, 3), (27, 3), (28, 3), (29, 3), (30, 3), (31, 3), (32, 3), (33, 3), (34, 3), (35, 3)]) } : FillState String) := by decide

theorem cexFill8 : fillBoard (idxCounter [(0, 2), (1, 2), (2, 2), (3, 2), (4, 2), (5, 2), (6, 2), (7, 2), (8, 2), (9, 2), (10, 2), (11, 2), (12, 2), (13, 2), (14, 2), (15, 2), (16, 4), (17, 4), (18, 4), (19, 4), (20, 4), (21, 4), (22, 4), (23, 4), (24, 4), (25, 4), (26, 4), (27, 4), (28, 4), (29, 4), (30, 4), (31, 4), (32, 4), (33, 4), (34, 4), (35, 4)]) ((idxList (rle [(24, 1), (25, 1), (26, 1), (27, 1), (28, 1), (29, 1), (30, 1), (31, 1), (32, 1), (33, 1), (34, 1), (35, 1), (0, 1), (1, 1), (2, 1), (3, 1), (0, 1), (1, 1), (2, 1), (3, 1), (4, 2), (5, 2), (6, 2), (7, 2), (8, 2), (9, 2), (10, 2), (11, 2), (12, 2), (13, 2), (14, 2), (15, 2), (16, 4), (17, 4), (18, 4), (19, 4)])) ++ (idxList (rle [(20, 4), (21, 4), (22, 4), (23, 4), (24, 3), (25, 3), (26, 3), (27, 3), (28, 3), (29, 3), (30, 3), (31, 3), (32, 3), (33, 3), (34, 3), (35, 3)]))) = ({ board := (idxList (rle [(24, 1), (25, 1), (26, 1), (27, 1), (28, 1), (29, 1), (30, 1), (31, 1), (32, 1), (33, 1), (34, 1), (35, 1), (0, 1), (1, 1), (2, 1), (3, 1)])), board_items := (idxList (rle [(3, 1), (2, 1), (1, 1), (0, 1), (35, 1), (34, 1), (33, 1), (32, 1), (31, 1), (30, 1), (29, 1), (28, 1), (27, 1), (26, 1), (25, 1), (24, 1)])), available := (idxCounter [(0, 1), (1, 1), (2, 1), (3, 1), (4, 2), (5, 2), (6, 2), (7, 2), (8, 2), (9, 2), (10, 2), (11, 2), (12, 2), (13, 2), (14, 2), (15, 2), (16, 4), (17, 4), (18, 4), (19, 4), (20, 4), (21, 4), (22, 4), (23, 4), (24, 3), (25, 3), (26, 3), (27, 3), (28, 3), (29, 3), (30, 3), (31, 3), (32, 3), (33, 3), (34, 3), (35, 3)]) } : FillState String) := by
  unfold fillBoard
  rw [List.foldl_append, cexFc8x1, cexFc8x2]

set_option maxRecDepth 2000 in
theorem cexEl9 : elements (idxCounter [(0, 1), (1, 1), (2, 1), (3, 1), (4, 2), (5, 2), (6, 2), (7, 2), (8, 2), (9, 2), (10, 2), (11, 2), (12, 2), (13, 2), (14, 2), (15, 2), (16, 4), (17, 4), (18, 4), (19, 4), (20, 4), (21, 4), (22, 4), (23, 4), (24, 3), (25, 3), (26, 3), (27, 3), (28, 3), (29, 3), (30, 3), (31, 3), (32, 3), (33, 3), (34, 3), (35, 3)]) = (idxList (rle [(0, 1), (1, 1), (2, 1), (3, 1), (4, 2), (5, 2), (6, 2), (7, 2), (8, 2), (9, 2), (10, 2), (11, 2), (12, 2), (13, 2), (14, 2), (15, 2), (16, 4), (17, 4), (18, 4), (19, 4), (20, 4), (21, 4), (22, 4), (23, 4), (24, 3), (25, 3), (26, 3), (27, 3), (28, 3), (29, 3), (30, 3), (31, 3), (32, 3), (33, 3), (34, 3), (35, 3)])) := by decide

set_option maxRecDepth 2000 in
theorem cexSh9 : (scriptG 9 (idxList (rle [(0, 1), (1, 1), (2, 1), (3, 1), (4, 2), (5, 2), (6, 2), (7, 2), (8, 2), (9, 2), (10, 2), (11, 2), (12, 2), (13, 2), (14, 2), (15, 2), (16, 4), (17, 4), (18, 4), (19, 4), (20, 4), (21, 4), (22, 4), (23, 4), (24, 3), (25, 3), (26, 3), (27, 3), (28, 3), (29, 3), (30, 3), (31, 3), (32, 3), (33, 3), (34, 3), (35, 3)]))).1 = ((idxList (rle [(4, 1), (5, 1), (6, 1), (7, 1), (8, 1), (9, 1), (10, 1), (11, 1), (12, 1), (13, 1), (14, 1), (15, 1), (16, 1), (17, 1), (18, 1), (19, 1), (0, 1), (1, 1), (2, 1), (3, 1), (4, 1), (5, 1), (6, 1), (7, 1), (8, 1), (9, 1), (10, 1), (11, 1), (12, 1), (13, 1), (14, 1), (15, 1), (16, 3), (17, 3), (18, 3), (19, 3), (20, 4), (21, 4), (22, 4), (23, 4)])) ++ (idxList (rle [(24, 3), (25, 3), (26, 3), (27, 3), (28, 3), (29, 3), (30, 3), (31, 3), (32, 3), (33, 3), (34, 3), (35, 3)]))) := by decide

theorem cexShS9 : (scriptG 9 (idxList (rle [(0, 1), (1, 1), (2, 1), (3, 1), (4, 2), (5, 2), (6, 2), (7, 2), (8, 2), (9, 2), (10, 2), (11, 2), (12, 2), (13, 2), (14, 2), (15, 2), (16, 4), (17, 4), (18, 4), (19, 4), (20, 4), (21, 4), (22, 4), (23, 4), (24, 3), (25, 3), (26, 3), (27, 3), (28, 3), (29, 3), (30, 3), (31, 3), (32, 3), (33, 3), (34, 3), (35, 3)]))).2 = 10 := rfl

set_option maxRecDepth 2000 in
theorem cexFc9x1 : List.foldl fillStep ({ board := [], board_items := [], available := (idxCounter [(0, 1), (1, 1), (2, 1), (3, 1), (4, 2), (5, 2), (6, 2), (7, 2), (8, 2), (9, 2), (10, 2), (11, 2), (12, 2), (13, 2), (14, 2), (15, 2), (16, 4), (17, 4), (18, 4), (19, 4), (20, 4), (21, 4), (22, 4), (23, 4), (24, 3), (25, 3), (26, 3), (27, 3), (28, 3), (29, 3), (30, 3), (31, 3), (32, 3), (33, 3), (34, 3), (35, 3)]) } : FillState String) (idxList (rle [(4, 1), (5, 1), (6, 1), (7, 1), (8, 1), (9, 1), (10, 1), (11, 1), (12, 1), (13, 1), (14, 1), (15, 1), (16, 1), (17, 1), (18, 1), (19, 1), (0, 1), (1, 1), (2, 1), (3, 1), (4, 1), (5, 1), (6, 1), (7, 1), (8, 1), (9, 1), (10, 1), (11, 1), (12, 1), (13, 1), (14, 1), (15, 1), (16, 3), (17, 3), (18, 3), (19, 3), (20, 4), (21, 4), (22, 4), (23, 4)])) = ({ board := (idxList (rle [(4, 1), (5, 1), (6, 1), (7, 1), (8, 1), (9, 1), (10, 1), (11, 1), (12, 1), (13, 1), (14, 1), (15, 1), (16, 1), (17, 1), (18, 1), (19, 1)])), board_items := (idxList (rle [(19, 1), (18, 1), (17, 1), (16, 1), (15, 1), (14, 1), (13, 1), (12, 1), (11, 1), (10, 1), (9, 1), (8, 1), (7, 1), (6, 1), (5, 1), (4, 1)])), available := (idxCounter [(0, 1), (1, 1), (2, 1), (3, 1), (4, 1), (5, 1), (6, 1), (7, 1), (8, 1), (9, 1), (10, 1), (11, 1), (12, 1), (13, 1), (14, 1), (15, 1), (16, 3), (17, 3), (18, 3), (19, 3), (20, 4), (21, 4), (22, 4), (23, 4), (24, 3), (25, 3), (26, 3), (27, 3), (28, 3), (29, 3), (30, 3), (31, 3), (32, 3), (33, 3), (34, 3), (35, 3)]) } : FillState String) := by decide

set_option maxRecDepth 2000 in
theorem cexFc9x2 : List.foldl fillStep ({ board := (idxList (rle [(4, 1), (5, 1), (6, 1), (7, 1), (8, 1), (9, 1), (10, 1), (11, 1), (12, 1), (13, 1), (14, 1), (15, 1), (16, 1), (17, 1), (18, 1), (19, 1)])), board_items := (idxList (rle [(19, 1), (18, 1), (17, 1), (16, 1), (15, 1), (14, 1), (13, 1), (12, 1), (11, 1), (10, 1), (9, 1), (8, 1), (7, 1), (6, 1), (5, 1), (4, 1)])), available := (idxCounter [(0, 1), (1, 1), (2, 1), (3, 1), (4, 1), (5, 1), (6, 1), (7, 1), (8, 1), (9, 1), (10, 1), (11, 1), (12, 1), (13, 1), (14, 1), (15, 1), (16, 3), (17, 3), (18, 3), (19, 3), (20, 4), (21, 4), (22, 4), (23, 4), (24, 3), (25, 3), (26, 3), (27, 3), (28, 3), (29, 3), (30, 3), (31, 3), (32, 3), (33, 3), (34, 3), (35, 3)]) } : FillState String) (idxList (rle [(24, 3), (25, 3), (26, 3), (27, 3), (28, 3), (29, 3), (30, 3), (31, 3), (32, 3), (33, 3), (34, 3), (35, 3)])) = ({ board := (idxList (rle [(4, 1), (5, 1), (6, 1), (7, 1), (8, 1), (9, 1), (10, 1), (11, 1), (12, 1), (13, 1), (14, 1), (15, 1), (16, 1), (17, 1), (18, 1), (19, 1)])), board_items := (idxList (rle [(19, 1), (18, 1), (17, 1), (16, 1), (15, 1), (14, 1), (13, 1), (12, 1), (11, 1), (10, 1), (9, 1), (8, 1), (7, 1), (6, 1), (5, 1), (4, 1)])), available := (idxCounter [(0, 1), (1, 1), (2, 1), (3, 1), (4, 1), (5, 1), (6, 1), (7, 1), (8, 1), (9, 1), (10, 1), (11, 1), (12, 1), (13, 1), (14, 1), (15, 1), (16, 3), (17, 3), (18, 3), (19, 3), (20, 4), (21, 4), (22, 4), (23, 4), (24, 3), (25, 3), (26, 3), (27, 3), (28, 3), (29, 3), (30, 3), (31, 3), (32, 3), (33, 3), (34, 3), (35, 3)]) } : FillState String) := by decide

theorem cexFill9 : fillBoard (idxCounter [(0, 1), (1, 1), (2, 1), (3, 1), (4, 2), (5, 2), (6, 2), (7, 2), (8, 2), (9, 2), (10, 2), (11, 2), (12, 2), (13, 2), (14, 2), (15, 2), (16, 4), (17, 4), (18, 4), (19, 4), (20, 4), (21, 4), (22, 4), (23, 4), (24, 3), (25, 3), (26, 3), (27, 3), (28, 3), (29, 3), (30, 3), (31, 3), (32, 3), (33, 3), (34, 3), (35, 3)]) ((idxList (rle [(4, 1), (5, 1), (6, 1), (7, 1), (8, 1), (9, 1), (10, 1), (11, 1), (12, 1), (13, 1), (14, 1), (15, 1), (16, 1), (17, 1), (18, 1), (19, 1), (0, 1), (1, 1), (2, 1), (3, 1), (4, 1), (5, 1), (6, 1), (7, 1), (8, 1), (9, 1), (10, 1), (11, 1), (12, 1), (13, 1), (14, 1), (15, 1), (16, 3), (17, 3), (18, 3), (19, 3), (20, 4), (21, 4), (22, 4), (23, 4)])) ++ (idxList (rle [(24, 3), (25, 3), (26, 3), (27, 3), (28, 3), (29, 3), (30, 3), (31, 3), (32, 3), (33, 3), (34, 3), (35, 3)]))) = ({ board := (idxList (rle [(4, 1), (5, 1), (6, 1), (7, 1), (8, 1), (9, 1), (10, 1), (11, 1), (12, 1), (13, 1), (14, 1), (15, 1), (16, 1), (17, 1), (18, 1), (19, 1)])), board_items := (idxList (rle [(19, 1), (18, 1), (17, 1), (16, 1), (15, 1), (14, 1), (13, 1), (12, 1), (11, 1), (10, 1), (9, 1), (8, 1), (7, 1), (6, 1), (5, 1), (4, 1)])), available := (idxCounter [(0, 1), (1, 1), (2, 1), (3, 1), (4, 1), (5, 1), (6, 1), (7, 1), (8, 1), (9, 1), (10, 1), (11, 1), (12, 1), (13, 1), (14, 1), (15, 1), (16, 3), (17, 3), (18, 3), (19, 3), (20, 4), (21, 4), (22, 4), (23, 4), (24, 3), (25, 3), (26, 3), (27, 3), (28, 3), (29, 3), (30, 3), (31, 3), (32, 3), (33, 3), (34, 3), (35, 3)]) } : FillState String) := by
  unfold fillBoard
  rw [List.foldl_append, cexFc9x1, cexFc9x2]

set_option maxRecDepth 2000 in
theorem cexEl10 : elements (idxCounter [(0, 1), (1, 1), (2, 1), (3, 1), (4, 1), (5, 1), (6, 1), (7, 1), (8, 1), (9, 1), (10, 1), (11, 1), (12, 1), (13, 1), (14, 1), (15, 1), (16, 3), (17, 3), (18, 3), (19, 3), (20, 4), (21, 4), (22, 4), (23, 4), (24, 3), (25, 3), (26, 3), (27, 3), (28, 3), (29, 3), (30, 3), (31, 3), (32, 3), (33, 3), (34, 3), (35, 3)]) = (idxList (rle [(0, 1), (1, 1), (2, 1), (3, 1), (4, 1), (5, 1), (6, 1), (7, 1), (8, 1), (9, 1), (10, 1), (11, 1), (12, 1), (13, 1), (14, 1), (15, 1), (16, 3), (17, 3), (18, 3), (19, 3), (20, 4), (21, 4), (22, 4), (23, 4), (24, 3), (25, 3), (26, 3), (27, 3), (28, 3), (29, 3), (30, 3), (31, 3), (32, 3), (33, 3), (34, 3), (35, 3)])) := by decide

set_option maxRecDepth 2000 in
theorem cexSh10 : (scriptG 10 (idxList (rle [(0, 1), (1, 1), (2, 1), (3, 1), (4, 1), (5, 1), (6, 1), (7, 1), (8, 1), (9, 1), (10, 1), (11, 1), (12, 1), (13, 1), (14, 1), (15, 1), (16, 3), (17, 3), (18, 3), (19, 3), (20, 4), (21, 4), (22, 4), (23, 4), (24, 3), (25, 3), (26, 3), (27, 3), (28, 3), (29, 3), (30, 3), (31, 3), (32, 3), (33, 3), (34, 3), (35, 3)]))).1 = ((idxList (rle [(20, 1), (21, 1), (22, 1), (23, 1), (24, 1), (25, 1), (26, 1), (27, 1), (28, 1), (29, 1), (30, 1), (31, 1), (32, 1), (33, 1), (34, 1), (35, 1), (0, 1), (1, 1), (2, 1), (3, 1), (4, 1), (5, 1), (6, 1), (7, 1), (8, 1), (9, 1), (10, 1), (11, 1), (12, 1), (13, 1), (14, 1), (15, 1), (16, 3), (17, 3), (18, 3), (19, 3), (20, 3), (21, 3), (22, 3), (23, 3), (24, 2), (25, 2)])) ++ (idxList (rle [(26, 2), (27, 2), (28, 2), (29, 2), (30, 2), (31, 2), (32, 2), (33, 2), (34, 2), (35, 2)]))) := by decide

theorem cexShS10 : (scriptG 10 (idxList (rle [(0, 1), (1, 1), (2, 1), (3, 1), (4, 1), (5, 1), (6, 1), (7, 1), (8, 1), (9, 1), (10, 1), (11, 1), (12, 1), (13, 1), (14, 1), (15, 1), (16, 3), (17, 3), (18, 3), (19, 3), (20, 4), (21, 4), (22, 4), (23, 4), (24, 3), (25, 3), (26, 3), (27, 3), (28, 3), (29, 3), (30, 3), (31, 3), (32, 3), (33, 3), (34, 3), (35, 3)]))).2 = 11 := rfl

set_option maxRecDepth 2000 in
theorem cexFc10x1 : List.foldl fillStep ({ board := [], board_items := [], available := (idxCounter [(0, 1), (1, 1), (2, 1), (3, 1), (4, 1), (5, 1), (6, 1), (7, 1), (8, 1), (9, 1), (10, 1), (11, 1), (12, 1), (13, 1), (14, 1), (15, 1), (16, 3), (17, 3), (18, 3), (19, 3), (20, 4), (21, 4), (22, 4), (23, 4), (24, 3), (25, 3), (26, 3), (27, 3), (28, 3), (29, 3), (30, 3), (31, 3), (32, 3), (33, 3), (34, 3), (35, 3)]) } : FillState String) (idxList (rle [(20, 1), (21, 1), (22, 1), (23, 1), (24, 1), (25, 1), (26, 1), (27, 1), (28, 1), (29, 1), (30, 1), (31, 1), (32, 1), (33, 1), (34, 1), (35, 1), (0, 1), (1, 1), (2, 1), (3, 1), (4, 1), (5, 1), (6, 1), (7, 1), (8, 1), (9, 1), (10, 1), (11, 1), (12, 1), (13, 1), (14, 1), (15, 1), (16, 3), (17, 3), (18, 3), (19, 3), (20, 3), (21, 3), (22, 3), (23, 3), (24, 2), (25, 2)])) = ({ board := (idxList (rle [(20, 1), (21, 1), (22, 1), (23, 1), (24, 1), (25, 1), (26, 1), (27, 1), (28, 1), (29, 1), (30, 1), (31, 1), (32, 1), (33, 1), (34, 1), (35, 1)])), board_items := (idxList (rle [(35, 1), (34, 1), (33, 1), (32, 1), (31, 1), (30, 1), (29, 1), (28, 1), (27, 1), (26, 1), (25, 1), (24, 1), (23, 1), (22, 1), (21, 1), (20, 1)])), available := (idxCounter [(0, 1), (1, 1), (2, 1), (3, 1), (4, 1), (5, 1), (6, 1), (7, 1), (8, 1), (9, 1), (10, 1), (11, 1), (12, 1), (13, 1), (14, 1), (15, 1), (16, 3), (17, 3), (18, 3), (19, 3), (20, 3), (21, 3), (22, 3), (23, 3), (24, 2), (25, 2), (26, 2), (27, 2), (28, 2), (29, 2), (30, 2), (31, 2), (32, 2), (33, 2), (34, 2), (35, 2)]) } : FillState String) := by decide

set_option maxRecDepth 2000 in
theorem cexFc10x2 : List.foldl fillStep ({ board := (idxList (rle [(20, 1), (21, 1), (22, 1), (23, 1), (24, 1), (25, 1), (26, 1), (27, 1), (28, 1), (29, 1), (30, 1), (31, 1), (32, 1), (33, 1), (34, 1), (35, 1)])), board_items := (idxList (rle [(35, 1), (34, 1), (33, 1), (32, 1), (31, 1), (30, 1), (29, 1), (28, 1), (27, 1), (26, 1), (25, 1), (24, 1), (23, 1), (22, 1), (21, 1), (20, 1)])), available := (idxCounter [(0, 1), (1, 1), (2, 1), (3, 1), (4, 1), (5, 1), (6, 1), (7, 1), (8, 1), (9, 1), (10, 1), (11, 1), (12, 1), (13, 1), (14, 1), (15, 1), (16, 3), (17, 3), (18, 3), (19, 3), (20, 3), (21, 3), (22, 3), (23, 3), (24, 2), (25, 2), (26, 2), (27, 2), (28, 2), (29, 2), (30, 2), (31, 2), (32, 2), (33, 2), (34, 2), (35, 2)]) } : FillState String) (idxList (rle [(26, 2), (27, 2), (28, 2), (29, 2), (30, 2), (31, 2), (32, 2), (33, 2), (34, 2), (35, 2)])) = ({ board := (idxList (rle [(20, 1), (21, 1), (22, 1), (23, 1), (24, 1), (25, 1), (26, 1), (27, 1), (28, 1), (29, 1), (30, 1), (31, 1), (32, 1), (33, 1), (34, 1), (35, 1)])), board_items := (idxList (rle [(35, 1), (34, 1), (33, 1), (32, 1), (31, 1), (30, 1), (29, 1), (28, 1), (27, 1), (26, 1), (25, 1), (24, 1), (23, 1), (22, 1), (21, 1), (20, 1)])), available := (idxCounter [(0, 1), (1, 1), (2, 1), (3, 1), (4, 1), (5, 1), (6, 1), (7, 1), (8, 1), (9, 1), (10, 1), (11, 1), (12, 1), (13, 1), (14, 1), (15, 1), (16, 3), (17, 3), (18, 3), (19, 3), (20, 3), (21, 3), (22, 3), (23, 3), (24, 2), (25, 2), (26, 2), (27, 2), (28, 2), (29, 2), (30, 2), (31, 2), (32, 2), (33, 2), (34, 2), (35, 2)]) } : FillState String) := by decide

theorem cexFill10 : fillBoard (idxCounter [(0, 1), (1, 1), (2, 1), (3, 1), (4, 1), (5, 1), (6, 1), (7, 1), (8, 1), (9, 1), (10, 1), (11, 1), (12, 1), (13, 1), (14, 1), (15, 1), (16, 3), (17, 3), (18, 3), (19, 3), (20, 4), (21, 4), (22, 4), (23, 4), (24, 3), (25, 3), (26, 3), (27, 3), (28, 3), (29, 3), (30, 3), (31, 3), (32, 3), (33, 3), (34, 3), (35, 3)]) ((idxList (rle [(20, 1), (21, 1), (22, 1), (23, 1), (24, 1), (25, 1), (26, 1), (27, 1), (28, 1), (29, 1), (30, 1), (31, 1), (32, 1), (33, 1), (34, 1), (35, 1), (0, 1), (1, 1), (2, 1), (3, 1), (4, 1), (5, 1), (6, 1), (7, 1), (8, 1), (9, 1), (10, 1), (11, 1), (12, 1), (13, 1), (14, 1), (15, 1), (16, 3), (17, 3), (18, 3), (19, 3), (20, 3), (21, 3), (22, 3), (23, 3), (24, 2), (25, 2)])) ++ (idxList (rle [(26, 2), (27, 2), (28, 2), (29, 2), (30, 2), (31, 2), (32, 2), (33, 2), (34, 2), (35, 2)]))) = ({ board := (idxList (rle [(20, 1), (21, 1), (22, 1), (23, 1), (24, 1), (25, 1), (26, 1), (27, 1), (28, 1), (29, 1), (30, 1), (31, 1), (32, 1), (33, 1), (34, 1), (35, 1)])), board_items := (idxList (rle [(35, 1), (34, 1), (33, 1), (32, 1), (31, 1), (30, 1), (29, 1), (28, 1), (27, 1), (26, 1), (25, 1), (24, 1), (23, 1), (22, 1), (21, 1), (20, 1)])), available := (idxCounter [(0, 1), (1, 1), (2, 1), (3, 1), (4, 1), (5, 1), (6, 1), (7, 1), (8, 1), (9, 1), (10, 1), (11, 1), (12, 1), (13, 1), (14, 1), (15, 1), (16, 3), (17, 3), (18, 3), (19, 3), (20, 3), (21, 3), (22, 3), (23, 3), (24, 2), (25, 2), (26, 2), (27, 2), (28, 2), (29, 2), (30, 2), (31, 2), (32, 2), (33, 2), (34, 2), (35, 2)]) } : FillState String) := by
  unfold fillBoard
  rw [List.foldl_append, cexFc10x1, cexFc10x2]

set_option maxRecDepth 2000 in
theorem cexEl11 : elements (idxCounter [(0, 1), (1, 1), (2, 1), (3, 1), (4, 1), (5, 1), (6, 1), (7, 1), (8, 1), (9, 1), (10, 1), (11, 1), (12, 1), (13, 1), (14, 1), (15, 1), (16, 3), (17, 3), (18, 3), (19, 3), (20, 3), (21, 3), (22, 3), (23, 3), (24, 2), (25, 2), (26, 2), (27, 2), (28, 2), (29, 2), (30, 2), (31, 2), (32, 2), (33, 2), (34, 2), (35, 2)]) = (idxList (rle [(0, 1), (1, 1), (2, 1), (3, 1), (4, 1), (5, 1), (6, 1), (7, 1), (8, 1), (9, 1), (10, 1), (11, 1), (12, 1), (13, 1), (14, 1), (15, 1), (16, 3), (17, 3), (18, 3), (19, 3), (20, 3), (21, 3), (22, 3), (23, 3), (24, 2), (25, 2), (26, 2), (27, 2), (28, 2), (29, 2), (30, 2), (31, 2), (32, 2), (33, 2), (34, 2), (35, 2)])) := by decide

set_option maxRecDepth 2000 in
theorem cexSh11 : (scriptG 11 (idxList (rle [(0, 1), (1, 1), (2, 1), (3, 1), (4, 1), (5, 1), (6, 1), (7, 1), (8, 1), (9, 1), (10, 1), (11, 1), (12, 1), (13, 1), (14, 1), (15, 1), (16, 3), (17, 3), (18, 3), (19, 3), (20, 3), (21, 3), (22, 3), (23, 3), (24, 2), (25, 2), (26, 2), (27, 2), (28, 2), (29, 2), (30, 2), (31, 2), (32, 2), (33, 2), (34, 2), (35, 2)]))).1 = ((idxList (rle [(0, 1), (1, 1), (2, 1), (3, 1), (4, 1), (5, 1), (6, 1), (7, 1), (8, 1), (9, 1), (10, 1), (11, 1), (12, 1), (13, 1), (14, 1), (15, 1), (16, 3), (17, 3), (18, 3), (19, 3), (20, 3), (21, 3), (22, 3), (23, 3), (24, 2), (25, 2), (26, 2), (27, 2), (28, 2), (29, 2), (30, 2), (31, 2), (32, 2), (33, 2)])) ++ (idxList (rle [(34, 2), (35, 2)]))) := by decide

theorem cexShS11 : (scriptG 11 (idxList (rle [(0, 1), (1, 1), (2, 1), (3, 1), (4, 1), (5, 1), (6, 1), (7, 1), (8, 1), (9, 1), (10, 1), (11, 1), (12, 1), (13, 1), (14, 1), (15, 1), (16, 3), (17, 3), (18, 3), (19, 3), (20, 3), (21, 3), (22, 3), (23, 3), (24, 2), (25, 2), (26, 2), (27, 2), (28, 2), (29, 2), (30, 2), (31, 2), (32, 2), (33, 2), (34, 2), (35, 2)]))).2 = 12 := rfl

set_option maxRecDepth 2000 in
theorem cexFc11x1 : List.foldl fillStep ({ board := [], board_items := [], available := (idxCounter [(0, 1), (1, 1), (2, 1), (3, 1), (4, 1), (5, 1), (6, 1), (7, 1), (8, 1), (9, 1), (10, 1), (11, 1), (12, 1), (13, 1), (14, 1), (15, 1), (16, 3), (17, 3), (18, 3), (19, 3), (20, 3), (21, 3), (22, 3), (23, 3), (24, 2), (25, 2), (26, 2), (27, 2), (28, 2), (29, 2), (30, 2), (31, 2), (32, 2), (33, 2), (34, 2), (35, 2)]) } : FillState String) (idxList (rle [(0, 1), (1, 1), (2, 1), (3, 1), (4, 1), (5, 1), (6, 1), (7, 1), (8, 1), (9, 1), (10, 1), (11, 1), (12, 1), (13, 1), (14, 1), (15, 1), (16, 3), (17, 3), (18, 3), (19, 3), (20, 3), (21, 3), (22, 3), (23, 3), (24, 2), (25, 2), (26, 2), (27, 2), (28, 2), (29, 2), (30, 2), (31, 2), (32, 2), (33, 2)])) = ({ board := (idxList (rle [(0, 1), (1, 1), (2, 1), (3, 1), (4, 1), (5, 1), (6, 1), (7, 1), (8, 1), (9, 1), (10, 1), (11, 1), (12, 1), (13, 1), (14, 1), (15, 1)])), board_items := (idxList (rle [(15, 1), (14, 1), (13, 1), (12, 1), (11, 1), (10, 1), (9, 1), (8, 1), (7, 1), (6, 1), (5, 1), (4, 1), (3, 1), (2, 1), (1, 1), (0, 1)])), available := (idxCounter [(16, 3), (17, 3), (18, 3), (19, 3), (20, 3), (21, 3), (22, 3), (23, 3), (24, 2), (25, 2), (26, 2), (27, 2), (28, 2), (29, 2), (30, 2), (31, 2), (32, 2), (33, 2), (34, 2), (35, 2)]) } : FillState String) := by decide

set_option maxRecDepth 2000 in
theorem cexFc11x2 : List.foldl fillStep ({ board := (idxList (rle [(0, 1), (1, 1), (2, 1), (3, 1), (4, 1), (5, 1), (6, 1), (7, 1), (8, 1), (9, 1), (10, 1), (11, 1), (12, 1), (13, 1), (14, 1), (15, 1)])), board_items := (idxList (rle [(15, 1), (14, 1), (13, 1), (12, 1), (11, 1), (10, 1), (9, 1), (8, 1), (7, 1), (6, 1), (5, 1), (4, 1), (3, 1), (2, 1), (1, 1), (0, 1)])), available := (idxCounter [(16, 3), (17, 3), (18, 3), (19, 3), (20, 3), (21, 3), (22, 3), (23, 3), (24, 2), (25, 2), (26, 2), (27, 2), (28, 2), (29, 2), (30, 2), (31, 2), (32, 2), (33, 2), (34, 2), (35, 2)]) } : FillState String) (idxList (rle [(34, 2), (35, 2)])) = ({ board := (idxList (rle [(0, 1), (1, 1), (2, 1), (3, 1), (4, 1), (5, 1), (6, 1), (7, 1), (8, 1), (9, 1), (10, 1), (11, 1), (12, 1), (13, 1), (14, 1), (15, 1)])), board_items := (idxList (rle [(15, 1), (14, 1), (13, 1), (12, 1), (11, 1), (10, 1), (9, 1), (8, 1), (7, 1), (6, 1), (5, 1), (4, 1), (3, 1), (2, 1), (1, 1), (0, 1)])), available := (idxCounter [(16, 3), (17, 3), (18, 3), (19, 3), (20, 3), (21, 3), (22, 3), (23, 3), (24, 2), (25, 2), (26, 2), (27, 2), (28, 2), (29, 2), (30, 2), (31, 2), (32, 2), (33, 2), (34, 2), (35, 2)]) } : FillState String) := by decide

theorem cexFill11 : fillBoard (idxCounter [(0, 1), (1, 1), (2, 1), (3, 1), (4, 1), (5, 1), (6, 1), (7, 1), (8, 1), (9, 1), (10, 1), (11, 1), (12, 1), (13, 1), (14, 1), (15, 1), (16, 3), (17, 3), (18, 3), (19, 3), (20, 3), (21, 3), (22, 3), (23, 3), (24, 2), (25, 2), (26, 2), (27, 2), (28, 2), (29, 2), (30, 2), (31, 2), (32, 2), (33, 2), (34, 2), (35, 2)]) ((idxList (rle [(0, 1), (1, 1), (2, 1), (3, 1), (4, 1), (5, 1), (6, 1), (7, 1), (8, 1), (9, 1), (10, 1), (11, 1), (12, 1), (13, 1), (14, 1), (15, 1), (16, 3), (17, 3), (18, 3), (19, 3), (20, 3), (21, 3), (22, 3), (23, 3), (24, 2), (25, 2), (26, 2), (27, 2), (28, 2), (29, 2), (30, 2), (31, 2), (32, 2), (33, 2)])) ++ (idxList (rle [(34, 2), (35, 2)]))) = ({ board := (idxList (rle [(0, 1), (1, 1), (2, 1), (3, 1), (4, 1), (5, 1), (6, 1), (7, 1), (8, 1), (9, 1), (10, 1), (11, 1), (12, 1), (13, 1), (14, 1), (15, 1)])), board_items := (idxList (rle [(15, 1), (14, 1), (13, 1), (12, 1), (11, 1), (10, 1), (9, 1), (8, 1), (7, 1), (6, 1), (5, 1), (4, 1), (3, 1), (2, 1), (1, 1), (0, 1)])), available := (idxCounter [(16, 3), (17, 3), (18, 3), (19, 3), (20, 3), (21, 3), (22, 3), (23, 3), (24, 2), (25, 2), (26, 2), (27, 2), (28, 2), (29, 2), (30, 2), (31, 2), (32, 2), (33, 2), (34, 2), (35, 2)]) } : FillState String) := by
  unfold fillBoard
  rw [List.foldl_append, cexFc11x1, cexFc11x2]

set_option maxRecDepth 2000 in
theorem cexEl12 : elements (idxCounter [(16, 3), (17, 3), (18, 3), (19, 3), (20, 3), (21, 3), (22, 3), (23, 3), (24, 2), (25, 2), (26, 2), (27, 2), (28, 2), (29, 2), (30, 2), (31, 2), (32, 2), (33, 2), (34, 2), (35, 2)]) = (idxList (rle [(16, 3), (17, 3), (18, 3), (19, 3), (20, 3), (21, 3), (22, 3), (23, 3), (24, 2), (25, 2), (26, 2), (27, 2), (28, 2), (29, 2), (30, 2), (31, 2), (32, 2), (33, 2), (34, 2), (35, 2)])) := by decide

set_option maxRecDepth 2000 in
theorem cexSh12 : (scriptG 12 (idxList (rle [(16, 3), (17, 3), (18, 3), (19, 3), (20, 3), (21, 3), (22, 3), (23, 3), (24, 2), (25, 2), (26, 2), (27, 2), (28, 2), (29, 2), (30, 2), (31, 2), (32, 2), (33, 2), (34, 2), (35, 2)]))).1 = (idxList (rle [(16, 1), (17, 1), (18, 1), (19, 1), (20, 1), (21, 1), (22, 1), (23, 1), (24, 1), (25, 1), (26, 1), (27, 1), (28, 1), (29, 1), (30, 1), (31, 1), (16, 2), (17, 2), (18, 2), (19, 2), (20, 2), (21, 2), (22, 2), (23, 2), (24, 1), (25, 1), (26, 1), (27, 1), (28, 1), (29, 1), (30, 1), (31, 1), (32, 2), (33, 2), (34, 2), (35, 2)])) := by decide

theorem cexShS12 : (scriptG 12 (idxList (rle [(16, 3), (17, 3), (18, 3), (19, 3), (20, 3), (21, 3), (22, 3), (23, 3), (24, 2), (25, 2), (26, 2), (27, 2), (28, 2), (29, 2), (30, 2), (31, 2), (32, 2), (33, 2), (34, 2), (35, 2)]))).2 = 13 := rfl

set_option maxRecDepth 2000 in
theorem cexFc12x1 : List.foldl fillStep ({ board := [], board_items := [], available := (idxCounter [(16, 3), (17, 3), (18, 3), (19, 3), (20, 3), (21, 3), (22, 3), (23, 3), (24, 2), (25, 2), (26, 2), (27, 2), (28, 2), (29, 2), (30, 2), (31, 2), (32, 2), (33, 2), (34, 2), (35, 2)]) } : FillState String) (idxList (rle [(16, 1), (17, 1), (18, 1), (19, 1), (20, 1), (21, 1), (22, 1), (23, 1), (24, 1), (25, 1), (26, 1), (27, 1), (28, 1), (29, 1), (30, 1), (31, 1), (16, 2), (17, 2), (18, 2), (19, 2), (20, 2), (21, 2), (22, 2), (23, 2), (24, 1), (25, 1), (26, 1), (27, 1), (28, 1), (29, 1), (30, 1), (31, 1), (32, 2), (33, 2), (34, 2), (35, 2)])) = ({ board := (idxList (rle [(16, 1), (17, 1), (18, 1), (19, 1), (20, 1), (21, 1), (22, 1), (23, 1), (24, 1), (25, 1), (26, 1), (27, 1), (28, 1), (29, 1), (30, 1), (31, 1)])), board_items := (idxList (rle [(31, 1), (30, 1), (29, 1), (28, 1), (27, 1), (26, 1), (25, 1), (24, 1), (23, 1), (22, 1), (21, 1), (20, 1), (19, 1), (18, 1), (17, 1), (16, 1)])), available := (idxCounter [(16, 2), (17, 2), (18, 2), (19, 2), (20, 2), (21, 2), (22, 2), (23, 2), (24, 1), (25, 1), (26, 1), (27, 1), (28, 1), (29, 1), (30, 1), (31, 1), (32, 2), (33, 2), (34, 2), (35, 2)]) } : FillState String) := by decide

theorem cexFill12 : fillBoard (idxCounter [(16, 3), (17, 3), (18, 3), (19, 3), (20, 3), (21, 3), (22, 3), (23, 3), (24, 2), (25, 2), (26, 2), (27, 2), (28, 2), (29, 2), (30, 2), (31, 2), (32, 2), (33, 2), (34, 2), (35, 2)]) (idxList (rle [(16, 1), (17, 1), (18, 1), (19, 1), (20, 1), (21, 1), (22, 1), (23, 1), (24, 1), (25, 1), (26, 1), (27, 1), (28, 1), (29, 1), (30, 1), (31, 1), (16, 2), (17, 2), (18, 2), (19, 2), (20, 2), (21, 2), (22, 2), (23, 2), (24, 1), (25, 1), (26, 1), (27, 1), (28, 1), (29, 1), (30, 1), (31, 1), (32, 2), (33, 2), (34, 2), (35, 2)])) = ({ board := (idxList (rle [(16, 1), (17, 1), (18, 1), (19, 1), (20, 1), (21, 1), (22, 1), (23, 1), (24, 1), (25, 1), (26, 1), (27, 1), (28, 1), (29, 1), (30, 1), (31, 1)])), board_items := (idxList (rle [(31, 1), (30, 1), (29, 1), (28, 1), (27, 1), (26, 1), (25, 1), (24, 1), (23, 1), (22, 1), (21, 1), (20, 1), (19, 1), (18, 1), (17, 1), (16, 1)])), available := (idxCounter [(16, 2), (17, 2), (18, 2), (19, 2), (20, 2), (21, 2), (22, 2), (23, 2), (24, 1), (25, 1), (26, 1), (27, 1), (28, 1), (29, 1), (30, 1), (31, 1), (32, 2), (33, 2), (34, 2), (35, 2)]) } : FillState String) := by
  unfold fillBoard
  rw [cexFc12x1]

set_option maxRecDepth 2000 in
theorem cexEl13 : elements (idxCounter [(16, 2), (17, 2), (18, 2), (19, 2), (20, 2), (21, 2), (22, 2), (23, 2), (24, 1), (25, 1), (26, 1), (27, 1), (28, 1), (29, 1), (30, 1), (31, 1), (32, 2), (33, 2), (34, 2), (35, 2)]) = (idxList (rle [(16, 2), (17, 2), (18, 2), (19, 2), (20, 2), (21, 2), (22, 2), (23, 2), (24, 1), (25, 1), (26, 1), (27, 1), (28, 1), (29, 1), (30, 1), (31, 1), (32, 2), (33, 2), (34, 2), (35, 2)])) := by decide

set_option maxRecDepth 2000 in
theorem cexSh13 : (scriptG 13 (idxList (rle [(16, 2), (17, 2), (18, 2), (19, 2), (20, 2), (21, 2), (22, 2), (23, 2), (24, 1), (25, 1), (26, 1), (27, 1), (28, 1), (29, 1), (30, 1), (31, 1), (32, 2), (33, 2), (34, 2), (35, 2)]))).1 = (idxList (rle [(32, 1), (33, 1), (34, 1), (35, 1), (16, 1), (17, 1), (18, 1), (19, 1), (20, 1), (21, 1), (22, 1), (23, 1), (24, 1), (25, 1), (26, 1), (27, 1), (16, 1), (17, 1), (18, 1), (19, 1), (20, 1), (21, 1), (22, 1), (23, 1), (28, 1), (29, 1), (30, 1), (31, 1), (32, 1), (33, 1), (34, 1), (35, 1)])) := by decide

theorem cexShS13 : (scriptG 13 (idxList (rle [(16, 2), (17, 2), (18, 2), (19, 2), (20, 2), (21, 2), (22, 2), (23, 2), (24, 1), (25, 1), (26, 1), (27, 1), (28, 1), (29, 1), (30, 1), (31, 1), (32, 2), (33, 2), (34, 2), (35, 2)]))).2 = 14 := rfl

set_option maxRecDepth 2000 in
theorem cexFc13x1 : List.foldl fillStep ({ board := [], board_items := [], available := (idxCounter [(16, 2), (17, 2), (18, 2), (19, 2), (20, 2), (21, 2), (22, 2), (23, 2), (24, 1), (25, 1), (26, 1), (27, 1), (28, 1), (29, 1), (30, 1), (31, 1), (32, 2), (33, 2), (34, 2), (35, 2)]) } : FillState String) (idxList (rle [(32, 1), (33, 1), (34, 1), (35, 1), (16, 1), (17, 1), (18, 1), (19, 1), (20, 1), (21, 1), (22, 1), (23, 1), (24, 1), (25, 1), (26, 1), (27, 1), (16, 1), (17, 1), (18, 1), (19, 1), (20, 1), (21, 1), (22, 1), (23, 1), (28, 1), (29, 1), (30, 1), (31, 1), (32, 1), (33, 1), (34, 1), (35, 1)])) = ({ board := (idxList (rle [(32, 1), (33, 1), (34, 1), (35, 1), (16, 1), (17, 1), (18, 1), (19, 1), (20, 1), (21, 1), (22, 1), (23, 1), (24, 1), (25, 1), (26, 1), (27, 1)])), board_items := (idxList (rle [(27, 1), (26, 1), (25, 1), (24, 1), (23, 1), (22, 1), (21, 1), (20, 1), (19, 1), (18, 1), (17, 1), (16, 1), (35, 1), (34, 1), (33, 1), (32, 1)])), available := (idxCounter [(16, 1), (17, 1), (18, 1), (19, 1), (20, 1), (21, 1), (22, 1), (23, 1), (28, 1), (29, 1), (30, 1), (31, 1), (32, 1), (33, 1), (34, 1), (35, 1)]) } : FillState String) := by decide

theorem cexFill13 : fillBoard (idxCounter [(16, 2), (17, 2), (18, 2), (19, 2), (20, 2), (21, 2), (22, 2), (23, 2), (24, 1), (25, 1), (26, 1), (27, 1), (28, 1), (29, 1), (30, 1), (31, 1), (32, 2), (33, 2), (34, 2), (35, 2)]) (idxList (rle [(32, 1), (33, 1), (34, 1), (35, 1), (16, 1), (17, 1), (18, 1), (19, 1), (20, 1), (21, 1), (22, 1), (23, 1), (24, 1), (25, 1), (26, 1), (27, 1), (16, 1), (17, 1), (18, 1), (19, 1), (20, 1), (21, 1), (22, 1), (23, 1), (28, 1), (29, 1), (30, 1), (31, 1), (32, 1), (33, 1), (34, 1), (35, 1)])) = ({ board := (idxList (rle [(32, 1), (33, 1), (34, 1), (35, 1), (16, 1), (17, 1), (18, 1), (19, 1), (20, 1), (21, 1), (22, 1), (23, 1), (24, 1), (25, 1), (26, 1), (27, 1)])), board_items := (idxList (rle [(27, 1), (26, 1), (25, 1), (24, 1), (23, 1), (22, 1), (21, 1), (20, 1), (19, 1), (18, 1), (17, 1), (16, 1), (35, 1), (34, 1), (33, 1), (32, 1)])), available := (idxCounter [(16, 1), (17, 1), (18, 1), (19, 1), (20, 1), (21, 1), (22, 1), (23, 1), (28, 1), (29, 1), (30, 1), (31, 1), (32, 1), (33, 1), (34, 1), (35, 1)]) } : FillState String) := by
  unfold fillBoard
  rw [cexFc13x1]

set_option maxRecDepth 2000 in
theorem cexEl14 : elements (idxCounter [(16, 1), (17, 1), (18, 1), (19, 1), (20, 1), (21, 1), (22, 1), (23, 1), (28, 1), (29, 1), (30, 1), (31, 1), (32, 1), (33, 1), (34, 1), (35, 1)]) = (idxList (rle [(16, 1), (17, 1), (18, 1), (19, 1), (20, 1), (21, 1), (22, 1), (23, 1), (28, 1), (29, 1), (30, 1), (31, 1), (32, 1), (33, 1), (34, 1), (35, 1)])) := by decide

set_option maxRecDepth 2000 in
theorem cexSh14 : (scriptG 14 (idxList (rle [(16, 1), (17, 1), (18, 1), (19, 1), (20, 1), (21, 1), (22, 1), (23, 1), (28, 1), (29, 1), (30, 1), (31, 1), (32, 1), (33, 1), (34, 1), (35, 1)]))).1 = (idxList (rle [(28, 1), (29, 1), (30, 1), (31, 1), (32, 1), (33, 1), (34, 1), (35, 1), (16, 1), (17, 1), (18, 1), (19, 1), (20, 1), (21, 1), (22, 1), (23, 1)])) := by decide

theorem cexShS14 : (scriptG 14 (idxList (rle [(16, 1), (17, 1), (18, 1), (19, 1), (20, 1), (21, 1), (22, 1), (23, 1), (28, 1), (29, 1), (30, 1), (31, 1), (32, 1), (33, 1), (34, 1), (35, 1)]))).2 = 15 := rfl

set_option maxRecDepth 2000 in
theorem cexFc14x1 : List.foldl fillStep ({ board := [], board_items := [], available := (idxCounter [(16, 1), (17, 1), (18, 1), (19, 1), (20, 1), (21, 1), (22, 1), (23, 1), (28, 1), (29, 1), (30, 1), (31, 1), (32, 1), (33, 1), (34, 1), (35, 1)]) } : FillState String) (idxList (rle [(28, 1), (29, 1), (30, 1), (31, 1), (32, 1), (33, 1), (34, 1), (35, 1), (16, 1), (17, 1), (18, 1), (19, 1), (20, 1), (21, 1), (22, 1), (23, 1)])) = ({ board := (idxList (rle [(28, 1), (29, 1), (30, 1), (31, 1), (32, 1), (33, 1), (34, 1), (35, 1), (16, 1), (17, 1), (18, 1), (19, 1), (20, 1), (21, 1), (22, 1), (23, 1)])), board_items := (idxList (rle [(23, 1), (22, 1), (21, 1), (20, 1), (19, 1), (18, 1), (17, 1), (16, 1), (35, 1), (34, 1), (33, 1), (32, 1), (31, 1), (30, 1), (29, 1), (28, 1)])), available := (idxCounter []) } : FillState String) := by decide

theorem cexFill14 : fillBoard (idxCounter [(16, 1), (17, 1), (18, 1), (19, 1), (20, 1), (21, 1), (22, 1), (23, 1), (28, 1), (29, 1), (30, 1), (31, 1), (32, 1), (33, 1), (34, 1), (35, 1)]) (idxList (rle [(28, 1), (29, 1), (30, 1), (31, 1), (32, 1), (33, 1), (34, 1), (35, 1), (16, 1), (17, 1), (18, 1), (19, 1), (20, 1), (21, 1), (22, 1), (23, 1)])) = ({ board := (idxList (rle [(28, 1), (29, 1), (30, 1), (31, 1), (32, 1), (33, 1), (34, 1), (35, 1), (16, 1), (17, 1), (18, 1), (19, 1), (20, 1), (21, 1), (22, 1), (23, 1)])), board_items := (idxList (rle [(23, 1), (22, 1), (21, 1), (20, 1), (19, 1), (18, 1), (17, 1), (16, 1), (35, 1), (34, 1), (33, 1), (32, 1), (31, 1), (30, 1), (29, 1), (28, 1)])), available := (idxCounter []) } : FillState String) := by
  unfold fillBoard
  rw [cexFc14x1]

theorem cexStep15 : buildLoop scriptG 0 (idxCounter []) [(idxList (rle [(0, 1), (1, 1), (2, 1), (3, 1), (4, 1), (5, 1), (6, 1), (7, 1), (8, 1), (9, 1), (10, 1), (11, 1), (12, 1), (13, 1), (14, 1), (15, 1)])), (idxList (rle [(0, 1), (1, 1), (2, 1), (3, 1), (4, 1), (5, 1), (6, 1), (7, 1), (8, 1), (9, 1), (10, 1), (11, 1), (12, 1), (13, 1), (14, 1), (15, 1)])), (idxList (rle [(0, 1), (1, 1), (2, 1), (3, 1), (4, 1), (5, 1), (6, 1), (7, 1), (8, 1), (9, 1), (10, 1), (11, 1), (12, 1), (13, 1), (14, 1), (15, 1)])), (idxList (rle [(16, 1), (17, 1), (18, 1), (19, 1), (20, 1), (21, 1), (22, 1), (23, 1), (24, 1), (25, 1), (26, 1), (27, 1), (28, 1), (29, 1), (30, 1), (31, 1)])), (idxList (rle [(32, 1), (33, 1), (34, 1), (35, 1), (0, 1), (1, 1), (2, 1), (3, 1), (4, 1), (5, 1), (6, 1), (7, 1), (8, 1), (9, 1), (10, 1), (11, 1)])), (idxList (rle [(12, 1), (13, 1), (14, 1), (15, 1), (16, 1), (17, 1), (18, 1), (19, 1), (20, 1), (21, 1), (22, 1), (23, 1), (24, 1), (25, 1), (26, 1), (27, 1)])), (idxList (rle [(28, 1), (29, 1), (30, 1), (31, 1), (32, 1), (33, 1), (34, 1), (35, 1), (0, 1), (1, 1), (2, 1), (3, 1), (4, 1), (5, 1), (6, 1), (7, 1)])), (idxList (rle [(8, 1), (9, 1), (10, 1), (11, 1), (12, 1), (13, 1), (14, 1), (15, 1), (16, 1), (17, 1), (18, 1), (19, 1), (20, 1), (21, 1), (22, 1), (23, 1)])), (idxList (rle [(24, 1), (25, 1), (26, 1), (27, 1), (28, 1), (29, 1), (30, 1), (31, 1), (32, 1), (33, 1), (34, 1), (35, 1), (0, 1), (1, 1), (2, 1), (3, 1)])), (idxList (rle [(4, 1), (5, 1), (6, 1), (7, 1), (8, 1), (9, 1), (10, 1), (11, 1), (12, 1), (13, 1), (14, 1), (15, 1), (16, 1), (17, 1), (18, 1), (19, 1)])), (idxList (rle [(20, 1), (21, 1), (22, 1), (23, 1), (24, 1), (25, 1), (26, 1), (27, 1), (28, 1), (29, 1), (30, 1), (31, 1), (32, 1), (33, 1), (34, 1), (35, 1)])), (idxList (rle [(0, 1), (1, 1), (2, 1), (3, 1), (4, 1), (5, 1), (6, 1), (7, 1), (8, 1), (9, 1), (10, 1), (11, 1), (12, 1), (13, 1), (14, 1), (15, 1)])), (idxList (rle [(16, 1), (17, 1), (18, 1), (19, 1), (20, 1), (21, 1), (22, 1), (23, 1), (24, 1), (25, 1), (26, 1), (27, 1), (28, 1), (29, 1), (30, 1), (31, 1)])), (idxList (rle [(32, 1), (33, 1), (34, 1), (35, 1), (16, 1), (17, 1), (18, 1), (19, 1), (20, 1), (21, 1), (22, 1), (23, 1), (24, 1), (25, 1), (26, 1), (27, 1)])), (idxList (rle [(28, 1), (29, 1), (30, 1), (31, 1), (32, 1), (33, 1), (34, 1), (35, 1), (16, 1), (17, 1), (18, 1), (19, 1), (20, 1), (21, 1), (22, 1), (23, 1)]))] 15 = ([(idxList (rle [(0, 1), (1, 1), (2, 1), (3, 1), (4, 1), (5, 1), (6, 1), (7, 1), (8, 1), (9, 1), (10, 1), (11, 1), (12, 1), (13, 1), (14, 1), (15, 1)])), (idxList (rle [(0, 1), (1, 1), (2, 1), (3, 1), (4, 1), (5, 1), (6, 1), (7, 1), (8, 1), (9, 1), (10, 1), (11, 1), (12, 1), (13, 1), (14, 1), (15, 1)])), (idxList (rle [(0, 1), (1, 1), (2, 1), (3, 1), (4, 1), (5, 1), (6, 1), (7, 1), (8, 1), (9, 1), (10, 1), (11, 1), (12, 1), (13, 1), (14, 1), (15, 1)])), (idxList (rle [(16, 1), (17, 1), (18, 1), (19, 1), (20, 1), (21, 1), (22, 1), (23, 1), (24, 1), (25, 1), (26, 1), (27, 1), (28, 1), (29, 1), (30, 1), (31, 1)])), (idxList (rle [(32, 1), (33, 1), (34, 1), (35, 1), (0, 1), (1, 1), (2, 1), (3, 1), (4, 1), (5, 1), (6, 1), (7, 1), (8, 1), (9, 1), (10, 1), (11, 1)])), (idxList (rle [(12, 1), (13, 1), (14, 1), (15, 1), (16, 1), (17, 1), (18, 1), (19, 1), (20, 1), (21, 1), (22, 1), (23, 1), (24, 1), (25, 1), (26, 1), (27, 1)])), (idxList (rle [(28, 1), (29, 1), (30, 1), (31, 1), (32, 1), (33, 1), (34, 1), (35, 1), (0, 1), (1, 1), (2, 1), (3, 1), (4, 1), (5, 1), (6, 1), (7, 1)])), (idxList (rle [(8, 1), (9, 1), (10, 1), (11, 1), (12, 1), (13, 1), (14, 1), (15, 1), (16, 1), (17, 1), (18, 1), (19, 1), (20, 1), (21, 1), (22, 1), (23, 1)])), (idxList (rle [(24, 1), (25, 1), (26, 1), (27, 1), (28, 1), (29, 1), (30, 1), (31, 1), (32, 1), (33, 1), (34, 1), (35, 1), (0, 1), (1, 1), (2, 1), (3, 1)])), (idxList (rle [(4, 1), (5, 1), (6, 1), (7, 1), (8, 1), (9, 1), (10, 1), (11, 1), (12, 1), (13, 1), (14, 1), (15, 1), (16, 1), (17, 1), (18, 1), (19, 1)])), (idxList (rle [(20, 1), (21, 1), (22, 1), (23, 1), (24, 1), (25, 1), (26, 1), (27, 1), (28, 1), (29, 1), (30, 1), (31, 1), (32, 1), (33, 1), (34, 1), (35, 1)])), (idxList (rle [(0, 1), (1, 1), (2, 1), (3, 1), (4, 1), (5, 1), (6, 1), (7, 1), (8, 1), (9, 1), (10, 1), (11, 1), (12, 1), (13, 1), (14, 1), (15, 1)])), (idxList (rle [(16, 1), (17, 1), (18, 1), (19, 1), (20, 1), (21, 1), (22, 1), (23, 1), (24, 1), (25, 1), (26, 1), (27, 1), (28, 1), (29, 1), (30, 1), (31, 1)])), (idxList (rle [(32, 1), (33, 1), (34, 1), (35, 1), (16, 1), (17, 1), (18, 1), (19, 1), (20, 1), (21, 1), (22, 1), (23, 1), (24, 1), (25, 1), (26, 1), (27, 1)])), (idxList (rle [(28, 1), (29, 1), (30, 1), (31, 1), (32, 1), (33, 1), (34, 1), (35, 1), (16, 1), (17, 1), (18, 1), (19, 1), (20, 1), (21, 1), (22, 1), (23, 1)]))], 15) := rfl

theorem cexStep14 : buildLoop scriptG 1 (idxCounter [(16, 1), (17, 1), (18, 1), (19, 1), (20, 1), (21, 1), (22, 1), (23, 1), (28, 1), (29, 1), (30, 1), (31, 1), (32, 1), (33, 1), (34, 1), (35, 1)]) [(idxList (rle [(0, 1), (1, 1), (2, 1), (3, 1), (4, 1), (5, 1), (6, 1), (7, 1), (8, 1), (9, 1), (10, 1), (11, 1), (12, 1), (13, 1), (14, 1), (15, 1)])), (idxList (rle [(0, 1), (1, 1), (2, 1), (3, 1), (4, 1), (5, 1), (6, 1), (7, 1), (8, 1), (9, 1), (10, 1), (11, 1), (12, 1), (13, 1), (14, 1), (15, 1)])), (idxList (rle [(0, 1), (1, 1), (2, 1), (3, 1), (4, 1), (5, 1), (6, 1), (7, 1), (8, 1), (9, 1), (10, 1), (11, 1), (12, 1), (13, 1), (14, 1), (15, 1)])), (idxList (rle [(16, 1), (17, 1), (18, 1), (19, 1), (20, 1), (21, 1), (22, 1), (23, 1), (24, 1), (25, 1), (26, 1), (27, 1), (28, 1), (29, 1), (30, 1), (31, 1)])), (idxList (rle [(32, 1), (33, 1), (34, 1), (35, 1), (0, 1), (1, 1), (2, 1), (3, 1), (4, 1), (5, 1), (6, 1), (7, 1), (8, 1), (9, 1), (10, 1), (11, 1)])), (idxList (rle [(12, 1), (13, 1), (14, 1), (15, 1), (16, 1), (17, 1), (18, 1), (19, 1), (20, 1), (21, 1), (22, 1), (23, 1), (24, 1), (25, 1), (26, 1), (27, 1)])), (idxList (rle [(28, 1), (29, 1), (30, 1), (31, 1), (32, 1), (33, 1), (34, 1), (35, 1), (0, 1), (1, 1), (2, 1), (3, 1), (4, 1), (5, 1), (6, 1), (7, 1)])), (idxList (rle [(8, 1), (9, 1), (10, 1), (11, 1), (12, 1), (13, 1), (14, 1), (15, 1), (16, 1), (17, 1), (18, 1), (19, 1), (20, 1), (21, 1), (22, 1), (23, 1)])), (idxList (rle [(24, 1), (25, 1), (26, 1), (27, 1), (28, 1), (29, 1), (30, 1), (31, 1), (32, 1), (33, 1), (34, 1), (35, 1), (0, 1), (1, 1), (2, 1), (3, 1)])), (idxList (rle [(4, 1), (5, 1), (6, 1), (7, 1), (8, 1), (9, 1), (10, 1), (11, 1), (12, 1), (13, 1), (14, 1), (15, 1), (16, 1), (17, 1), (18, 1), (19, 1)])), (idxList (rle [(20, 1), (21, 1), (22, 1), (23, 1), (24, 1), (25, 1), (26, 1), (27, 1), (28, 1), (29, 1), (30, 1), (31, 1), (32, 1), (33, 1), (34, 1), (35, 1)])), (idxList (rle [(0, 1), (1, 1), (2, 1), (3, 1), (4, 1), (5, 1), (6, 1), (7, 1), (8, 1), (9, 1), (10, 1), (11, 1), (12, 1), (13, 1), (14, 1), (15, 1)])), (idxList (rle [(16, 1), (17, 1), (18, 1), (19, 1), (20, 1), (21, 1), (22, 1), (23, 1), (24, 1), (25, 1), (26, 1), (27, 1), (28, 1), (29, 1), (30, 1), (31, 1)])), (idxList (rle [(32, 1), (33, 1), (34, 1), (35, 1), (16, 1), (17, 1), (18, 1), (19, 1), (20, 1), (21, 1), (22, 1), (23, 1), (24, 1), (25, 1), (26, 1), (27, 1)]))] 14 = ([(idxList (rle [(0, 1), (1, 1), (2, 1), (3, 1), (4, 1), (5, 1), (6, 1), (7, 1), (8, 1), (9, 1), (10, 1), (11, 1), (12, 1), (13, 1), (14, 1), (15, 1)])), (idxList (rle [(0, 1), (1, 1), (2, 1), (3, 1), (4, 1), (5, 1), (6, 1), (7, 1), (8, 1), (9, 1), (10, 1), (11, 1), (12, 1), (13, 1), (14, 1), (15, 1)])), (idxList (rle [(0, 1), (1, 1), (2, 1), (3, 1), (4, 1), (5, 1), (6, 1), (7, 1), (8, 1), (9, 1), (10, 1), (11, 1), (12, 1), (13, 1), (14, 1), (15, 1)])), (idxList (rle [(16, 1), (17, 1), (18, 1), (19, 1), (20, 1), (21, 1), (22, 1), (23, 1), (24, 1), (25, 1), (26, 1), (27, 1), (28, 1), (29, 1), (30, 1), (31, 1)])), (idxList (rle [(32, 1), (33, 1), (34, 1), (35, 1), (0, 1), (1, 1), (2, 1), (3, 1), (4, 1), (5, 1), (6, 1), (7, 1), (8, 1), (9, 1), (10, 1), (11, 1)])), (idxList (rle [(12, 1), (13, 1), (14, 1), (15, 1), (16, 1), (17, 1), (18, 1), (19, 1), (20, 1), (21, 1), (22, 1), (23, 1), (24, 1), (25, 1), (26, 1), (27, 1)])), (idxList (rle [(28, 1), (29, 1), (30, 1), (31, 1), (32, 1), (33, 1), (34, 1), (35, 1), (0, 1), (1, 1), (2, 1), (3, 1), (4, 1), (5, 1), (6, 1), (7, 1)])), (idxList (rle [(8, 1), (9, 1), (10, 1), (11, 1), (12, 1), (13, 1), (14, 1), (15, 1), (16, 1), (17, 1), (18, 1), (19, 1), (20, 1), (21, 1), (22, 1), (23, 1)])), (idxList (rle [(24, 1), (25, 1), (26, 1), (27, 1), (28, 1), (29, 1), (30, 1), (31, 1), (32, 1), (33, 1), (34, 1), (35, 1), (0, 1), (1, 1), (2, 1), (3, 1)])), (idxList (rle [(4, 1), (5, 1), (6, 1), (7, 1), (8, 1), (9, 1), (10, 1), (11, 1), (12, 1), (13, 1), (14, 1), (15, 1), (16, 1), (17, 1), (18, 1), (19, 1)])), (idxList (rle [(20, 1), (21, 1), (22, 1), (23, 1), (24, 1), (25, 1), (26, 1), (27, 1), (28, 1), (29, 1), (30, 1), (31, 1), (32, 1), (33, 1), (34, 1), (35, 1)])), (idxList (rle [(0, 1), (1, 1), (2, 1), (3, 1), (4, 1), (5, 1), (6, 1), (7, 1), (8, 1), (9, 1), (10, 1), (11, 1), (12, 1), (13, 1), (14, 1), (15, 1)])), (idxList (rle [(16, 1), (17, 1), (18, 1), (19, 1), (20, 1), (21, 1), (22, 1), (23, 1), (24, 1), (25, 1), (26, 1), (27, 1), (28, 1), (29, 1), (30, 1), (31, 1)])), (idxList (rle [(32, 1), (33, 1), (34, 1), (35, 1), (16, 1), (17, 1), (18, 1), (19, 1), (20, 1), (21, 1), (22, 1), (23, 1), (24, 1), (25, 1), (26, 1), (27, 1)])), (idxList (rle [(28, 1), (29, 1), (30, 1), (31, 1), (32, 1), (33, 1), (34, 1), (35, 1), (16, 1), (17, 1), (18, 1), (19, 1), (20, 1), (21, 1), (22, 1), (23, 1)]))], 15) := by
  rw [buildLoop_succ scriptG 0 (idxCounter [(16, 1), (17, 1), (18, 1), (19, 1), (20, 1), (21, 1), (22, 1), (23, 1), (28, 1), (29, 1), (30, 1), (31, 1), (32, 1), (33, 1), (34, 1), (35, 1)]) [(idxList (rle [(0, 1), (1, 1), (2, 1), (3, 1), (4, 1), (5, 1), (6, 1), (7, 1), (8, 1), (9, 1), (10, 1), (11, 1), (12, 1), (13, 1), (14, 1), (15, 1)])), (idxList (rle [(0, 1), (1, 1), (2, 1), (3, 1), (4, 1), (5, 1), (6, 1), (7, 1), (8, 1), (9, 1), (10, 1), (11, 1), (12, 1), (13, 1), (14, 1), (15, 1)])), (idxList (rle [(0, 1), (1, 1), (2, 1), (3, 1), (4, 1), (5, 1), (6, 1), (7, 1), (8, 1), (9, 1), (10, 1), (11, 1), (12, 1), (13, 1), (14, 1), (15, 1)])), (idxList (rle [(16, 1), (17, 1), (18, 1), (19, 1), (20, 1), (21, 1), (22, 1), (23, 1), (24, 1), (25, 1), (26, 1), (27, 1), (28, 1), (29, 1), (30, 1), (31, 1)])), (idxList (rle [(32, 1), (33, 1), (34, 1), (35, 1), (0, 1), (1, 1), (2, 1), (3, 1), (4, 1), (5, 1), (6, 1), (7, 1), (8, 1), (9, 1), (10, 1), (11, 1)])), (idxList (rle [(12, 1), (13, 1), (14, 1), (15, 1), (16, 1), (17, 1), (18, 1), (19, 1), (20, 1), (21, 1), (22, 1), (23, 1), (24, 1), (25, 1), (26, 1), (27, 1)])), (idxList (rle [(28, 1), (29, 1), (30, 1), (31, 1), (32, 1), (33, 1), (34, 1), (35, 1), (0, 1), (1, 1), (2, 1), (3, 1), (4, 1), (5, 1), (6, 1), (7, 1)])), (idxList (rle [(8, 1), (9, 1), (10, 1), (11, 1), (12, 1), (13, 1), (14, 1), (15, 1), (16, 1), (17, 1), (18, 1), (19, 1), (20, 1), (21, 1), (22, 1), (23, 1)])), (idxList (rle [(24, 1), (25, 1), (26, 1), (27, 1), (28, 1), (29, 1), (30, 1), (31, 1), (32, 1), (33, 1), (34, 1), (35, 1), (0, 1), (1, 1), (2, 1), (3, 1)])), (idxList (rle [(4, 1), (5, 1), (6, 1), (7, 1), (8, 1), (9, 1), (10, 1), (11, 1), (12, 1), (13, 1), (14, 1), (15, 1), (16, 1), (17, 1), (18, 1), (19, 1)])), (idxList (rle [(20, 1), (21, 1), (22, 1), (23, 1), (24, 1), (25, 1), (26, 1), (27, 1), (28, 1), (29, 1), (30, 1), (31, 1), (32, 1), (33, 1), (34, 1), (35, 1)])), (idxList (rle [(0, 1), (1, 1), (2, 1), (3, 1), (4, 1), (5, 1), (6, 1), (7, 1), (8, 1), (9, 1), (10, 1), (11, 1), (12, 1), (13, 1), (14, 1), (15, 1)])), (idxList (rle [(16, 1), (17, 1), (18, 1), (19, 1), (20, 1), (21, 1), (22, 1), (23, 1), (24, 1), (25, 1), (26, 1), (27, 1), (28, 1), (29, 1), (30, 1), (31, 1)])), (idxList (rle [(32, 1), (33, 1), (34, 1), (35, 1), (16, 1), (17, 1), (18, 1), (19, 1), (20, 1), (21, 1), (22, 1), (23, 1), (24, 1), (25, 1), (26, 1), (27, 1)]))] 14, cexEl14, cexSh14, cexShS14, cexFill14]
  dsimp only
  rw [if_neg (show ¬(idxList (rle [(28, 1), (29, 1), (30, 1), (31, 1), (32, 1), (33, 1), (34, 1), (35, 1), (16, 1), (17, 1), (18, 1), (19, 1), (20, 1), (21, 1), (22, 1), (23, 1)])).length ≠ BOARD_SIZE by decide)]
  exact cexStep15

theorem cexStep13 : buildLoop scriptG 2 (idxCounter [(16, 2), (17, 2), (18, 2), (19, 2), (20, 2), (21, 2), (22, 2), (23, 2), (24, 1), (25, 1), (26, 1), (27, 1), (28, 1), (29, 1), (30, 1), (31, 1), (32, 2), (33, 2), (34, 2), (35, 2)]) [(idxList (rle [(0, 1), (1, 1), (2, 1), (3, 1), (4, 1), (5, 1), (6, 1), (7, 1), (8, 1), (9, 1), (10, 1), (11, 1), (12, 1), (13, 1), (14, 1), (15, 1)])), (idxList (rle [(0, 1), (1, 1), (2, 1), (3, 1), (4, 1), (5, 1), (6, 1), (7, 1), (8, 1), (9, 1), (10, 1), (11, 1), (12, 1), (13, 1), (14, 1), (15, 1)])), (idxList (rle [(0, 1), (1, 1), (2, 1), (3, 1), (4, 1), (5, 1), (6, 1), (7, 1), (8, 1), (9, 1), (10, 1), (11, 1), (12, 1), (13, 1), (14, 1), (15, 1)])), (idxList (rle [(16, 1), (17, 1), (18, 1), (19, 1), (20, 1), (21, 1), (22, 1), (23, 1), (24, 1), (25, 1), (26, 1), (27, 1), (28, 1), (29, 1), (30, 1), (31, 1)])), (idxList (rle [(32, 1), (33, 1), (34, 1), (35, 1), (0, 1), (1, 1), (2, 1), (3, 1), (4, 1), (5, 1), (6, 1), (7, 1), (8, 1), (9, 1), (10, 1), (11, 1)])), (idxList (rle [(12, 1), (13, 1), (14, 1), (15, 1), (16, 1), (17, 1), (18, 1), (19, 1), (20, 1), (21, 1), (22, 1), (23, 1), (24, 1), (25, 1), (26, 1), (27, 1)])), (idxList (rle [(28, 1), (29, 1), (30, 1), (31, 1), (32, 1), (33, 1), (34, 1), (35, 1), (0, 1), (1, 1), (2, 1), (3, 1), (4, 1), (5, 1), (6, 1), (7, 1)])), (idxList (rle [(8, 1), (9, 1), (10, 1), (11, 1), (12, 1), (13, 1), (14, 1), (15, 1), (16, 1), (17, 1), (18, 1), (19, 1), (20, 1), (21, 1), (22, 1), (23, 1)])), (idxList (rle [(24, 1), (25, 1), (26, 1), (27, 1), (28, 1), (29, 1), (30, 1), (31, 1), (32, 1), (33, 1), (34, 1), (35, 1), (0, 1), (1, 1), (2, 1), (3, 1)])), (idxList (rle [(4, 1), (5, 1), (6, 1), (7, 1), (8, 1), (9, 1), (10, 1), (11, 1), (12, 1), (13, 1), (14, 1), (15, 1), (16, 1), (17, 1), (18, 1), (19, 1)])), (idxList (rle [(20, 1), (21, 1), (22, 1), (23, 1), (24, 1), (25, 1), (26, 1), (27, 1), (28, 1), (29, 1), (30, 1), (31, 1), (32, 1), (33, 1), (34, 1), (35, 1)])), (idxList (rle [(0, 1), (1, 1), (2, 1), (3, 1), (4, 1), (5, 1), (6, 1), (7, 1), (8, 1), (9, 1), (10, 1), (11, 1), (12, 1), (13, 1), (14, 1), (15, 1)])), (idxList (rle [(16, 1), (17, 1), (18, 1), (19, 1), (20, 1), (21, 1), (22, 1), (23, 1), (24, 1), (25, 1), (26, 1), (27, 1), (28, 1), (29, 1), (30, 1), (31, 1)]))] 13 = ([(idxList (rle [(0, 1), (1, 1), (2, 1), (3, 1), (4, 1), (5, 1), (6, 1), (7, 1), (8, 1), (9, 1), (10, 1), (11, 1), (12, 1), (13, 1), (14, 1), (15, 1)])), (idxList (rle [(0, 1), (1, 1), (2, 1), (3, 1), (4, 1), (5, 1), (6, 1), (7, 1), (8, 1), (9, 1), (10, 1), (11, 1), (12, 1), (13, 1), (14, 1), (15, 1)])), (idxList (rle [(0, 1), (1, 1), (2, 1), (3, 1), (4, 1), (5, 1), (6, 1), (7, 1), (8, 1), (9, 1), (10, 1), (11, 1), (12, 1), (13, 1), (14, 1), (15, 1)])), (idxList (rle [(16, 1), (17, 1), (18, 1), (19, 1), (20, 1), (21, 1), (22, 1), (23, 1), (24, 1), (25, 1), (26, 1), (27, 1), (28, 1), (29, 1), (30, 1), (31, 1)])), (idxList (rle [(32, 1), (33, 1), (34, 1), (35, 1), (0, 1), (1, 1), (2, 1), (3, 1), (4, 1), (5, 1), (6, 1), (7, 1), (8, 1), (9, 1), (10, 1), (11, 1)])), (idxList (rle [(12, 1), (13, 1), (14, 1), (15, 1), (16, 1), (17, 1), (18, 1), (19, 1), (20, 1), (21, 1), (22, 1), (23, 1), (24, 1), (25, 1), (26, 1), (27, 1)])), (idxList (rle [(28, 1), (29, 1), (30, 1), (31, 1), (32, 1), (33, 1), (34, 1), (35, 1), (0, 1), (1, 1), (2, 1), (3, 1), (4, 1), (5, 1), (6, 1), (7, 1)])), (idxList (rle [(8, 1), (9, 1), (10, 1), (11, 1), (12, 1), (13, 1), (14, 1), (15, 1), (16, 1), (17, 1), (18, 1), (19, 1), (20, 1), (21, 1), (22, 1), (23, 1)])), (idxList (rle [(24, 1), (25, 1), (26, 1), (27, 1), (28, 1), (29, 1), (30, 1), (31, 1), (32, 1), (33, 1), (34, 1), (35, 1), (0, 1), (1, 1), (2, 1), (3, 1)])), (idxList (rle [(4, 1), (5, 1), (6, 1), (7, 1), (8, 1), (9, 1), (10, 1), (11, 1), (12, 1), (13, 1), (14, 1), (15, 1), (16, 1), (17, 1), (18, 1), (19, 1)])), (idxList (rle [(20, 1), (21, 1), (22, 1), (23, 1), (24, 1), (25, 1), (26, 1), (27, 1), (28, 1), (29, 1), (30, 1), (31, 1), (32, 1), (33, 1), (34, 1), (35, 1)])), (idxList (rle [(0, 1), (1, 1), (2, 1), (3, 1), (4, 1), (5, 1), (6, 1), (7, 1), (8, 1), (9, 1), (10, 1), (11, 1), (12, 1), (13, 1), (14, 1), (15, 1)])), (idxList (rle [(16, 1), (17, 1), (18, 1), (19, 1), (20, 1), (21, 1), (22, 1), (23, 1), (24, 1), (25, 1), (26, 1), (27, 1), (28, 1), (29, 1), (30, 1), (31, 1)])), (idxList (rle [(32, 1), (33, 1), (34, 1), (35, 1), (16, 1), (17, 1), (18, 1), (19, 1), (20, 1), (21, 1), (22, 1), (23, 1), (24, 1), (25, 1), (26, 1), (27, 1)])), (idxList (rle [(28, 1), (29, 1), (30, 1), (31, 1), (32, 1), (33, 1), (34, 1), (35, 1), (16, 1), (17, 1), (18, 1), (19, 1), (20, 1), (21, 1), (22, 1), (23, 1)]))], 15) := by
  rw [buildLoop_succ scriptG 1 (idxCounter [(16, 2), (17, 2), (18, 2), (19, 2), (20, 2), (21, 2), (22, 2), (23, 2), (24, 1), (25, 1), (26, 1), (27, 1), (28, 1), (29, 1), (30, 1), (31, 1), (32, 2), (33, 2), (34, 2), (35, 2)]) [(idxList (rle [(0, 1), (1, 1), (2, 1), (3, 1), (4, 1), (5, 1), (6, 1), (7, 1), (8, 1), (9, 1), (10, 1), (11, 1), (12, 1), (13, 1), (14, 1), (15, 1)])), (idxList (rle [(0, 1), (1, 1), (2, 1), (3, 1), (4, 1), (5, 1), (6, 1), (7, 1), (8, 1), (9, 1), (10, 1), (11, 1), (12, 1), (13, 1), (14, 1), (15, 1)])), (idxList (rle [(0, 1), (1, 1), (2, 1), (3, 1), (4, 1), (5, 1), (6, 1), (7, 1), (8, 1), (9, 1), (10, 1), (11, 1), (12, 1), (13, 1), (14, 1), (15, 1)])), (idxList (rle [(16, 1), (17, 1), (18, 1), (19, 1), (20, 1), (21, 1), (22, 1), (23, 1), (24, 1), (25, 1), (26, 1), (27, 1), (28, 1), (29, 1), (30, 1), (31, 1)])), (idxList (rle [(32, 1), (33, 1), (34, 1), (35, 1), (0, 1), (1, 1), (2, 1), (3, 1), (4, 1), (5, 1), (6, 1), (7, 1), (8, 1), (9, 1), (10, 1), (11, 1)])), (idxList (rle [(12, 1), (13, 1), (14, 1), (15, 1), (16, 1), (17, 1), (18, 1), (19, 1), (20, 1), (21, 1), (22, 1), (23, 1), (24, 1), (25, 1), (26, 1), (27, 1)])), (idxList (rle [(28, 1), (29, 1), (30, 1), (31, 1), (32, 1), (33, 1), (34, 1), (35, 1), (0, 1), (1, 1), (2, 1), (3, 1), (4, 1), (5, 1), (6, 1), (7, 1)])), (idxList (rle [(8, 1), (9, 1), (10, 1), (11, 1), (12, 1), (13, 1), (14, 1), (15, 1), (16, 1), (17, 1), (18, 1), (19, 1), (20, 1), (21, 1), (22, 1), (23, 1)])), (idxList (rle [(24, 1), (25, 1), (26, 1), (27, 1), (28, 1), (29, 1), (30, 1), (31, 1), (32, 1), (33, 1), (34, 1), (35, 1), (0, 1), (1, 1), (2, 1), (3, 1)])), (idxList (rle [(4, 1), (5, 1), (6, 1), (7, 1), (8, 1), (9, 1), (10, 1), (11, 1), (12, 1), (13, 1), (14, 1), (15, 1), (16, 1), (17, 1), (18, 1), (19, 1)])), (idxList (rle [(20, 1), (21, 1), (22, 1), (23, 1), (24, 1), (25, 1), (26, 1), (27, 1), (28, 1), (29, 1), (30, 1), (31, 1), (32, 1), (33, 1), (34, 1), (35, 1)])), (idxList (rle [(0, 1), (1, 1), (2, 1), (3, 1), (4, 1), (5, 1), (6, 1), (7, 1), (8, 1), (9, 1), (10, 1), (11, 1), (12, 1), (13, 1), (14, 1), (15, 1)])), (idxList (rle [(16, 1), (17, 1), (18, 1), (19, 1), (20, 1), (21, 1), (22, 1), (23, 1), (24, 1), (25, 1), (26, 1), (27, 1), (28, 1), (29, 1), (30, 1), (31, 1)]))] 13, cexEl13, cexSh13, cexShS13, cexFill13]
  dsimp only
  rw [if_neg (show ¬(idxList (rle [(32, 1), (33, 1), (34, 1), (35, 1), (16, 1), (17, 1), (18, 1), (19, 1), (20, 1), (21, 1), (22, 1), (23, 1), (24, 1), (25, 1), (26, 1), (27, 1)])).length ≠ BOARD_SIZE by decide)]
  exact cexStep14

theorem cexStep12 : buildLoop scriptG 3 (idxCounter [(16, 3), (17, 3), (18, 3), (19, 3), (20, 3), (21, 3), (22, 3), (23, 3), (24, 2), (25, 2), (26, 2), (27, 2), (28, 2), (29, 2), (30, 2), (31, 2), (32, 2), (33, 2), (34, 2), (35, 2)]) [(idxList (rle [(0, 1), (1, 1), (2, 1), (3, 1), (4, 1), (5, 1), (6, 1), (7, 1), (8, 1), (9, 1), (10, 1), (11, 1), (12, 1), (13, 1), (14, 1), (15, 1)])), (idxList (rle [(0, 1), (1, 1), (2, 1), (3, 1), (4, 1), (5, 1), (6, 1), (7, 1), (8, 1), (9, 1), (10, 1), (11, 1), (12, 1), (13, 1), (14, 1), (15, 1)])), (idxList (rle [(0, 1), (1, 1), (2, 1), (3, 1), (4, 1), (5, 1), (6, 1), (7, 1), (8, 1), (9, 1), (10, 1), (11, 1), (12, 1), (13, 1), (14, 1), (15, 1)])), (idxList (rle [(16, 1), (17, 1), (18, 1), (19, 1), (20, 1), (21, 1), (22, 1), (23, 1), (24, 1), (25, 1), (26, 1), (27, 1), (28, 1), (29, 1), (30, 1), (31, 1)])), (idxList (rle [(32, 1), (33, 1), (34, 1), (35, 1), (0, 1), (1, 1), (2, 1), (3, 1), (4, 1), (5, 1), (6, 1), (7, 1), (8, 1), (9, 1), (10, 1), (11, 1)])), (idxList (rle [(12, 1), (13, 1), (14, 1), (15, 1), (16, 1), (17, 1), (18, 1), (19, 1), (20, 1), (21, 1), (22, 1), (23, 1), (24, 1), (25, 1), (26, 1), (27, 1)])), (idxList (rle [(28, 1), (29, 1), (30, 1), (31, 1), (32, 1), (33, 1), (34, 1), (35, 1), (0, 1), (1, 1), (2, 1), (3, 1), (4, 1), (5, 1), (6, 1), (7, 1)])), (idxList (rle [(8, 1), (9, 1), (10, 1), (11, 1), (12, 1), (13, 1), (14, 1), (15, 1), (16, 1), (17, 1), (18, 1), (19, 1), (20, 1), (21, 1), (22, 1), (23, 1)])), (idxList (rle [(24, 1), (25, 1), (26, 1), (27, 1), (28, 1), (29, 1), (30, 1), (31, 1), (32, 1), (33, 1), (34, 1), (35, 1), (0, 1), (1, 1), (2, 1), (3, 1)])), (idxList (rle [(4, 1), (5, 1), (6, 1), (7, 1), (8, 1), (9, 1), (10, 1), (11, 1), (12, 1), (13, 1), (14, 1), (15, 1), (16, 1), (17, 1), (18, 1), (19, 1)])), (idxList (rle [(20, 1), (21, 1), (22, 1), (23, 1), (24, 1), (25, 1), (26, 1), (27, 1), (28, 1), (29, 1), (30, 1), (31, 1), (32, 1), (33, 1), (34, 1), (35, 1)])), (idxList (rle [(0, 1), (1, 1), (2, 1), (3, 1), (4, 1), (5, 1), (6, 1), (7, 1), (8, 1), (9, 1), (10, 1), (11, 1), (12, 1), (13, 1), (14, 1), (15, 1)]))] 12 = ([(idxList (rle [(0, 1), (1, 1), (2, 1), (3, 1), (4, 1), (5, 1), (6, 1), (7, 1), (8, 1), (9, 1), (10, 1), (11, 1), (12, 1), (13, 1), (14, 1), (15, 1)])), (idxList (rle [(0, 1), (1, 1), (2, 1), (3, 1), (4, 1), (5, 1), (6, 1), (7, 1), (8, 1), (9, 1), (10, 1), (11, 1), (12, 1), (13, 1), (14, 1), (15, 1)])), (idxList (rle [(0, 1), (1, 1), (2, 1), (3, 1), (4, 1), (5, 1), (6, 1), (7, 1), (8, 1), (9, 1), (10, 1), (11, 1), (12, 1), (13, 1), (14, 1), (15, 1)])), (idxList (rle [(16, 1), (17, 1), (18, 1), (19, 1), (20, 1), (21, 1), (22, 1), (23, 1), (24, 1), (25, 1), (26, 1), (27, 1), (28, 1), (29, 1), (30, 1), (31, 1)])), (idxList (rle [(32, 1), (33, 1), (34, 1), (35, 1), (0, 1), (1, 1), (2, 1), (3, 1), (4, 1), (5, 1), (6, 1), (7, 1), (8, 1), (9, 1), (10, 1), (11, 1)])), (idxList (rle [(12, 1), (13, 1), (14, 1), (15, 1), (16, 1), (17, 1), (18, 1), (19, 1), (20, 1), (21, 1), (22, 1), (23, 1), (24, 1), (25, 1), (26, 1), (27, 1)])), (idxList (rle [(28, 1), (29, 1), (30, 1), (31, 1), (32, 1), (33, 1), (34, 1), (35, 1), (0, 1), (1, 1), (2, 1), (3, 1), (4, 1), (5, 1), (6, 1), (7, 1)])), (idxList (rle [(8, 1), (9, 1), (10, 1), (11, 1), (12, 1), (13, 1), (14, 1), (15, 1), (16, 1), (17, 1), (18, 1), (19, 1), (20, 1), (21, 1), (22, 1), (23, 1)])), (idxList (rle [(24, 1), (25, 1), (26, 1), (27, 1), (28, 1), (29, 1), (30, 1), (31, 1), (32, 1), (33, 1), (34, 1), (35, 1), (0, 1), (1, 1), (2, 1), (3, 1)])), (idxList (rle [(4, 1), (5, 1), (6, 1), (7, 1), (8, 1), (9, 1), (10, 1), (11, 1), (12, 1), (13, 1), (14, 1), (15, 1), (16, 1), (17, 1), (18, 1), (19, 1)])), (idxList (rle [(20, 1), (21, 1), (22, 1), (23, 1), (24, 1), (25, 1), (26, 1), (27, 1), (28, 1), (29, 1), (30, 1), (31, 1), (32, 1), (33, 1), (34, 1), (35, 1)])), (idxList (rle [(0, 1), (1, 1), (2, 1), (3, 1), (4, 1), (5, 1), (6, 1), (7, 1), (8, 1), (9, 1), (10, 1), (11, 1), (12, 1), (13, 1), (14, 1), (15, 1)])), (idxList (rle [(16, 1), (17, 1), (18, 1), (19, 1), (20, 1), (21, 1), (22, 1), (23, 1), (24, 1), (25, 1), (26, 1), (27, 1), (28, 1), (29, 1), (30, 1), (31, 1)])), (idxList (rle [(32, 1), (33, 1), (34, 1), (35, 1), (16, 1), (17, 1), (18, 1), (19, 1), (20, 1), (21, 1), (22, 1), (23, 1), (24, 1), (25, 1), (26, 1), (27, 1)])), (idxList (rle [(28, 1), (29, 1), (30, 1), (31, 1), (32, 1), (33, 1), (34, 1), (35, 1), (16, 1), (17, 1), (18, 1), (19, 1), (20, 1), (21, 1), (22, 1), (23, 1)]))], 15) := by
  rw [buildLoop_succ scriptG 2 (idxCounter [(16, 3), (17, 3), (18, 3), (19, 3), (20, 3), (21, 3), (22, 3), (23, 3), (24, 2), (25, 2), (26, 2), (27, 2), (28, 2), (29, 2), (30, 2), (31, 2), (32, 2), (33, 2), (34, 2), (35, 2)]) [(idxList (rle [(0, 1), (1, 1), (2, 1), (3, 1), (4, 1), (5, 1), (6, 1), (7, 1), (8, 1), (9, 1), (10, 1), (11, 1), (12, 1), (13, 1), (14, 1), (15, 1)])), (idxList (rle [(0, 1), (1, 1), (2, 1), (3, 1), (4, 1), (5, 1), (6, 1), (7, 1), (8, 1), (9, 1), (10, 1), (11, 1), (12, 1), (13, 1), (14, 1), (15, 1)])), (idxList (rle [(0, 1), (1, 1), (2, 1), (3, 1), (4, 1), (5, 1), (6, 1), (7, 1), (8, 1), (9, 1), (10, 1), (11, 1), (12, 1), (13, 1), (14, 1), (15, 1)])), (idxList (rle [(16, 1), (17, 1), (18, 1), (19, 1), (20, 1), (21, 1), (22, 1), (23, 1), (24, 1), (25, 1), (26, 1), (27, 1), (28, 1), (29, 1), (30, 1), (31, 1)])), (idxList (rle [(32, 1), (33, 1), (34, 1), (35, 1), (0, 1), (1, 1), (2, 1), (3, 1), (4, 1), (5, 1), (6, 1), (7, 1), (8, 1), (9, 1), (10, 1), (11, 1)])), (idxList (rle [(12, 1), (13, 1), (14, 1), (15, 1), (16, 1), (17, 1), (18, 1), (19, 1), (20, 1), (21, 1), (22, 1), (23, 1), (24, 1), (25, 1), (26, 1), (27, 1)])), (idxList (rle [(28, 1), (29, 1), (30, 1), (31, 1), (32, 1), (33, 1), (34, 1), (35, 1), (0, 1), (1, 1), (2, 1), (3, 1), (4, 1), (5, 1), (6, 1), (7, 1)])), (idxList (rle [(8, 1), (9, 1), (10, 1), (11, 1), (12, 1), (13, 1), (14, 1), (15, 1), (16, 1), (17, 1), (18, 1), (19, 1), (20, 1), (21, 1), (22, 1), (23, 1)])), (idxList (rle [(24, 1), (25, 1), (26, 1), (27, 1), (28, 1), (29, 1), (30, 1), (31, 1), (32, 1), (33, 1), (34, 1), (35, 1), (0, 1), (1, 1), (2, 1), (3, 1)])), (idxList (rle [(4, 1), (5, 1), (6, 1), (7, 1), (8, 1), (9, 1), (10, 1), (11, 1), (12, 1), (13, 1), (14, 1), (15, 1), (16, 1), (17, 1), (18, 1), (19, 1)])), (idxList (rle [(20, 1), (21, 1), (22, 1), (23, 1), (24, 1), (25, 1), (26, 1), (27, 1), (28, 1), (29, 1), (30, 1), (31, 1), (32, 1), (33, 1), (34, 1), (35, 1)])), (idxList (rle [(0, 1), (1, 1), (2, 1), (3, 1), (4, 1), (5, 1), (6, 1), (7, 1), (8, 1), (9, 1), (10, 1), (11, 1), (12, 1), (13, 1), (14, 1), (15, 1)]))] 12, cexEl12, cexSh12, cexShS12, cexFill12]
  dsimp only
  rw [if_neg (show ¬(idxList (rle [(16, 1), (17, 1), (18, 1), (19, 1), (20, 1), (21, 1), (22, 1), (23, 1), (24, 1), (25, 1), (26, 1), (27, 1), (28, 1), (29, 1), (30, 1), (31, 1)])).length ≠ BOARD_SIZE by decide)]
  exact cexStep13

theorem cexStep11 : buildLoop scriptG 4 (idxCounter [(0, 1), (1, 1), (2, 1), (3, 1), (4, 1), (5, 1), (6, 1), (7, 1), (8, 1), (9, 1), (10, 1), (11, 1), (12, 1), (13, 1), (14, 1), (15, 1), (16, 3), (17, 3), (18, 3), (19, 3), (20, 3), (21, 3), (22, 3), (23, 3), (24, 2), (25, 2), (26, 2), (27, 2), (28, 2), (29, 2), (30, 2), (31, 2), (32, 2), (33, 2), (34, 2), (35, 2)]) [(idxList (rle [(0, 1), (1, 1), (2, 1), (3, 1), (4, 1), (5, 1), (6, 1), (7, 1), (8, 1), (9, 1), (10, 1), (11, 1), (12, 1), (13, 1), (14, 1), (15, 1)])), (idxList (rle [(0, 1), (1, 1), (2, 1), (3, 1), (4, 1), (5, 1), (6, 1), (7, 1), (8, 1), (9, 1), (10, 1), (11, 1), (12, 1), (13, 1), (14, 1), (15, 1)])), (idxList (rle [(0, 1), (1, 1), (2, 1), (3, 1), (4, 1), (5, 1), (6, 1), (7, 1), (8, 1), (9, 1), (10, 1), (11, 1), (12, 1), (13, 1), (14, 1), (15, 1)])), (idxList (rle [(16, 1), (17, 1), (18, 1), (19, 1), (20, 1), (21, 1), (22, 1), (23, 1), (24, 1), (25, 1), (26, 1), (27, 1), (28, 1), (29, 1), (30, 1), (31, 1)])), (idxList (rle [(32, 1), (33, 1), (34, 1), (35, 1), (0, 1), (1, 1), (2, 1), (3, 1), (4, 1), (5, 1), (6, 1), (7, 1), (8, 1), (9, 1), (10, 1), (11, 1)])), (idxList (rle [(12, 1), (13, 1), (14, 1), (15, 1), (16, 1), (17, 1), (18, 1), (19, 1), (20, 1), (21, 1), (22, 1), (23, 1), (24, 1), (25, 1), (26, 1), (27, 1)])), (idxList (rle [(28, 1), (29, 1), (30, 1), (31, 1), (32, 1), (33, 1), (34, 1), (35, 1), (0, 1), (1, 1), (2, 1), (3, 1), (4, 1), (5, 1), (6, 1), (7, 1)])), (idxList (rle [(8, 1), (9, 1), (10, 1), (11, 1), (12, 1), (13, 1), (14, 1), (15, 1), (16, 1), (17, 1), (18, 1), (19, 1), (20, 1), (21, 1), (22, 1), (23, 1)])), (idxList (rle [(24, 1), (25, 1), (26, 1), (27, 1), (28, 1), (29, 1), (30, 1), (31, 1), (32, 1), (33, 1), (34, 1), (35, 1), (0, 1), (1, 1), (2, 1), (3, 1)])), (idxList (rle [(4, 1), (5, 1), (6, 1), (7, 1), (8, 1), (9, 1), (10, 1), (11, 1), (12, 1), (13, 1), (14, 1), (15, 1), (16, 1), (17, 1), (18, 1), (19, 1)])), (idxList (rle [(20, 1), (21, 1), (22, 1), (23, 1), (24, 1), (25, 1), (26, 1), (27, 1), (28, 1), (29, 1), (30, 1), (31, 1), (32, 1), (33, 1), (34, 1), (35, 1)]))] 11 = ([(idxList (rle [(0, 1), (1, 1), (2, 1), (3, 1), (4, 1), (5, 1), (6, 1), (7, 1), (8, 1), (9, 1), (10, 1), (11, 1), (12, 1), (13, 1), (14, 1), (15, 1)])), (idxList (rle [(0, 1), (1, 1), (2, 1), (3, 1), (4, 1), (5, 1), (6, 1), (7, 1), (8, 1), (9, 1), (10, 1), (11, 1), (12, 1), (13, 1), (14, 1), (15, 1)])), (idxList (rle [(0, 1), (1, 1), (2, 1), (3, 1), (4, 1), (5, 1), (6, 1), (7, 1), (8, 1), (9, 1), (10, 1), (11, 1), (12, 1), (13, 1), (14, 1), (15, 1)])), (idxList (rle [(16, 1), (17, 1), (18, 1), (19, 1), (20, 1), (21, 1), (22, 1), (23, 1), (24, 1), (25, 1), (26, 1), (27, 1), (28, 1), (29, 1), (30, 1), (31, 1)])), (idxList (rle [(32, 1), (33, 1), (34, 1), (35, 1), (0, 1), (1, 1), (2, 1), (3, 1), (4, 1), (5, 1), (6, 1), (7, 1), (8, 1), (9, 1), (10, 1), (11, 1)])), (idxList (rle [(12, 1), (13, 1), (14, 1), (15, 1), (16, 1), (17, 1), (18, 1), (19, 1), (20, 1), (21, 1), (22, 1), (23, 1), (24, 1), (25, 1), (26, 1), (27, 1)])), (idxList (rle [(28, 1), (29, 1), (30, 1), (31, 1), (32, 1), (33, 1), (34, 1), (35, 1), (0, 1), (1, 1), (2, 1), (3, 1), (4, 1), (5, 1), (6, 1), (7, 1)])), (idxList (rle [(8, 1), (9, 1), (10, 1), (11, 1), (12, 1), (13, 1), (14, 1), (15, 1), (16, 1), (17, 1), (18, 1), (19, 1), (20, 1), (21, 1), (22, 1), (23, 1)])), (idxList (rle [(24, 1), (25, 1), (26, 1), (27, 1), (28, 1), (29, 1), (30, 1), (31, 1), (32, 1), (33, 1), (34, 1), (35, 1), (0, 1), (1, 1), (2, 1), (3, 1)])), (idxList (rle [(4, 1), (5, 1), (6, 1), (7, 1), (8, 1), (9, 1), (10, 1), (11, 1), (12, 1), (13, 1), (14, 1), (15, 1), (16, 1), (17, 1), (18, 1), (19, 1)])), (idxList (rle [(20, 1), (21, 1), (22, 1), (23, 1), (24, 1), (25, 1), (26, 1), (27, 1), (28, 1), (29, 1), (30, 1), (31, 1), (32, 1), (33, 1), (34, 1), (35, 1)])), (idxList (rle [(0, 1), (1, 1), (2, 1), (3, 1), (4, 1), (5, 1), (6, 1), (7, 1), (8, 1), (9, 1), (10, 1), (11, 1), (12, 1), (13, 1), (14, 1), (15, 1)])), (idxList (rle [(16, 1), (17, 1), (18, 1), (19, 1), (20, 1), (21, 1), (22, 1), (23, 1), (24, 1), (25, 1), (26, 1), (27, 1), (28, 1), (29, 1), (30, 1), (31, 1)])), (idxList (rle [(32, 1), (33, 1), (34, 1), (35, 1), (16, 1), (17, 1), (18, 1), (19, 1), (20, 1), (21, 1), (22, 1), (23, 1), (24, 1), (25, 1), (26, 1), (27, 1)])), (idxList (rle [(28, 1), (29, 1), (30, 1), (31, 1), (32, 1), (33, 1), (34, 1), (35, 1), (16, 1), (17, 1), (18, 1), (19, 1), (20, 1), (21, 1), (22, 1), (23, 1)]))], 15) := by
  rw [buildLoop_succ scriptG 3 (idxCounter [(0, 1), (1, 1), (2, 1), (3, 1), (4, 1), (5, 1), (6, 1), (7, 1), (8, 1), (9, 1), (10, 1), (11, 1), (12, 1), (13, 1), (14, 1), (15, 1), (16, 3), (17, 3), (18, 3), (19, 3), (20, 3), (21, 3), (22, 3), (23, 3), (24, 2), (25, 2), (26, 2), (27, 2), (28, 2), (29, 2), (30, 2), (31, 2), (32, 2), (33, 2), (34, 2), (35, 2)]) [(idxList (rle [(0, 1), (1, 1), (2, 1), (3, 1), (4, 1), (5, 1), (6, 1), (7, 1), (8, 1), (9, 1), (10, 1), (11, 1), (12, 1), (13, 1), (14, 1), (15, 1)])), (idxList (rle [(0, 1), (1, 1), (2, 1), (3, 1), (4, 1), (5, 1), (6, 1), (7, 1), (8, 1), (9, 1), (10, 1), (11, 1), (12, 1), (13, 1), (14, 1), (15, 1)])), (idxList (rle [(0, 1), (1, 1), (2, 1), (3, 1), (4, 1), (5, 1), (6, 1), (7, 1), (8, 1), (9, 1), (10, 1), (11, 1), (12, 1), (13, 1), (14, 1), (15, 1)])), (idxList (rle [(16, 1), (17, 1), (18, 1), (19, 1), (20, 1), (21, 1), (22, 1), (23, 1), (24, 1), (25, 1), (26, 1), (27, 1), (28, 1), (29, 1), (30, 1), (31, 1)])), (idxList (rle [(32, 1), (33, 1), (34, 1), (35, 1), (0, 1), (1, 1), (2, 1), (3, 1), (4, 1), (5, 1), (6, 1), (7, 1), (8, 1), (9, 1), (10, 1), (11, 1)])), (idxList (rle [(12, 1), (13, 1), (14, 1), (15, 1), (16, 1), (17, 1), (18, 1), (19, 1), (20, 1), (21, 1), (22, 1), (23, 1), (24, 1), (25, 1), (26, 1), (27, 1)])), (idxList (rle [(28, 1), (29, 1), (30, 1), (31, 1), (32, 1), (33, 1), (34, 1), (35, 1), (0, 1), (1, 1), (2, 1), (3, 1), (4, 1), (5, 1), (6, 1), (7, 1)])), (idxList (rle [(8, 1), (9, 1), (10, 1), (11, 1), (12, 1), (13, 1), (14, 1), (15, 1), (16, 1), (17, 1), (18, 1), (19, 1), (20, 1), (21, 1), (22, 1), (23, 1)])), (idxList (rle [(24, 1), (25, 1), (26, 1), (27, 1), (28, 1), (29, 1), (30, 1), (31, 1), (32, 1), (33, 1), (34, 1), (35, 1), (0, 1), (1, 1), (2, 1), (3, 1)])), (idxList (rle [(4, 1), (5, 1), (6, 1), (7, 1), (8, 1), (9, 1), (10, 1), (11, 1), (12, 1), (13, 1), (14, 1), (15, 1), (16, 1), (17, 1), (18, 1), (19, 1)])), (idxList (rle [(20, 1), (21, 1), (22, 1), (23, 1), (24, 1), (25, 1), (26, 1), (27, 1), (28, 1), (29, 1), (30, 1), (31, 1), (32, 1), (33, 1), (34, 1), (35, 1)]))] 11, cexEl11, cexSh11, cexShS11, cexFill11]
  dsimp only
  rw [if_neg (show ¬(idxList (rle [(0, 1), (1, 1), (2, 1), (3, 1), (4, 1), (5, 1), (6, 1), (7, 1), (8, 1), (9, 1), (10, 1), (11, 1), (12, 1), (13, 1), (14, 1), (15, 1)])).length ≠ BOARD_SIZE by decide)]
  exact cexStep12

theorem cexStep10 : buildLoop scriptG 5 (idxCounter [(0, 1), (1, 1), (2, 1), (3, 1), (4, 1), (5, 1), (6, 1), (7, 1), (8, 1), (9, 1), (10, 1), (11, 1), (12, 1), (13, 1), (14, 1), (15, 1), (16, 3), (17, 3), (18, 3), (19, 3), (20, 4), (21, 4), (22, 4), (23, 4), (24, 3), (25, 3), (26, 3), (27, 3), (28, 3), (29, 3), (30, 3), (31, 3), (32, 3), (33, 3), (34, 3), (35, 3)]) [(idxList (rle [(0, 1), (1, 1), (2, 1), (3, 1), (4, 1), (5, 1), (6, 1), (7, 1), (8, 1), (9, 1), (10, 1), (11, 1), (12, 1), (13, 1), (14, 1), (15, 1)])), (idxList (rle [(0, 1), (1, 1), (2, 1), (3, 1), (4, 1), (5, 1), (6, 1), (7, 1), (8, 1), (9, 1), (10, 1), (11, 1), (12, 1), (13, 1), (14, 1), (15, 1)])), (idxList (rle [(0, 1), (1, 1), (2, 1), (3, 1), (4, 1), (5, 1), (6, 1), (7, 1), (8, 1), (9, 1), (10, 1), (11, 1), (12, 1), (13, 1), (14, 1), (15, 1)])), (idxList (rle [(16, 1), (17, 1), (18, 1), (19, 1), (20, 1), (21, 1), (22, 1), (23, 1), (24, 1), (25, 1), (26, 1), (27, 1), (28, 1), (29, 1), (30, 1), (31, 1)])), (idxList (rle [(32, 1), (33, 1), (34, 1), (35, 1), (0, 1), (1, 1), (2, 1), (3, 1), (4, 1), (5, 1), (6, 1), (7, 1), (8, 1), (9, 1), (10, 1), (11, 1)])), (idxList (rle [(12, 1), (13, 1), (14, 1), (15, 1), (16, 1), (17, 1), (18, 1), (19, 1), (20, 1), (21, 1), (22, 1), (23, 1), (24, 1), (25, 1), (26, 1), (27, 1)])), (idxList (rle [(28, 1), (29, 1), (30, 1), (31, 1), (32, 1), (33, 1), (34, 1), (35, 1), (0, 1), (1, 1), (2, 1), (3, 1), (4, 1), (5, 1), (6, 1), (7, 1)])), (idxList (rle [(8, 1), (9, 1), (10, 1), (11, 1), (12, 1), (13, 1), (14, 1), (15, 1), (16, 1), (17, 1), (18, 1), (19, 1), (20, 1), (21, 1), (22, 1), (23, 1)])), (idxList (rle [(24, 1), (25, 1), (26, 1), (27, 1), (28, 1), (29, 1), (30, 1), (31, 1), (32, 1), (33, 1), (34, 1), (35, 1), (0, 1), (1, 1), (2, 1), (3, 1)])), (idxList (rle [(4, 1), (5, 1), (6, 1), (7, 1), (8, 1), (9, 1), (10, 1), (11, 1), (12, 1), (13, 1), (14, 1), (15, 1), (16, 1), (17, 1), (18, 1), (19, 1)]))] 10 = ([(idxList (rle [(0, 1), (1, 1), (2, 1), (3, 1), (4, 1), (5, 1), (6, 1), (7, 1), (8, 1), (9, 1), (10, 1), (11, 1), (12, 1), (13, 1), (14, 1), (15, 1)])), (idxList (rle [(0, 1), (1, 1), (2, 1), (3, 1), (4, 1), (5, 1), (6, 1), (7, 1), (8, 1), (9, 1), (10, 1), (11, 1), (12, 1), (13, 1), (14, 1), (15, 1)])), (idxList (rle [(0, 1), (1, 1), (2, 1), (3, 1), (4, 1), (5, 1), (6, 1), (7, 1), (8, 1), (9, 1), (10, 1), (11, 1), (12, 1), (13, 1), (14, 1), (15, 1)])), (idxList (rle [(16, 1), (17, 1), (18, 1), (19, 1), (20, 1), (21, 1), (22, 1), (23, 1), (24, 1), (25, 1), (26, 1), (27, 1), (28, 1), (29, 1), (30, 1), (31, 1)])), (idxList (rle [(32, 1), (33, 1), (34, 1), (35, 1), (0, 1), (1, 1), (2, 1), (3, 1), (4, 1), (5, 1), (6, 1), (7, 1), (8, 1), (9, 1), (10, 1), (11, 1)])), (idxList (rle [(12, 1), (13, 1), (14, 1), (15, 1), (16, 1), (17, 1), (18, 1), (19, 1), (20, 1), (21, 1), (22, 1), (23, 1), (24, 1), (25, 1), (26, 1), (27, 1)])), (idxList (rle [(28, 1), (29, 1), (30, 1), (31, 1), (32, 1), (33, 1), (34, 1), (35, 1), (0, 1), (1, 1), (2, 1), (3, 1), (4, 1), (5, 1), (6, 1), (7, 1)])), (idxList (rle [(8, 1), (9, 1), (10, 1), (11, 1), (12, 1), (13, 1), (14, 1), (15, 1), (16, 1), (17, 1), (18, 1), (19, 1), (20, 1), (21, 1), (22, 1), (23, 1)])), (idxList (rle [(24, 1), (25, 1), (26, 1), (27, 1), (28, 1), (29, 1), (30, 1), (31, 1), (32, 1), (33, 1), (34, 1), (35, 1), (0, 1), (1, 1), (2, 1), (3, 1)])), (idxList (rle [(4, 1), (5, 1), (6, 1), (7, 1), (8, 1), (9, 1), (10, 1), (11, 1), (12, 1), (13, 1), (14, 1), (15, 1), (16, 1), (17, 1), (18, 1), (19, 1)])), (idxList (rle [(20, 1), (21, 1), (22, 1), (23, 1), (24, 1), (25, 1), (26, 1), (27, 1), (28, 1), (29, 1), (30, 1), (31, 1), (32, 1), (33, 1), (34, 1), (35, 1)])), (idxList (rle [(0, 1), (1, 1), (2, 1), (3, 1), (4, 1), (5, 1), (6, 1), (7, 1), (8, 1), (9, 1), (10, 1), (11, 1), (12, 1), (13, 1), (14, 1), (15, 1)])), (idxList (rle [(16, 1), (17, 1), (18, 1), (19, 1), (20, 1), (21, 1), (22, 1), (23, 1), (24, 1), (25, 1), (26, 1), (27, 1), (28, 1), (29, 1), (30, 1), (31, 1)])), (idxList (rle [(32, 1), (33, 1), (34, 1), (35, 1), (16, 1), (17, 1), (18, 1), (19, 1), (20, 1), (21, 1), (22, 1), (23, 1), (24, 1), (25, 1), (26, 1), (27, 1)])), (idxList (rle [(28, 1), (29, 1), (30, 1), (31, 1), (32, 1), (33, 1), (34, 1), (35, 1), (16, 1), (17, 1), (18, 1), (19, 1), (20, 1), (21, 1), (22, 1), (23, 1)]))], 15) := by
  rw [buildLoop_succ scriptG 4 (idxCounter [(0, 1), (1, 1), (2, 1), (3, 1), (4, 1), (5, 1), (6, 1), (7, 1), (8, 1), (9, 1), (10, 1), (11, 1), (12, 1), (13, 1), (14, 1), (15, 1), (16, 3), (17, 3), (18, 3), (19, 3), (20, 4), (21, 4), (22, 4), (23, 4), (24, 3), (25, 3), (26, 3), (27, 3), (28, 3), (29, 3), (30, 3), (31, 3), (32, 3), (33, 3), (34, 3), (35, 3)]) [(idxList (rle [(0, 1), (1, 1), (2, 1), (3, 1), (4, 1), (5, 1), (6, 1), (7, 1), (8, 1), (9, 1), (10, 1), (11, 1), (12, 1), (13, 1), (14, 1), (15, 1)])), (idxList (rle [(0, 1), (1, 1), (2, 1), (3, 1), (4, 1), (5, 1), (6, 1), (7, 1), (8, 1), (9, 1), (10, 1), (11, 1), (12, 1), (13, 1), (14, 1), (15, 1)])), (idxList (rle [(0, 1), (1, 1), (2, 1), (3, 1), (4, 1), (5, 1), (6, 1), (7, 1), (8, 1), (9, 1), (10, 1), (11, 1), (12, 1), (13, 1), (14, 1), (15, 1)])), (idxList (rle [(16, 1), (17, 1), (18, 1), (19, 1), (20, 1), (21, 1), (22, 1), (23, 1), (24, 1), (25, 1), (26, 1), (27, 1), (28, 1), (29, 1), (30, 1), (31, 1)])), (idxList (rle [(32, 1), (33, 1), (34, 1), (35, 1), (0, 1), (1, 1), (2, 1), (3, 1), (4, 1), (5, 1), (6, 1), (7, 1), (8, 1), (9, 1), (10, 1), (11, 1)])), (idxList (rle [(12, 1), (13, 1), (14, 1), (15, 1), (16, 1), (17, 1), (18, 1), (19, 1), (20, 1), (21, 1), (22, 1), (23, 1), (24, 1), (25, 1), (26, 1), (27, 1)])), (idxList (rle [(28, 1), (29, 1), (30, 1), (31, 1), (32, 1), (33, 1), (34, 1), (35, 1), (0, 1), (1, 1), (2, 1), (3, 1), (4, 1), (5, 1), (6, 1), (7, 1)])), (idxList (rle [(8, 1), (9, 1), (10, 1), (11, 1), (12, 1), (13, 1), (14, 1), (15, 1), (16, 1), (17, 1), (18, 1), (19, 1), (20, 1), (21, 1), (22, 1), (23, 1)])), (idxList (rle [(24, 1), (25, 1), (26, 1), (27, 1), (28, 1), (29, 1), (30, 1), (31, 1), (32, 1), (33, 1), (34, 1), (35, 1), (0, 1), (1, 1), (2, 1), (3, 1)])), (idxList (rle [(4, 1), (5, 1), (6, 1), (7, 1), (8, 1), (9, 1), (10, 1), (11, 1), (12, 1), (13, 1), (14, 1), (15, 1), (16, 1), (17, 1), (18, 1), (19, 1)]))] 10, cexEl10, cexSh10, cexShS10, cexFill10]
  dsimp only
  rw [if_neg (show ¬(idxList (rle [(20, 1), (21, 1), (22, 1), (23, 1), (24, 1), (25, 1), (26, 1), (27, 1), (28, 1), (29, 1), (30, 1), (31, 1), (32, 1), (33, 1), (34, 1), (35, 1)])).length ≠ BOARD_SIZE by decide)]
  exact cexStep11

theorem cexStep9 : buildLoop scriptG 6 (idxCounter [(0, 1), (1, 1), (2, 1), (3, 1), (4, 2), (5, 2), (6, 2), (7, 2), (8, 2), (9, 2), (10, 2), (11, 2), (12, 2), (13, 2), (14, 2), (15, 2), (16, 4), (17, 4), (18, 4), (19, 4), (20, 4), (21, 4), (22, 4), (23, 4), (24, 3), (25, 3), (26, 3), (27, 3), (28, 3), (29, 3), (30, 3), (31, 3), (32, 3), (33, 3), (34, 3), (35, 3)]) [(idxList (rle [(0, 1), (1, 1), (2, 1), (3, 1), (4, 1), (5, 1), (6, 1), (7, 1), (8, 1), (9, 1), (10, 1), (11, 1), (12, 1), (13, 1), (14, 1), (15, 1)])), (idxList (rle [(0, 1), (1, 1), (2, 1), (3, 1), (4, 1), (5, 1), (6, 1), (7, 1), (8, 1), (9, 1), (10, 1), (11, 1), (12, 1), (13, 1), (14, 1), (15, 1)])), (idxList (rle [(0, 1), (1, 1), (2, 1), (3, 1), (4, 1), (5, 1), (6, 1), (7, 1), (8, 1), (9, 1), (10, 1), (11, 1), (12, 1), (13, 1), (14, 1), (15, 1)])), (idxList (rle [(16, 1), (17, 1), (18, 1), (19, 1), (20, 1), (21, 1), (22, 1), (23, 1), (24, 1), (25, 1), (26, 1), (27, 1), (28, 1), (29, 1), (30, 1), (31, 1)])), (idxList (rle [(32, 1), (33, 1), (34, 1), (35, 1), (0, 1), (1, 1), (2, 1), (3, 1), (4, 1), (5, 1), (6, 1), (7, 1), (8, 1), (9, 1), (10, 1), (11, 1)])), (idxList (rle [(12, 1), (13, 1), (14, 1), (15, 1), (16, 1), (17, 1), (18, 1), (19, 1), (20, 1), (21, 1), (22, 1), (23, 1), (24, 1), (25, 1), (26, 1), (27, 1)])), (idxList (rle [(28, 1), (29, 1), (30, 1), (31, 1), (32, 1), (33, 1), (34, 1), (35, 1), (0, 1), (1, 1), (2, 1), (3, 1), (4, 1), (5, 1), (6, 1), (7, 1)])), (idxList (rle [(8, 1), (9, 1), (10, 1), (11, 1), (12, 1), (13, 1), (14, 1), (15, 1), (16, 1), (17, 1), (18, 1), (19, 1), (20, 1), (21, 1), (22, 1), (23, 1)])), (idxList (rle [(24, 1), (25, 1), (26, 1), (27, 1), (28, 1), (29, 1), (30, 1), (31, 1), (32, 1), (33, 1), (34, 1), (35, 1), (0, 1), (1, 1), (2, 1), (3, 1)]))] 9 = ([(idxList (rle [(0, 1), (1, 1), (2, 1), (3, 1), (4, 1), (5, 1), (6, 1), (7, 1), (8, 1), (9, 1), (10, 1), (11, 1), (12, 1), (13, 1), (14, 1), (15, 1)])), (idxList (rle [(0, 1), (1, 1), (2, 1), (3, 1), (4, 1), (5, 1), (6, 1), (7, 1), (8, 1), (9, 1), (10, 1), (11, 1), (12, 1), (13, 1), (14, 1), (15, 1)])), (idxList (rle [(0, 1), (1, 1), (2, 1), (3, 1), (4, 1), (5, 1), (6, 1), (7, 1), (8, 1), (9, 1), (10, 1), (11, 1), (12, 1), (13, 1), (14, 1), (15, 1)])), (idxList (rle [(16, 1), (17, 1), (18, 1), (19, 1), (20, 1), (21, 1), (22, 1), (23, 1), (24, 1), (25, 1), (26, 1), (27, 1), (28, 1), (29, 1), (30, 1), (31, 1)])), (idxList (rle [(32, 1), (33, 1), (34, 1), (35, 1), (0, 1), (1, 1), (2, 1), (3, 1), (4, 1), (5, 1), (6, 1), (7, 1), (8, 1), (9, 1), (10, 1), (11, 1)])), (idxList (rle [(12, 1), (13, 1), (14, 1), (15, 1), (16, 1), (17, 1), (18, 1), (19, 1), (20, 1), (21, 1), (22, 1), (23, 1), (24, 1), (25, 1), (26, 1), (27, 1)])), (idxList (rle [(28, 1), (29, 1), (30, 1), (31, 1), (32, 1), (33, 1), (34, 1), (35, 1), (0, 1), (1, 1), (2, 1), (3, 1), (4, 1), (5, 1), (6, 1), (7, 1)])), (idxList (rle [(8, 1), (9, 1), (10, 1), (11, 1), (12, 1), (13, 1), (14, 1), (15, 1), (16, 1), (17, 1), (18, 1), (19, 1), (20, 1), (21, 1), (22, 1), (23, 1)])), (idxList (rle [(24, 1), (25, 1), (26, 1), (27, 1), (28, 1), (29, 1), (30, 1), (31, 1), (32, 1), (33, 1), (34, 1), (35, 1), (0, 1), (1, 1), (2, 1), (3, 1)])), (idxList (rle [(4, 1), (5, 1), (6, 1), (7, 1), (8, 1), (9, 1), (10, 1), (11, 1), (12, 1), (13, 1), (14, 1), (15, 1), (16, 1), (17, 1), (18, 1), (19, 1)])), (idxList (rle [(20, 1), (21, 1), (22, 1), (23, 1), (24, 1), (25, 1), (26, 1), (27, 1), (28, 1), (29, 1), (30, 1), (31, 1), (32, 1), (33, 1), (34, 1), (35, 1)])), (idxList (rle [(0, 1), (1, 1), (2, 1), (3, 1), (4, 1), (5, 1), (6, 1), (7, 1), (8, 1), (9, 1), (10, 1), (11, 1), (12, 1), (13, 1), (14, 1), (15, 1)])), (idxList (rle [(16, 1), (17, 1), (18, 1), (19, 1), (20, 1), (21, 1), (22, 1), (23, 1), (24, 1), (25, 1), (26, 1), (27, 1), (28, 1), (29, 1), (30, 1), (31, 1)])), (idxList (rle [(32, 1), (33, 1), (34, 1), (35, 1), (16, 1), (17, 1), (18, 1), (19, 1), (20, 1), (21, 1), (22, 1), (23, 1), (24, 1), (25, 1), (26, 1), (27, 1)])), (idxList (rle [(28, 1), (29, 1), (30, 1), (31, 1), (32, 1), (33, 1), (34, 1), (35, 1), (16, 1), (17, 1), (18, 1), (19, 1), (20, 1), (21, 1), (22, 1), (23, 1)]))], 15) := by
  rw [buildLoop_succ scriptG 5 (idxCounter [(0, 1), (1, 1), (2, 1), (3, 1), (4, 2), (5, 2), (6, 2), (7, 2), (8, 2), (9, 2), (10, 2), (11, 2), (12, 2), (13, 2), (14, 2), (15, 2), (16, 4), (17, 4), (18, 4), (19, 4), (20, 4), (21, 4), (22, 4), (23, 4), (24, 3), (25, 3), (26, 3), (27, 3), (28, 3), (29, 3), (30, 3), (31, 3), (32, 3), (33, 3), (34, 3), (35, 3)]) [(idxList (rle [(0, 1), (1, 1), (2, 1), (3, 1), (4, 1), (5, 1), (6, 1), (7, 1), (8, 1), (9, 1), (10, 1), (11, 1), (12, 1), (13, 1), (14, 1), (15, 1)])), (idxList (rle [(0, 1), (1, 1), (2, 1), (3, 1), (4, 1), (5, 1), (6, 1), (7, 1), (8, 1), (9, 1), (10, 1), (11, 1), (12, 1), (13, 1), (14, 1), (15, 1)])), (idxList (rle [(0, 1), (1, 1), (2, 1), (3, 1), (4, 1), (5, 1), (6, 1), (7, 1), (8, 1), (9, 1), (10, 1), (11, 1), (12, 1), (13, 1), (14, 1), (15, 1)])), (idxList (rle [(16, 1), (17, 1), (18, 1), (19, 1), (20, 1), (21, 1), (22, 1), (23, 1), (24, 1), (25, 1), (26, 1), (27, 1), (28, 1), (29, 1), (30, 1), (31, 1)])), (idxList (rle [(32, 1), (33, 1), (34, 1), (35, 1), (0, 1), (1, 1), (2, 1), (3, 1), (4, 1), (5, 1), (6, 1), (7, 1), (8, 1), (9, 1), (10, 1), (11, 1)])), (idxList (rle [(12, 1), (13, 1), (14, 1), (15, 1), (16, 1), (17, 1), (18, 1), (19, 1), (20, 1), (21, 1), (22, 1), (23, 1), (24, 1), (25, 1), (26, 1), (27, 1)])), (idxList (rle [(28, 1), (29, 1), (30, 1), (31, 1), (32, 1), (33, 1), (34, 1), (35, 1), (0, 1), (1, 1), (2, 1), (3, 1), (4, 1), (5, 1), (6, 1), (7, 1)])), (idxList (rle [(8, 1), (9, 1), (10, 1), (11, 1), (12, 1), (13, 1), (14, 1), (15, 1), (16, 1), (17, 1), (18, 1), (19, 1), (20, 1), (21, 1), (22, 1), (23, 1)])), (idxList (rle [(24, 1), (25, 1), (26, 1), (27, 1), (28, 1), (29, 1), (30, 1), (31, 1), (32, 1), (33, 1), (34, 1), (35, 1), (0, 1), (1, 1), (2, 1), (3, 1)]))] 9, cexEl9, cexSh9, cexShS9, cexFill9]
  dsimp only
  rw [if_neg (show ¬(idxList (rle [(4, 1), (5, 1), (6, 1), (7, 1), (8, 1), (9, 1), (10, 1), (11, 1), (12, 1), (13, 1), (14, 1), (15, 1), (16, 1), (17, 1), (18, 1), (19, 1)])).length ≠ BOARD_SIZE by decide)]
  exact cexStep10

theorem cexStep8 : buildLoop scriptG 7 (idxCounter [(0, 2), (1, 2), (2, 2), (3, 2), (4, 2), (5, 2), (6, 2), (7, 2), (8, 2), (9, 2), (10, 2), (11, 2), (12, 2), (13, 2), (14, 2), (15, 2), (16, 4), (17, 4), (18, 4), (19, 4), (20, 4), (21, 4), (22, 4), (23, 4), (24, 4), (25, 4), (26, 4), (27, 4), (28, 4), (29, 4), (30, 4), (31, 4), (32, 4), (33, 4), (34, 4), (35, 4)]) [(idxList (rle [(0, 1), (1, 1), (2, 1), (3, 1), (4, 1), (5, 1), (6, 1), (7, 1), (8, 1), (9, 1), (10, 1), (11, 1), (12, 1), (13, 1), (14, 1), (15, 1)])), (idxList (rle [(0, 1), (1, 1), (2, 1), (3, 1), (4, 1), (5, 1), (6, 1), (7, 1), (8, 1), (9, 1), (10, 1), (11, 1), (12, 1), (13, 1), (14, 1), (15, 1)])), (idxList (rle [(0, 1), (1, 1), (2, 1), (3, 1), (4, 1), (5, 1), (6, 1), (7, 1), (8, 1), (9, 1), (10, 1), (11, 1), (12, 1), (13, 1), (14, 1), (15, 1)])), (idxList (rle [(16, 1), (17, 1), (18, 1), (19, 1), (20, 1), (21, 1), (22, 1), (23, 1), (24, 1), (25, 1), (26, 1), (27, 1), (28, 1), (29, 1), (30, 1), (31, 1)])), (idxList (rle [(32, 1), (33, 1), (34, 1), (35, 1), (0, 1), (1, 1), (2, 1), (3, 1), (4, 1), (5, 1), (6, 1), (7, 1), (8, 1), (9, 1), (10, 1), (11, 1)])), (idxList (rle [(12, 1), (13, 1), (14, 1), (15, 1), (16, 1), (17, 1), (18, 1), (19, 1), (20, 1), (21, 1), (22, 1), (23, 1), (24, 1), (25, 1), (26, 1), (27, 1)])), (idxList (rle [(28, 1), (29, 1), (30, 1), (31, 1), (32, 1), (33, 1), (34, 1), (35, 1), (0, 1), (1, 1), (2, 1), (3, 1), (4, 1), (5, 1), (6, 1), (7, 1)])), (idxList (rle [(8, 1), (9, 1), (10, 1), (11, 1), (12, 1), (13, 1), (14, 1), (15, 1), (16, 1), (17, 1), (18, 1), (19, 1), (20, 1), (21, 1), (22, 1), (23, 1)]))] 8 = ([(idxList (rle [(0, 1), (1, 1), (2, 1), (3, 1), (4, 1), (5, 1), (6, 1), (7, 1), (8, 1), (9, 1), (10, 1), (11, 1), (12, 1), (13, 1), (14, 1), (15, 1)])), (idxList (rle [(0, 1), (1, 1), (2, 1), (3, 1), (4, 1), (5, 1), (6, 1), (7, 1), (8, 1), (9, 1), (10, 1), (11, 1), (12, 1), (13, 1), (14, 1), (15, 1)])), (idxList (rle [(0, 1), (1, 1), (2, 1), (3, 1), (4, 1), (5, 1), (6, 1), (7, 1), (8, 1), (9, 1), (10, 1), (11, 1), (12, 1), (13, 1), (14, 1), (15, 1)])), (idxList (rle [(16, 1), (17, 1), (18, 1), (19, 1), (20, 1), (21, 1), (22, 1), (23, 1), (24, 1), (25, 1), (26, 1), (27, 1), (28, 1), (29, 1), (30, 1), (31, 1)])), (idxList (rle [(32, 1), (33, 1), (34, 1), (35, 1), (0, 1), (1, 1), (2, 1), (3, 1), (4, 1), (5, 1), (6, 1), (7, 1), (8, 1), (9, 1), (10, 1), (11, 1)])), (idxList (rle [(12, 1), (13, 1), (14, 1), (15, 1), (16, 1), (17, 1), (18, 1), (19, 1), (20, 1), (21, 1), (22, 1), (23, 1), (24, 1), (25, 1), (26, 1), (27, 1)])), (idxList (rle [(28, 1), (29, 1), (30, 1), (31, 1), (32, 1), (33, 1), (34, 1), (35, 1), (0, 1), (1, 1), (2, 1), (3, 1), (4, 1), (5, 1), (6, 1), (7, 1)])), (idxList (rle [(8, 1), (9, 1), (10, 1), (11, 1), (12, 1), (13, 1), (14, 1), (15, 1), (16, 1), (17, 1), (18, 1), (19, 1), (20, 1), (21, 1), (22, 1), (23, 1)])), (idxList (rle [(24, 1), (25, 1), (26, 1), (27, 1), (28, 1), (29, 1), (30, 1), (31, 1), (32, 1), (33, 1), (34, 1), (35, 1), (0, 1), (1, 1), (2, 1), (3, 1)])), (idxList (rle [(4, 1), (5, 1), (6, 1), (7, 1), (8, 1), (9, 1), (10, 1), (11, 1), (12, 1), (13, 1), (14, 1), (15, 1), (16, 1), (17, 1), (18, 1), (19, 1)])), (idxList (rle [(20, 1), (21, 1), (22, 1), (23, 1), (24, 1), (25, 1), (26, 1), (27, 1), (28, 1), (29, 1), (30, 1), (31, 1), (32, 1), (33, 1), (34, 1), (35, 1)])), (idxList (rle [(0, 1), (1, 1), (2, 1), (3, 1), (4, 1), (5, 1), (6, 1), (7, 1), (8, 1), (9, 1), (10, 1), (11, 1), (12, 1), (13, 1), (14, 1), (15, 1)])), (idxList (rle [(16, 1), (17, 1), (18, 1), (19, 1), (20, 1), (21, 1), (22, 1), (23, 1), (24, 1), (25, 1), (26, 1), (27, 1), (28, 1), (29, 1), (30, 1), (31, 1)])), (idxList (rle [(32, 1), (33, 1), (34, 1), (35, 1), (16, 1), (17, 1), (18, 1), (19, 1), (20, 1), (21, 1), (22, 1), (23, 1), (24, 1), (25, 1), (26, 1), (27, 1)])), (idxList (rle [(28, 1), (29, 1), (30, 1), (31, 1), (32, 1), (33, 1), (34, 1), (35, 1), (16, 1), (17, 1), (18, 1), (19, 1), (20, 1), (21, 1), (22, 1), (23, 1)]))], 15) := by
  rw [buildLoop_succ scriptG 6 (idxCounter [(0, 2), (1, 2), (2, 2), (3, 2), (4, 2), (5, 2), (6, 2), (7, 2), (8, 2), (9, 2), (10, 2), (11, 2), (12, 2), (13, 2), (14, 2), (15, 2), (16, 4), (17, 4), (18, 4), (19, 4), (20, 4), (21, 4), (22, 4), (23, 4), (24, 4), (25, 4), (26, 4), (27, 4), (28, 4), (29, 4), (30, 4), (31, 4), (32, 4), (33, 4), (34, 4), (35, 4)]) [(idxList (rle [(0, 1), (1, 1), (2, 1), (3, 1), (4, 1), (5, 1), (6, 1), (7, 1), (8, 1), (9, 1), (10, 1), (11, 1), (12, 1), (13, 1), (14, 1), (15, 1)])), (idxList (rle [(0, 1), (1, 1), (2, 1), (3, 1), (4, 1), (5, 1), (6, 1), (7, 1), (8, 1), (9, 1), (10, 1), (11, 1), (12, 1), (13, 1), (14, 1), (15, 1)])), (idxList (rle [(0, 1), (1, 1), (2, 1), (3, 1), (4, 1), (5, 1), (6, 1), (7, 1), (8, 1), (9, 1), (10, 1), (11, 1), (12, 1), (13, 1), (14, 1), (15, 1)])), (idxList (rle [(16, 1), (17, 1), (18, 1), (19, 1), (20, 1), (21, 1), (22, 1), (23, 1), (24, 1), (25, 1), (26, 1), (27, 1), (28, 1), (29, 1), (30, 1), (31, 1)])), (idxList (rle [(32, 1), (33, 1), (34, 1), (35, 1), (0, 1), (1, 1), (2, 1), (3, 1), (4, 1), (5, 1), (6, 1), (7, 1), (8, 1), (9, 1), (10, 1), (11, 1)])), (idxList (rle [(12, 1), (13, 1), (14, 1), (15, 1), (16, 1), (17, 1), (18, 1), (19, 1), (20, 1), (21, 1), (22, 1), (23, 1), (24, 1), (25, 1), (26, 1), (27, 1)])), (idxList (rle [(28, 1), (29, 1), (30, 1), (31, 1), (32, 1), (33, 1), (34, 1), (35, 1), (0, 1), (1, 1), (2, 1), (3, 1), (4, 1), (5, 1), (6, 1), (7, 1)])), (idxList (rle [(8, 1), (9, 1), (10, 1), (11, 1), (12, 1), (13, 1), (14, 1), (15, 1), (16, 1), (17, 1), (18, 1), (19, 1), (20, 1), (21, 1), (22, 1), (23, 1)]))] 8, cexEl8, cexSh8, cexShS8, cexFill8]
  dsimp only
  rw [if_neg (show ¬(idxList (rle [(24, 1), (25, 1), (26, 1), (27, 1), (28, 1), (29, 1), (30, 1), (31, 1), (32, 1), (33, 1), (34, 1), (35, 1), (0, 1), (1, 1), (2, 1), (3, 1)])).length ≠ BOARD_SIZE by decide)]
  exact cexStep9

theorem cexStep7 : buildLoop scriptG 8 (idxCounter [(0, 2), (1, 2), (2, 2), (3, 2), (4, 2), (5, 2), (6, 2), (7, 2), (8, 3), (9, 3), (10, 3), (11, 3), (12, 3), (13, 3), (14, 3), (15, 3), (16, 5), (17, 5), (18, 5), (19, 5), (20, 5), (21, 5), (22, 5), (23, 5), (24, 4), (25, 4), (26, 4), (27, 4), (28, 4), (29, 4), (30, 4), (31, 4), (32, 4), (33, 4), (34, 4), (35, 4)]) [(idxList (rle [(0, 1), (1, 1), (2, 1), (3, 1), (4, 1), (5, 1), (6, 1), (7, 1), (8, 1), (9, 1), (10, 1), (11, 1), (12, 1), (13, 1), (14, 1), (15, 1)])), (idxList (rle [(0, 1), (1, 1), (2, 1), (3, 1), (4, 1), (5, 1), (6, 1), (7, 1), (8, 1), (9, 1), (10, 1), (11, 1), (12, 1), (13, 1), (14, 1), (15, 1)])), (idxList (rle [(0, 1), (1, 1), (2, 1), (3, 1), (4, 1), (5, 1), (6, 1), (7, 1), (8, 1), (9, 1), (10, 1), (11, 1), (12, 1), (13, 1), (14, 1), (15, 1)])), (idxList (rle [(16, 1), (17, 1), (18, 1), (19, 1), (20, 1), (21, 1), (22, 1), (23, 1), (24, 1), (25, 1), (26, 1), (27, 1), (28, 1), (29, 1), (30, 1), (31, 1)])), (idxList (rle [(32, 1), (33, 1), (34, 1), (35, 1), (0, 1), (1, 1), (2, 1), (3, 1), (4, 1), (5, 1), (6, 1), (7, 1), (8, 1), (9, 1), (10, 1), (11, 1)])), (idxList (rle [(12, 1), (13, 1), (14, 1), (15, 1), (16, 1), (17, 1), (18, 1), (19, 1), (20, 1), (21, 1), (22, 1), (23, 1), (24, 1), (25, 1), (26, 1), (27, 1)])), (idxList (rle [(28, 1), (29, 1), (30, 1), (31, 1), (32, 1), (33, 1), (34, 1), (35, 1), (0, 1), (1, 1), (2, 1), (3, 1), (4, 1), (5, 1), (6, 1), (7, 1)]))] 7 = ([(idxList (rle [(0, 1), (1, 1), (2, 1), (3, 1), (4, 1), (5, 1), (6, 1), (7, 1), (8, 1), (9, 1), (10, 1), (11, 1), (12, 1), (13, 1), (14, 1), (15, 1)])), (idxList (rle [(0, 1), (1, 1), (2, 1), (3, 1), (4, 1), (5, 1), (6, 1), (7, 1), (8, 1), (9, 1), (10, 1), (11, 1), (12, 1), (13, 1), (14, 1), (15, 1)])), (idxList (rle [(0, 1), (1, 1), (2, 1), (3, 1), (4, 1), (5, 1), (6, 1), (7, 1), (8, 1), (9, 1), (10, 1), (11, 1), (12, 1), (13, 1), (14, 1), (15, 1)])), (idxList (rle [(16, 1), (17, 1), (18, 1), (19, 1), (20, 1), (21, 1), (22, 1), (23, 1), (24, 1), (25, 1), (26, 1), (27, 1), (28, 1), (29, 1), (30, 1), (31, 1)])), (idxList (rle [(32, 1), (33, 1), (34, 1), (35, 1), (0, 1), (1, 1), (2, 1), (3, 1), (4, 1), (5, 1), (6, 1), (7, 1), (8, 1), (9, 1), (10, 1), (11, 1)])), (idxList (rle [(12, 1), (13, 1), (14, 1), (15, 1), (16, 1), (17, 1), (18, 1), (19, 1), (20, 1), (21, 1), (22, 1), (23, 1), (24, 1), (25, 1), (26, 1), (27, 1)])), (idxList (rle [(28, 1), (29, 1), (30, 1), (31, 1), (32, 1), (33, 1), (34, 1), (35, 1), (0, 1), (1, 1), (2, 1), (3, 1), (4, 1), (5, 1), (6, 1), (7, 1)])), (idxList (rle [(8, 1), (9, 1), (10, 1), (11, 1), (12, 1), (13, 1), (14, 1), (15, 1), (16, 1), (17, 1), (18, 1), (19, 1), (20, 1), (21, 1), (22, 1), (23, 1)])), (idxList (rle [(24, 1), (25, 1), (26, 1), (27, 1), (28, 1), (29, 1), (30, 1), (31, 1), (32, 1), (33, 1), (34, 1), (35, 1), (0, 1), (1, 1), (2, 1), (3, 1)])), (idxList (rle [(4, 1), (5, 1), (6, 1), (7, 1), (8, 1), (9, 1), (10, 1), (11, 1), (12, 1), (13, 1), (14, 1), (15, 1), (16, 1), (17, 1), (18, 1), (19, 1)])), (idxList (rle [(20, 1), (21, 1), (22, 1), (23, 1), (24, 1), (25, 1), (26, 1), (27, 1), (28, 1), (29, 1), (30, 1), (31, 1), (32, 1), (33, 1), (34, 1), (35, 1)])), (idxList (rle [(0, 1), (1, 1), (2, 1), (3, 1), (4, 1), (5, 1), (6, 1), (7, 1), (8, 1), (9, 1), (10, 1), (11, 1), (12, 1), (13, 1), (14, 1), (15, 1)])), (idxList (rle [(16, 1), (17, 1), (18, 1), (19, 1), (20, 1), (21, 1), (22, 1), (23, 1), (24, 1), (25, 1), (26, 1), (27, 1), (28, 1), (29, 1), (30, 1), (31, 1)])), (idxList (rle [(32, 1), (33, 1), (34, 1), (35, 1), (16, 1), (17, 1), (18, 1), (19, 1), (20, 1), (21, 1), (22, 1), (23, 1), (24, 1), (25, 1), (26, 1), (27, 1)])), (idxList (rle [(28, 1), (29, 1), (30, 1), (31, 1), (32, 1), (33, 1), (34, 1), (35, 1), (16, 1), (17, 1), (18, 1), (19, 1), (20, 1), (21, 1), (22, 1), (23, 1)]))], 15) := by
  rw [buildLoop_succ scriptG 7 (idxCounter [(0, 2), (1, 2), (2, 2), (3, 2), (4, 2), (5, 2), (6, 2), (7, 2), (8, 3), (9, 3), (10, 3), (11, 3), (12, 3), (13, 3), (14, 3), (15, 3), (16, 5), (17, 5), (18, 5), (19, 5), (20, 5), (21, 5), (22, 5), (23, 5), (24, 4), (25, 4), (26, 4), (27, 4), (28, 4), (29, 4), (30, 4), (31, 4), (32, 4), (33, 4), (34, 4), (35, 4)]) [(idxList (rle [(0, 1), (1, 1), (2, 1), (3, 1), (4, 1), (5, 1), (6, 1), (7, 1), (8, 1), (9, 1), (10, 1), (11, 1), (12, 1), (13, 1), (14, 1), (15, 1)])), (idxList (rle [(0, 1), (1, 1), (2, 1), (3, 1), (4, 1), (5, 1), (6, 1), (7, 1), (8, 1), (9, 1), (10, 1), (11, 1), (12, 1), (13, 1), (14, 1), (15, 1)])), (idxList (rle [(0, 1), (1, 1), (2, 1), (3, 1), (4, 1), (5, 1), (6, 1), (7, 1), (8, 1), (9, 1), (10, 1), (11, 1), (12, 1), (13, 1), (14, 1), (15, 1)])), (idxList (rle [(16, 1), (17, 1), (18, 1), (19, 1), (20, 1), (21, 1), (22, 1), (23, 1), (24, 1), (25, 1), (26, 1), (27, 1), (28, 1), (29, 1), (30, 1), (31, 1)])), (idxList (rle [(32, 1), (33, 1), (34, 1), (35, 1), (0, 1), (1, 1), (2, 1), (3, 1), (4, 1), (5, 1), (6, 1), (7, 1), (8, 1), (9, 1), (10, 1), (11, 1)])), (idxList (rle [(12, 1), (13, 1), (14, 1), (15, 1), (16, 1), (17, 1), (18, 1), (19, 1), (20, 1), (21, 1), (22, 1), (23, 1), (24, 1), (25, 1), (26, 1), (27, 1)])), (idxList (rle [(28, 1), (29, 1), (30, 1), (31, 1), (32, 1), (33, 1), (34, 1), (35, 1), (0, 1), (1, 1), (2, 1), (3, 1), (4, 1), (5, 1), (6, 1), (7, 1)]))] 7, cexEl7, cexSh7, cexShS7, cexFill7]
  dsimp only
  rw [if_neg (show ¬(idxList (rle [(8, 1), (9, 1), (10, 1), (11, 1), (12, 1), (13, 1), (14, 1), (15, 1), (16, 1), (17, 1), (18, 1), (19, 1), (20, 1), (21, 1), (22, 1), (23, 1)])).length ≠ BOARD_SIZE by decide)]
  exact cexStep8

theorem cexStep6 : buildLoop scriptG 9 (idxCounter [(0, 3), (1, 3), (2, 3), (3, 3), (4, 3), (5, 3), (6, 3), (7, 3), (8, 3), (9, 3), (10, 3), (11, 3), (12, 3), (13, 3), (14, 3), (15, 3), (16, 5), (17, 5), (18, 5), (19, 5), (20, 5), (21, 5), (22, 5), (23, 5), (24, 4), (25, 4), (26, 4), (27, 4), (28, 5), (29, 5), (30, 5), (31, 5), (32, 5), (33, 5), (34, 5), (35, 5)]) [(idxList (rle [(0, 1), (1, 1), (2, 1), (3, 1), (4, 1), (5, 1), (6, 1), (7, 1), (8, 1), (9, 1), (10, 1), (11, 1), (12, 1), (13, 1), (14, 1), (15, 1)])), (idxList (rle [(0, 1), (1, 1), (2, 1), (3, 1), (4, 1), (5, 1), (6, 1), (7, 1), (8, 1), (9, 1), (10, 1), (11, 1), (12, 1), (13, 1), (14, 1), (15, 1)])), (idxList (rle [(0, 1), (1, 1), (2, 1), (3, 1), (4, 1), (5, 1), (6, 1), (7, 1), (8, 1), (9, 1), (10, 1), (11, 1), (12, 1), (13, 1), (14, 1), (15, 1)])), (idxList (rle [(16, 1), (17, 1), (18, 1), (19, 1), (20, 1), (21, 1), (22, 1), (23, 1), (24, 1), (25, 1), (26, 1), (27, 1), (28, 1), (29, 1), (30, 1), (31, 1)])), (idxList (rle [(32, 1), (33, 1), (34, 1), (35, 1), (0, 1), (1, 1), (2, 1), (3, 1), (4, 1), (5, 1), (6, 1), (7, 1), (8, 1), (9, 1), (10, 1), (11, 1)])), (idxList (rle [(12, 1), (13, 1), (14, 1), (15, 1), (16, 1), (17, 1), (18, 1), (19, 1), (20, 1), (21, 1), (22, 1), (23, 1), (24, 1), (25, 1), (26, 1), (27, 1)]))] 6 = ([(idxList (rle [(0, 1), (1, 1), (2, 1), (3, 1), (4, 1), (5, 1), (6, 1), (7, 1), (8, 1), (9, 1), (10, 1), (11, 1), (12, 1), (13, 1), (14, 1), (15, 1)])), (idxList (rle [(0, 1), (1, 1), (2, 1), (3, 1), (4, 1), (5, 1), (6, 1), (7, 1), (8, 1), (9, 1), (10, 1), (11, 1), (12, 1), (13, 1), (14, 1), (15, 1)])), (idxList (rle [(0, 1), (1, 1), (2, 1), (3, 1), (4, 1), (5, 1), (6, 1), (7, 1), (8, 1), (9, 1), (10, 1), (11, 1), (12, 1), (13, 1), (14, 1), (15, 1)])), (idxList (rle [(16, 1), (17, 1), (18, 1), (19, 1), (20, 1), (21, 1), (22, 1), (23, 1), (24, 1), (25, 1), (26, 1), (27, 1), (28, 1), (29, 1), (30, 1), (31, 1)])), (idxList (rle [(32, 1), (33, 1), (34, 1), (35, 1), (0, 1), (1, 1), (2, 1), (3, 1), (4, 1), (5, 1), (6, 1), (7, 1), (8, 1), (9, 1), (10, 1), (11, 1)])), (idxList (rle [(12, 1), (13, 1), (14, 1), (15, 1), (16, 1), (17, 1), (18, 1), (19, 1), (20, 1), (21, 1), (22, 1), (23, 1), (24, 1), (25, 1), (26, 1), (27, 1)])), (idxList (rle [(28, 1), (29, 1), (30, 1), (31, 1), (32, 1), (33, 1), (34, 1), (35, 1), (0, 1), (1, 1), (2, 1), (3, 1), (4, 1), (5, 1), (6, 1), (7, 1)])), (idxList (rle [(8, 1), (9, 1), (10, 1), (11, 1), (12, 1), (13, 1), (14, 1), (15, 1), (16, 1), (17, 1), (18, 1), (19, 1), (20, 1), (21, 1), (22, 1), (23, 1)])), (idxList (rle [(24, 1), (25, 1), (26, 1), (27, 1), (28, 1), (29, 1), (30, 1), (31, 1), (32, 1), (33, 1), (34, 1), (35, 1), (0, 1), (1, 1), (2, 1), (3, 1)])), (idxList (rle [(4, 1), (5, 1), (6, 1), (7, 1), (8, 1), (9, 1), (10, 1), (11, 1), (12, 1), (13, 1), (14, 1), (15, 1), (16, 1), (17, 1), (18, 1), (19, 1)])), (idxList (rle [(20, 1), (21, 1), (22, 1), (23, 1), (24, 1), (25, 1), (26, 1), (27, 1), (28, 1), (29, 1), (30, 1), (31, 1), (32, 1), (33, 1), (34, 1), (35, 1)])), (idxList (rle [(0, 1), (1, 1), (2, 1), (3, 1), (4, 1), (5, 1), (6, 1), (7, 1), (8, 1), (9, 1), (10, 1), (11, 1), (12, 1), (13, 1), (14, 1), (15, 1)])), (idxList (rle [(16, 1), (17, 1), (18, 1), (19, 1), (20, 1), (21, 1), (22, 1), (23, 1), (24, 1), (25, 1), (26, 1), (27, 1), (28, 1), (29, 1), (30, 1), (31, 1)])), (idxList (rle [(32, 1), (33, 1), (34, 1), (35, 1), (16, 1), (17, 1), (18, 1), (19, 1), (20, 1), (21, 1), (22, 1), (23, 1), (24, 1), (25, 1), (26, 1), (27, 1)])), (idxList (rle [(28, 1), (29, 1), (30, 1), (31, 1), (32, 1), (33, 1), (34, 1), (35, 1), (16, 1), (17, 1), (18, 1), (19, 1), (20, 1), (21, 1), (22, 1), (23, 1)]))], 15) := by
  rw [buildLoop_succ scriptG 8 (idxCounter [(0, 3), (1, 3), (2, 3), (3, 3), (4, 3), (5, 3), (6, 3), (7, 3), (8, 3), (9, 3), (10, 3), (11, 3), (12, 3), (13, 3), (14, 3), (15, 3), (16, 5), (17, 5), (18, 5), (19, 5), (20, 5), (21, 5), (22, 5), (23, 5), (24, 4), (25, 4), (26, 4), (27, 4), (28, 5), (29, 5), (30, 5), (31, 5), (32, 5), (33, 5), (34, 5), (35, 5)]) [(idxList (rle [(0, 1), (1, 1), (2, 1), (3, 1), (4, 1), (5, 1), (6, 1), (7, 1), (8, 1), (9, 1), (10, 1), (11, 1), (12, 1), (13, 1), (14, 1), (15, 1)])), (idxList (rle [(0, 1), (1, 1), (2, 1), (3, 1), (4, 1), (5, 1), (6, 1), (7, 1), (8, 1), (9, 1), (10, 1), (11, 1), (12, 1), (13, 1), (14, 1), (15, 1)])), (idxList (rle [(0, 1), (1, 1), (2, 1), (3, 1), (4, 1), (5, 1), (6, 1), (7, 1), (8, 1), (9, 1), (10, 1), (11, 1), (12, 1), (13, 1), (14, 1), (15, 1)])), (idxList (rle [(16, 1), (17, 1), (18, 1), (19, 1), (20, 1), (21, 1), (22, 1), (23, 1), (24, 1), (25, 1), (26, 1), (27, 1), (28, 1), (29, 1), (30, 1), (31, 1)])), (idxList (rle [(32, 1), (33, 1), (34, 1), (35, 1), (0, 1), (1, 1), (2, 1), (3, 1), (4, 1), (5, 1), (6, 1), (7, 1), (8, 1), (9, 1), (10, 1), (11, 1)])), (idxList (rle [(12, 1), (13, 1), (14, 1), (15, 1), (16, 1), (17, 1), (18, 1), (19, 1), (20, 1), (21, 1), (22, 1), (23, 1), (24, 1), (25, 1), (26, 1), (27, 1)]))] 6, cexEl6, cexSh6, cexShS6, cexFill6]
  dsimp only
  rw [if_neg (show ¬(idxList (rle [(28, 1), (29, 1), (30, 1), (31, 1), (32, 1), (33, 1), (34, 1), (35, 1), (0, 1), (1, 1), (2, 1), (3, 1), (4, 1), (5, 1), (6, 1), (7, 1)])).length ≠ BOARD_SIZE by decide)]
  exact cexStep7

theorem cexStep5 : buildLoop scriptG 10 (idxCounter [(0, 3), (1, 3), (2, 3), (3, 3), (4, 3), (5, 3), (6, 3), (7, 3), (8, 3), (9, 3), (10, 3), (11, 3), (12, 4), (13, 4), (14, 4), (15, 4), (16, 6), (17, 6), (18, 6), (19, 6), (20, 6), (21, 6), (22, 6), (23, 6), (24, 5), (25, 5), (26, 5), (27, 5), (28, 5), (29, 5), (30, 5), (31, 5), (32, 5), (33, 5), (34, 5), (35, 5)]) [(idxList (rle [(0, 1), (1, 1), (2, 1), (3, 1), (4, 1), (5, 1), (6, 1), (7, 1), (8, 1), (9, 1), (10, 1), (11, 1), (12, 1), (13, 1), (14, 1), (15, 1)])), (idxList (rle [(0, 1), (1, 1), (2, 1), (3, 1), (4, 1), (5, 1), (6, 1), (7, 1), (8, 1), (9, 1), (10, 1), (11, 1), (12, 1), (13, 1), (14, 1), (15, 1)])), (idxList (rle [(0, 1), (1, 1), (2, 1), (3, 1), (4, 1), (5, 1), (6, 1), (7, 1), (8, 1), (9, 1), (10, 1), (11, 1), (12, 1), (13, 1), (14, 1), (15, 1)])), (idxList (rle [(16, 1), (17, 1), (18, 1), (19, 1), (20, 1), (21, 1), (22, 1), (23, 1), (24, 1), (25, 1), (26, 1), (27, 1), (28, 1), (29, 1), (30, 1), (31, 1)])), (idxList (rle [(32, 1), (33, 1), (34, 1), (35, 1), (0, 1), (1, 1), (2, 1), (3, 1), (4, 1), (5, 1), (6, 1), (7, 1), (8, 1), (9, 1), (10, 1), (11, 1)]))] 5 = ([(idxList (rle [(0, 1), (1, 1), (2, 1), (3, 1), (4, 1), (5, 1), (6, 1), (7, 1), (8, 1), (9, 1), (10, 1), (11, 1), (12, 1), (13, 1), (14, 1), (15, 1)])), (idxList (rle [(0, 1), (1, 1), (2, 1), (3, 1), (4, 1), (5, 1), (6, 1), (7, 1), (8, 1), (9, 1), (10, 1), (11, 1), (12, 1), (13, 1), (14, 1), (15, 1)])), (idxList (rle [(0, 1), (1, 1), (2, 1), (3, 1), (4, 1), (5, 1), (6, 1), (7, 1), (8, 1), (9, 1), (10, 1), (11, 1), (12, 1), (13, 1), (14, 1), (15, 1)])), (idxList (rle [(16, 1), (17, 1), (18, 1), (19, 1), (20, 1), (21, 1), (22, 1), (23, 1), (24, 1), (25, 1), (26, 1), (27, 1), (28, 1), (29, 1), (30, 1), (31, 1)])), (idxList (rle [(32, 1), (33, 1), (34, 1), (35, 1), (0, 1), (1, 1), (2, 1), (3, 1), (4, 1), (5, 1), (6, 1), (7, 1), (8, 1), (9, 1), (10, 1), (11, 1)])), (idxList (rle [(12, 1), (13, 1), (14, 1), (15, 1), (16, 1), (17, 1), (18, 1), (19, 1), (20, 1), (21, 1), (22, 1), (23, 1), (24, 1), (25, 1), (26, 1), (27, 1)])), (idxList (rle [(28, 1), (29, 1), (30, 1), (31, 1), (32, 1), (33, 1), (34, 1), (35, 1), (0, 1), (1, 1), (2, 1), (3, 1), (4, 1), (5, 1), (6, 1), (7, 1)])), (idxList (rle [(8, 1), (9, 1), (10, 1), (11, 1), (12, 1), (13, 1), (14, 1), (15, 1), (16, 1), (17, 1), (18, 1), (19, 1), (20, 1), (21, 1), (22, 1), (23, 1)])), (idxList (rle [(24, 1), (25, 1), (26, 1), (27, 1), (28, 1), (29, 1), (30, 1), (31, 1), (32, 1), (33, 1), (34, 1), (35, 1), (0, 1), (1, 1), (2, 1), (3, 1)])), (idxList (rle [(4, 1), (5, 1), (6, 1), (7, 1), (8, 1), (9, 1), (10, 1), (11, 1), (12, 1), (13, 1), (14, 1), (15, 1), (16, 1), (17, 1), (18, 1), (19, 1)])), (idxList (rle [(20, 1), (21, 1), (22, 1), (23, 1), (24, 1), (25, 1), (26, 1), (27, 1), (28, 1), (29, 1), (30, 1), (31, 1), (32, 1), (33, 1), (34, 1), (35, 1)])), (idxList (rle [(0, 1), (1, 1), (2, 1), (3, 1), (4, 1), (5, 1), (6, 1), (7, 1), (8, 1), (9, 1), (10, 1), (11, 1), (12, 1), (13, 1), (14, 1), (15, 1)])), (idxList (rle [(16, 1), (17, 1), (18, 1), (19, 1), (20, 1), (21, 1), (22, 1), (23, 1), (24, 1), (25, 1), (26, 1), (27, 1), (28, 1), (29, 1), (30, 1), (31, 1)])), (idxList (rle [(32, 1), (33, 1), (34, 1), (35, 1), (16, 1), (17, 1), (18, 1), (19, 1), (20, 1), (21, 1), (22, 1), (23, 1), (24, 1), (25, 1), (26, 1), (27, 1)])), (idxList (rle [(28, 1), (29, 1), (30, 1), (31, 1), (32, 1), (33, 1), (34, 1), (35, 1), (16, 1), (17, 1), (18, 1), (19, 1), (20, 1), (21, 1), (22, 1), (23, 1)]))], 15) := by
  rw [buildLoop_succ scriptG 9 (idxCounter [(0, 3), (1, 3), (2, 3), (3, 3), (4, 3), (5, 3), (6, 3), (7, 3), (8, 3), (9, 3), (10, 3), (11, 3), (12, 4), (13, 4), (14, 4), (15, 4), (16, 6), (17, 6), (18, 6), (19, 6), (20, 6), (21, 6), (22, 6), (23, 6), (24, 5), (25, 5), (26, 5), (27, 5), (28, 5), (29, 5), (30, 5), (31, 5), (32, 5), (33, 5), (34, 5), (35, 5)]) [(idxList (rle [(0, 1), (1, 1), (2, 1), (3, 1), (4, 1), (5, 1), (6, 1), (7, 1), (8, 1), (9, 1), (10, 1), (11, 1), (12, 1), (13, 1), (14, 1), (15, 1)])), (idxList (rle [(0, 1), (1, 1), (2, 1), (3, 1), (4, 1), (5, 1), (6, 1), (7, 1), (8, 1), (9, 1), (10, 1), (11, 1), (12, 1), (13, 1), (14, 1), (15, 1)])), (idxList (rle [(0, 1), (1, 1), (2, 1), (3, 1), (4, 1), (5, 1), (6, 1), (7, 1), (8, 1), (9, 1), (10, 1), (11, 1), (12, 1), (13, 1), (14, 1), (15, 1)])), (idxList (rle [(16, 1), (17, 1), (18, 1), (19, 1), (20, 1), (21, 1), (22, 1), (23, 1), (24, 1), (25, 1), (26, 1), (27, 1), (28, 1), (29, 1), (30, 1), (31, 1)])), (idxList (rle [(32, 1), (33, 1), (34, 1), (35, 1), (0, 1), (1, 1), (2, 1), (3, 1), (4, 1), (5, 1), (6, 1), (7, 1), (8, 1), (9, 1), (10, 1), (11, 1)]))] 5, cexEl5, cexSh5, cexShS5, cexFill5]
  dsimp only
  rw [if_neg (show ¬(idxList (rle [(12, 1), (13, 1), (14, 1), (15, 1), (16, 1), (17, 1), (18, 1), (19, 1), (20, 1), (21, 1), (22, 1), (23, 1), (24, 1), (25, 1), (26, 1), (27, 1)])).length ≠ BOARD_SIZE by decide)]
  exact cexStep6

theorem cexStep4 : buildLoop scriptG 11 (idxCounter [(0, 4), (1, 4), (2, 4), (3, 4), (4, 4), (5, 4), (6, 4), (7, 4), (8, 4), (9, 4), (10, 4), (11, 4), (12, 4), (13, 4), (14, 4), (15, 4), (16, 6), (17, 6), (18, 6), (19, 6), (20, 6), (21, 6), (22, 6), (23, 6), (24, 5), (25, 5), (26, 5), (27, 5), (28, 5), (29, 5), (30, 5), (31, 5), (32, 6), (33, 6), (34, 6), (35, 6)]) [(idxList (rle [(0, 1), (1, 1), (2, 1), (3, 1), (4, 1), (5, 1), (6, 1), (7, 1), (8, 1), (9, 1), (10, 1), (11, 1), (12, 1), (13, 1), (14, 1), (15, 1)])), (idxList (rle [(0, 1), (1, 1), (2, 1), (3, 1), (4, 1), (5, 1), (6, 1), (7, 1), (8, 1), (9, 1), (10, 1), (11, 1), (12, 1), (13, 1), (14, 1), (15, 1)])), (idxList (rle [(0, 1), (1, 1), (2, 1), (3, 1), (4, 1), (5, 1), (6, 1), (7, 1), (8, 1), (9, 1), (10, 1), (11, 1), (12, 1), (13, 1), (14, 1), (15, 1)])), (idxList (rle [(16, 1), (17, 1), (18, 1), (19, 1), (20, 1), (21, 1), (22, 1), (23, 1), (24, 1), (25, 1), (26, 1), (27, 1), (28, 1), (29, 1), (30, 1), (31, 1)]))] 4 = ([(idxList (rle [(0, 1), (1, 1), (2, 1), (3, 1), (4, 1), (5, 1), (6, 1), (7, 1), (8, 1), (9, 1), (10, 1), (11, 1), (12, 1), (13, 1), (14, 1), (15, 1)])), (idxList (rle [(0, 1), (1, 1), (2, 1), (3, 1), (4, 1), (5, 1), (6, 1), (7, 1), (8, 1), (9, 1), (10, 1), (11, 1), (12, 1), (13, 1), (14, 1), (15, 1)])), (idxList (rle [(0, 1), (1, 1), (2, 1), (3, 1), (4, 1), (5, 1), (6, 1), (7, 1), (8, 1), (9, 1), (10, 1), (11, 1), (12, 1), (13, 1), (14, 1), (15, 1)])), (idxList (rle [(16, 1), (17, 1), (18, 1), (19, 1), (20, 1), (21, 1), (22, 1), (23, 1), (24, 1), (25, 1), (26, 1), (27, 1), (28, 1), (29, 1), (30, 1), (31, 1)])), (idxList (rle [(32, 1), (33, 1), (34, 1), (35, 1), (0, 1), (1, 1), (2, 1), (3, 1), (4, 1), (5, 1), (6, 1), (7, 1), (8, 1), (9, 1), (10, 1), (11, 1)])), (idxList (rle [(12, 1), (13, 1), (14, 1), (15, 1), (16, 1), (17, 1), (18, 1), (19, 1), (20, 1), (21, 1), (22, 1), (23, 1), (24, 1), (25, 1), (26, 1), (27, 1)])), (idxList (rle [(28, 1), (29, 1), (30, 1), (31, 1), (32, 1), (33, 1), (34, 1), (35, 1), (0, 1), (1, 1), (2, 1), (3, 1), (4, 1), (5, 1), (6, 1), (7, 1)])), (idxList (rle [(8, 1), (9, 1), (10, 1), (11, 1), (12, 1), (13, 1), (14, 1), (15, 1), (16, 1), (17, 1), (18, 1), (19, 1), (20, 1), (21, 1), (22, 1), (23, 1)])), (idxList (rle [(24, 1), (25, 1), (26, 1), (27, 1), (28, 1), (29, 1), (30, 1), (31, 1), (32, 1), (33, 1), (34, 1), (35, 1), (0, 1), (1, 1), (2, 1), (3, 1)])), (idxList (rle [(4, 1), (5, 1), (6, 1), (7, 1), (8, 1), (9, 1), (10, 1), (11, 1), (12, 1), (13, 1), (14, 1), (15, 1), (16, 1), (17, 1), (18, 1), (19, 1)])), (idxList (rle [(20, 1), (21, 1), (22, 1), (23, 1), (24, 1), (25, 1), (26, 1), (27, 1), (28, 1), (29, 1), (30, 1), (31, 1), (32, 1), (33, 1), (34, 1), (35, 1)])), (idxList (rle [(0, 1), (1, 1), (2, 1), (3, 1), (4, 1), (5, 1), (6, 1), (7, 1), (8, 1), (9, 1), (10, 1), (11, 1), (12, 1), (13, 1), (14, 1), (15, 1)])), (idxList (rle [(16, 1), (17, 1), (18, 1), (19, 1), (20, 1), (21, 1), (22, 1), (23, 1), (24, 1), (25, 1), (26, 1), (27, 1), (28, 1), (29, 1), (30, 1), (31, 1)])), (idxList (rle [(32, 1), (33, 1), (34, 1), (35, 1), (16, 1), (17, 1), (18, 1), (19, 1), (20, 1), (21, 1), (22, 1), (23, 1), (24, 1), (25, 1), (26, 1), (27, 1)])), (idxList (rle [(28, 1), (29, 1), (30, 1), (31, 1), (32, 1), (33, 1), (34, 1), (35, 1), (16, 1), (17, 1), (18, 1), (19, 1), (20, 1), (21, 1), (22, 1), (23, 1)]))], 15) := by
  rw [buildLoop_succ scriptG 10 (idxCounter [(0, 4), (1, 4), (2, 4), (3, 4), (4, 4), (5, 4), (6, 4), (7, 4), (8, 4), (9, 4), (10, 4), (11, 4), (12, 4), (13, 4), (14, 4), (15, 4), (16, 6), (17, 6), (18, 6), (19, 6), (20, 6), (21, 6), (22, 6), (23, 6), (24, 5), (25, 5), (26, 5), (27, 5), (28, 5), (29, 5), (30, 5), (31, 5), (32, 6), (33, 6), (34, 6), (35, 6)]) [(idxList (rle [(0, 1), (1, 1), (2, 1), (3, 1), (4, 1), (5, 1), (6, 1), (7, 1), (8, 1), (9, 1), (10, 1), (11, 1), (12, 1), (13, 1), (14, 1), (15, 1)])), (idxList (rle [(0, 1), (1, 1), (2, 1), (3, 1), (4, 1), (5, 1), (6, 1), (7, 1), (8, 1), (9, 1), (10, 1), (11, 1), (12, 1), (13, 1), (14, 1), (15, 1)])), (idxList (rle [(0, 1), (1, 1), (2, 1), (3, 1), (4, 1), (5, 1), (6, 1), (7, 1), (8, 1), (9, 1), (10, 1), (11, 1), (12, 1), (13, 1), (14, 1), (15, 1)])), (idxList (rle [(16, 1), (17, 1), (18, 1), (19, 1), (20, 1), (21, 1), (22, 1), (23, 1), (24, 1), (25, 1), (26, 1), (27, 1), (28, 1), (29, 1), (30, 1), (31, 1)]))] 4, cexEl4, cexSh4, cexShS4, cexFill4]
  dsimp only
  rw [if_neg (show ¬(idxList (rle [(32, 1), (33, 1), (34, 1), (35, 1), (0, 1), (1, 1), (2, 1), (3, 1), (4, 1), (5, 1), (6, 1), (7, 1), (8, 1), (9, 1), (10, 1), (11, 1)])).length ≠ BOARD_SIZE by decide)]
  exact cexStep5

theorem cexStep3 : buildLoop scriptG 12 (idxCounter [(0, 4), (1, 4), (2, 4), (3, 4), (4, 4), (5, 4), (6, 4), (7, 4), (8, 4), (9, 4), (10, 4), (11, 4), (12, 4), (13, 4), (14, 4), (15, 4), (16, 7), (17, 7), (18, 7), (19, 7), (20, 7), (21, 7), (22, 7), (23, 7), (24, 6), (25, 6), (26, 6), (27, 6), (28, 6), (29, 6), (30, 6), (31, 6), (32, 6), (33, 6), (34, 6), (35, 6)]) [(idxList (rle [(0, 1), (1, 1), (2, 1), (3, 1), (4, 1), (5, 1), (6, 1), (7, 1), (8, 1), (9, 1), (10, 1), (11, 1), (12, 1), (13, 1), (14, 1), (15, 1)])), (idxList (rle [(0, 1), (1, 1), (2, 1), (3, 1), (4, 1), (5, 1), (6, 1), (7, 1), (8, 1), (9, 1), (10, 1), (11, 1), (12, 1), (13, 1), (14, 1), (15, 1)])), (idxList (rle [(0, 1), (1, 1), (2, 1), (3, 1), (4, 1), (5, 1), (6, 1), (7, 1), (8, 1), (9, 1), (10, 1), (11, 1), (12, 1), (13, 1), (14, 1), (15, 1)]))] 3 = ([(idxList (rle [(0, 1), (1, 1), (2, 1), (3, 1), (4, 1), (5, 1), (6, 1), (7, 1), (8, 1), (9, 1), (10, 1), (11, 1), (12, 1), (13, 1), (14, 1), (15, 1)])), (idxList (rle [(0, 1), (1, 1), (2, 1), (3, 1), (4, 1), (5, 1), (6, 1), (7, 1), (8, 1), (9, 1), (10, 1), (11, 1), (12, 1), (13, 1), (14, 1), (15, 1)])), (idxList (rle [(0, 1), (1, 1), (2, 1), (3, 1), (4, 1), (5, 1), (6, 1), (7, 1), (8, 1), (9, 1), (10, 1), (11, 1), (12, 1), (13, 1), (14, 1), (15, 1)])), (idxList (rle [(16, 1), (17, 1), (18, 1), (19, 1), (20, 1), (21, 1), (22, 1), (23, 1), (24, 1), (25, 1), (26, 1), (27, 1), (28, 1), (29, 1), (30, 1), (31, 1)])), (idxList (rle [(32, 1), (33, 1), (34, 1), (35, 1), (0, 1), (1, 1), (2, 1), (3, 1), (4, 1), (5, 1), (6, 1), (7, 1), (8, 1), (9, 1), (10, 1), (11, 1)])), (idxList (rle [(12, 1), (13, 1), (14, 1), (15, 1), (16, 1), (17, 1), (18, 1), (19, 1), (20, 1), (21, 1), (22, 1), (23, 1), (24, 1), (25, 1), (26, 1), (27, 1)])), (idxList (rle [(28, 1), (29, 1), (30, 1), (31, 1), (32, 1), (33, 1), (34, 1), (35, 1), (0, 1), (1, 1), (2, 1), (3, 1), (4, 1), (5, 1), (6, 1), (7, 1)])), (idxList (rle [(8, 1), (9, 1), (10, 1), (11, 1), (12, 1), (13, 1), (14, 1), (15, 1), (16, 1), (17, 1), (18, 1), (19, 1), (20, 1), (21, 1), (22, 1), (23, 1)])), (idxList (rle [(24, 1), (25, 1), (26, 1), (27, 1), (28, 1), (29, 1), (30, 1), (31, 1), (32, 1), (33, 1), (34, 1), (35, 1), (0, 1), (1, 1), (2, 1), (3, 1)])), (idxList (rle [(4, 1), (5, 1), (6, 1), (7, 1), (8, 1), (9, 1), (10, 1), (11, 1), (12, 1), (13, 1), (14, 1), (15, 1), (16, 1), (17, 1), (18, 1), (19, 1)])), (idxList (rle [(20, 1), (21, 1), (22, 1), (23, 1), (24, 1), (25, 1), (26, 1), (27, 1), (28, 1), (29, 1), (30, 1), (31, 1), (32, 1), (33, 1), (34, 1), (35, 1)])), (idxList (rle [(0, 1), (1, 1), (2, 1), (3, 1), (4, 1), (5, 1), (6, 1), (7, 1), (8, 1), (9, 1), (10, 1), (11, 1), (12, 1), (13, 1), (14, 1), (15, 1)])), (idxList (rle [(16, 1), (17, 1), (18, 1), (19, 1), (20, 1), (21, 1), (22, 1), (23, 1), (24, 1), (25, 1), (26, 1), (27, 1), (28, 1), (29, 1), (30, 1), (31, 1)])), (idxList (rle [(32, 1), (33, 1), (34, 1), (35, 1), (16, 1), (17, 1), (18, 1), (19, 1), (20, 1), (21, 1), (22, 1), (23, 1), (24, 1), (25, 1), (26, 1), (27, 1)])), (idxList (rle [(28, 1), (29, 1), (30, 1), (31, 1), (32, 1), (33, 1), (34, 1), (35, 1), (16, 1), (17, 1), (18, 1), (19, 1), (20, 1), (21, 1), (22, 1), (23, 1)]))], 15) := by
  rw [buildLoop_succ scriptG 11 (idxCounter [(0, 4), (1, 4), (2, 4), (3, 4), (4, 4), (5, 4), (6, 4), (7, 4), (8, 4), (9, 4), (10, 4), (11, 4), (12, 4), (13, 4), (14, 4), (15, 4), (16, 7), (17, 7), (18, 7), (19, 7), (20, 7), (21, 7), (22, 7), (23, 7), (24, 6), (25, 6), (26, 6), (27, 6), (28, 6), (29, 6), (30, 6), (31, 6), (32, 6), (33, 6), (34, 6), (35, 6)]) [(idxList (rle [(0, 1), (1, 1), (2, 1), (3, 1), (4, 1), (5, 1), (6, 1), (7, 1), (8, 1), (9, 1), (10, 1), (11, 1), (12, 1), (13, 1), (14, 1), (15, 1)])), (idxList (rle [(0, 1), (1, 1), (2, 1), (3, 1), (4, 1), (5, 1), (6, 1), (7, 1), (8, 1), (9, 1), (10, 1), (11, 1), (12, 1), (13, 1), (14, 1), (15, 1)])), (idxList (rle [(0, 1), (1, 1), (2, 1), (3, 1), (4, 1), (5, 1), (6, 1), (7, 1), (8, 1), (9, 1), (10, 1), (11, 1), (12, 1), (13, 1), (14, 1), (15, 1)]))] 3, cexEl3, cexSh3, cexShS3, cexFill3]
  dsimp only
  rw [if_neg (show ¬(idxList (rle [(16, 1), (17, 1), (18, 1), (19, 1), (20, 1), (21, 1), (22, 1), (23, 1), (24, 1), (25, 1), (26, 1), (27, 1), (28, 1), (29, 1), (30, 1), (31, 1)])).length ≠ BOARD_SIZE by decide)]
  exact cexStep4

theorem cexStep2 : buildLoop scriptG 13 (idxCounter [(0, 5), (1, 5), (2, 5), (3, 5), (4, 5), (5, 5), (6, 5), (7, 5), (8, 5), (9, 5), (10, 5), (11, 5), (12, 5), (13, 5), (14, 5), (15, 5), (16, 7), (17, 7), (18, 7), (19, 7), (20, 7), (21, 7), (22, 7), (23, 7), (24, 6), (25, 6), (26, 6), (27, 6), (28, 6), (29, 6), (30, 6), (31, 6), (32, 6), (33, 6), (34, 6), (35, 6)]) [(idxList (rle [(0, 1), (1, 1), (2, 1), (3, 1), (4, 1), (5, 1), (6, 1), (7, 1), (8, 1), (9, 1), (10, 1), (11, 1), (12, 1), (13, 1), (14, 1), (15, 1)])), (idxList (rle [(0, 1), (1, 1), (2, 1), (3, 1), (4, 1), (5, 1), (6, 1), (7, 1), (8, 1), (9, 1), (10, 1), (11, 1), (12, 1), (13, 1), (14, 1), (15, 1)]))] 2 = ([(idxList (rle [(0, 1), (1, 1), (2, 1), (3, 1), (4, 1), (5, 1), (6, 1), (7, 1), (8, 1), (9, 1), (10, 1), (11, 1), (12, 1), (13, 1), (14, 1), (15, 1)])), (idxList (rle [(0, 1), (1, 1), (2, 1), (3, 1), (4, 1), (5, 1), (6, 1), (7, 1), (8, 1), (9, 1), (10, 1), (11, 1), (12, 1), (13, 1), (14, 1), (15, 1)])), (idxList (rle [(0, 1), (1, 1), (2, 1), (3, 1), (4, 1), (5, 1), (6, 1), (7, 1), (8, 1), (9, 1), (10, 1), (11, 1), (12, 1), (13, 1), (14, 1), (15, 1)])), (idxList (rle [(16, 1), (17, 1), (18, 1), (19, 1), (20, 1), (21, 1), (22, 1), (23, 1), (24, 1), (25, 1), (26, 1), (27, 1), (28, 1), (29, 1), (30, 1), (31, 1)])), (idxList (rle [(32, 1), (33, 1), (34, 1), (35, 1), (0, 1), (1, 1), (2, 1), (3, 1), (4, 1), (5, 1), (6, 1), (7, 1), (8, 1), (9, 1), (10, 1), (11, 1)])), (idxList (rle [(12, 1), (13, 1), (14, 1), (15, 1), (16, 1), (17, 1), (18, 1), (19, 1), (20, 1), (21, 1), (22, 1), (23, 1), (24, 1), (25, 1), (26, 1), (27, 1)])), (idxList (rle [(28, 1), (29, 1), (30, 1), (31, 1), (32, 1), (33, 1), (34, 1), (35, 1), (0, 1), (1, 1), (2, 1), (3, 1), (4, 1), (5, 1), (6, 1), (7, 1)])), (idxList (rle [(8, 1), (9, 1), (10, 1), (11, 1), (12, 1), (13, 1), (14, 1), (15, 1), (16, 1), (17, 1), (18, 1), (19, 1), (20, 1), (21, 1), (22, 1), (23, 1)])), (idxList (rle [(24, 1), (25, 1), (26, 1), (27, 1), (28, 1), (29, 1), (30, 1), (31, 1), (32, 1), (33, 1), (34, 1), (35, 1), (0, 1), (1, 1), (2, 1), (3, 1)])), (idxList (rle [(4, 1), (5, 1), (6, 1), (7, 1), (8, 1), (9, 1), (10, 1), (11, 1), (12, 1), (13, 1), (14, 1), (15, 1), (16, 1), (17, 1), (18, 1), (19, 1)])), (idxList (rle [(20, 1), (21, 1), (22, 1), (23, 1), (24, 1), (25, 1), (26, 1), (27, 1), (28, 1), (29, 1), (30, 1), (31, 1), (32, 1), (33, 1), (34, 1), (35, 1)])), (idxList (rle [(0, 1), (1, 1), (2, 1), (3, 1), (4, 1), (5, 1), (6, 1), (7, 1), (8, 1), (9, 1), (10, 1), (11, 1), (12, 1), (13, 1), (14, 1), (15, 1)])), (idxList (rle [(16, 1), (17, 1), (18, 1), (19, 1), (20, 1), (21, 1), (22, 1), (23, 1), (24, 1), (25, 1), (26, 1), (27, 1), (28, 1), (29, 1), (30, 1), (31, 1)])), (idxList (rle [(32, 1), (33, 1), (34, 1), (35, 1), (16, 1), (17, 1), (18, 1), (19, 1), (20, 1), (21, 1), (22, 1), (23, 1), (24, 1), (25, 1), (26, 1), (27, 1)])), (idxList (rle [(28, 1), (29, 1), (30, 1), (31, 1), (32, 1), (33, 1), (34, 1), (35, 1), (16, 1), (17, 1), (18, 1), (19, 1), (20, 1), (21, 1), (22, 1), (23, 1)]))], 15) := by
  rw [buildLoop_succ scriptG 12 (idxCounter [(0, 5), (1, 5), (2, 5), (3, 5), (4, 5), (5, 5), (6, 5), (7, 5), (8, 5), (9, 5), (10, 5), (11, 5), (12, 5), (13, 5), (14, 5), (15, 5), (16, 7), (17, 7), (18, 7), (19, 7), (20, 7), (21, 7), (22, 7), (23, 7), (24, 6), (25, 6), (26, 6), (27, 6), (28, 6), (29, 6), (30, 6), (31, 6), (32, 6), (33, 6), (34, 6), (35, 6)]) [(idxList (rle [(0, 1), (1, 1), (2, 1), (3, 1), (4, 1), (5, 1), (6, 1), (7, 1), (8, 1), (9, 1), (10, 1), (11, 1), (12, 1), (13, 1), (14, 1), (15, 1)])), (idxList (rle [(0, 1), (1, 1), (2, 1), (3, 1), (4, 1), (5, 1), (6, 1), (7, 1), (8, 1), (9, 1), (10, 1), (11, 1), (12, 1), (13, 1), (14, 1), (15, 1)]))] 2, cexEl2, cexSh2, cexShS2, cexFill2]
  dsimp only
  rw [if_neg (show ¬(idxList (rle [(0, 1), (1, 1), (2, 1), (3, 1), (4, 1), (5, 1), (6, 1), (7, 1), (8, 1), (9, 1), (10, 1), (11, 1), (12, 1), (13, 1), (14, 1), (15, 1)])).length ≠ BOARD_SIZE by decide)]
  exact cexStep3

theorem cexStep1 : buildLoop scriptG 14 (idxCounter [(0, 6), (1, 6), (2, 6), (3, 6), (4, 6), (5, 6), (6, 6), (7, 6), (8, 6), (9, 6), (10, 6), (11, 6), (12, 6), (13, 6), (14, 6), (15, 6), (16, 7), (17, 7), (18, 7), (19, 7), (20, 7), (21, 7), (22, 7), (23, 7), (24, 6), (25, 6), (26, 6), (27, 6), (28, 6), (29, 6), (30, 6), (31, 6), (32, 6), (33, 6), (34, 6), (35, 6)]) [(idxList (rle [(0, 1), (1, 1), (2, 1), (3, 1), (4, 1), (5, 1), (6, 1), (7, 1), (8, 1), (9, 1), (10, 1), (11, 1), (12, 1), (13, 1), (14, 1), (15, 1)]))] 1 = ([(idxList (rle [(0, 1), (1, 1), (2, 1), (3, 1), (4, 1), (5, 1), (6, 1), (7, 1), (8, 1), (9, 1), (10, 1), (11, 1), (12, 1), (13, 1), (14, 1), (15, 1)])), (idxList (rle [(0, 1), (1, 1), (2, 1), (3, 1), (4, 1), (5, 1), (6, 1), (7, 1), (8, 1), (9, 1), (10, 1), (11, 1), (12, 1), (13, 1), (14, 1), (15, 1)])), (idxList (rle [(0, 1), (1, 1), (2, 1), (3, 1), (4, 1), (5, 1), (6, 1), (7, 1), (8, 1), (9, 1), (10, 1), (11, 1), (12, 1), (13, 1), (14, 1), (15, 1)])), (idxList (rle [(16, 1), (17, 1), (18, 1), (19, 1), (20, 1), (21, 1), (22, 1), (23, 1), (24, 1), (25, 1), (26, 1), (27, 1), (28, 1), (29, 1), (30, 1), (31, 1)])), (idxList (rle [(32, 1), (33, 1), (34, 1), (35, 1), (0, 1), (1, 1), (2, 1), (3, 1), (4, 1), (5, 1), (6, 1), (7, 1), (8, 1), (9, 1), (10, 1), (11, 1)])), (idxList (rle [(12, 1), (13, 1), (14, 1), (15, 1), (16, 1), (17, 1), (18, 1), (19, 1), (20, 1), (21, 1), (22, 1), (23, 1), (24, 1), (25, 1), (26, 1), (27, 1)])), (idxList (rle [(28, 1), (29, 1), (30, 1), (31, 1), (32, 1), (33, 1), (34, 1), (35, 1), (0, 1), (1, 1), (2, 1), (3, 1), (4, 1), (5, 1), (6, 1), (7, 1)])), (idxList (rle [(8, 1), (9, 1), (10, 1), (11, 1), (12, 1), (13, 1), (14, 1), (15, 1), (16, 1), (17, 1), (18, 1), (19, 1), (20, 1), (21, 1), (22, 1), (23, 1)])), (idxList (rle [(24, 1), (25, 1), (26, 1), (27, 1), (28, 1), (29, 1), (30, 1), (31, 1), (32, 1), (33, 1), (34, 1), (35, 1), (0, 1), (1, 1), (2, 1), (3, 1)])), (idxList (rle [(4, 1), (5, 1), (6, 1), (7, 1), (8, 1), (9, 1), (10, 1), (11, 1), (12, 1), (13, 1), (14, 1), (15, 1), (16, 1), (17, 1), (18, 1), (19, 1)])), (idxList (rle [(20, 1), (21, 1), (22, 1), (23, 1), (24, 1), (25, 1), (26, 1), (27, 1), (28, 1), (29, 1), (30, 1), (31, 1), (32, 1), (33, 1), (34, 1), (35, 1)])), (idxList (rle [(0, 1), (1, 1), (2, 1), (3, 1), (4, 1), (5, 1), (6, 1), (7, 1), (8, 1), (9, 1), (10, 1), (11, 1), (12, 1), (13, 1), (14, 1), (15, 1)])), (idxList (rle [(16, 1), (17, 1), (18, 1), (19, 1), (20, 1), (21, 1), (22, 1), (23, 1), (24, 1), (25, 1), (26, 1), (27, 1), (28, 1), (29, 1), (30, 1), (31, 1)])), (idxList (rle [(32, 1), (33, 1), (34, 1), (35, 1), (16, 1), (17, 1), (18, 1), (19, 1), (20, 1), (21, 1), (22, 1), (23, 1), (24, 1), (25, 1), (26, 1), (27, 1)])), (idxList (rle [(28, 1), (29, 1), (30, 1), (31, 1), (32, 1), (33, 1), (34, 1), (35, 1), (16, 1), (17, 1), (18, 1), (19, 1), (20, 1), (21, 1), (22, 1), (23, 1)]))], 15) := by
  rw [buildLoop_succ scriptG 13 (idxCounter [(0, 6), (1, 6), (2, 6), (3, 6), (4, 6), (5, 6), (6, 6), (7, 6), (8, 6), (9, 6), (10, 6), (11, 6), (12, 6), (13, 6), (14, 6), (15, 6), (16, 7), (17, 7), (18, 7), (19, 7), (20, 7), (21, 7), (22, 7), (23, 7), (24, 6), (25, 6), (26, 6), (27, 6), (28, 6), (29, 6), (30, 6), (31, 6), (32, 6), (33, 6), (34, 6), (35, 6)]) [(idxList (rle [(0, 1), (1, 1), (2, 1), (3, 1), (4, 1), (5, 1), (6, 1), (7, 1), (8, 1), (9, 1), (10, 1), (11, 1), (12, 1), (13, 1), (14, 1), (15, 1)]))] 1, cexEl1, cexSh1, cexShS1, cexFill1]
  dsimp only
  rw [if_neg (show ¬(idxList (rle [(0, 1), (1, 1), (2, 1), (3, 1), (4, 1), (5, 1), (6, 1), (7, 1), (8, 1), (9, 1), (10, 1), (11, 1), (12, 1), (13, 1), (14, 1), (15, 1)])).length ≠ BOARD_SIZE by decide)]
  exact cexStep2

theorem cexStep0 : buildLoop scriptG 15 (idxCounter [(0, 7), (1, 7), (2, 7), (3, 7), (4, 7), (5, 7), (6, 7), (7, 7), (8, 7), (9, 7), (10, 7), (11, 7), (12, 7), (13, 7), (14, 7), (15, 7), (16, 7), (17, 7), (18, 7), (19, 7), (20, 7), (21, 7), (22, 7), (23, 7), (24, 6), (25, 6), (26, 6), (27, 6), (28, 6), (29, 6), (30, 6), (31, 6), (32, 6), (33, 6), (34, 6), (35, 6)]) [] 0 = ([(idxList (rle [(0, 1), (1, 1), (2, 1), (3, 1), (4, 1), (5, 1), (6, 1), (7, 1), (8, 1), (9, 1), (10, 1), (11, 1), (12, 1), (13, 1), (14, 1), (15, 1)])), (idxList (rle [(0, 1), (1, 1), (2, 1), (3, 1), (4, 1), (5, 1), (6, 1), (7, 1), (8, 1), (9, 1), (10, 1), (11, 1), (12, 1), (13, 1), (14, 1), (15, 1)])), (idxList (rle [(0, 1), (1, 1), (2, 1), (3, 1), (4, 1), (5, 1), (6, 1), (7, 1), (8, 1), (9, 1), (10, 1), (11, 1), (12, 1), (13, 1), (14, 1), (15, 1)])), (idxList (rle [(16, 1), (17, 1), (18, 1), (19, 1), (20, 1), (21, 1), (22, 1), (23, 1), (24, 1), (25, 1), (26, 1), (27, 1), (28, 1), (29, 1), (30, 1), (31, 1)])), (idxList (rle [(32, 1), (33, 1), (34, 1), (35, 1), (0, 1), (1, 1), (2, 1), (3, 1), (4, 1), (5, 1), (6, 1), (7, 1), (8, 1), (9, 1), (10, 1), (11, 1)])), (idxList (rle [(12, 1), (13, 1), (14, 1), (15, 1), (16, 1), (17, 1), (18, 1), (19, 1), (20, 1), (21, 1), (22, 1), (23, 1), (24, 1), (25, 1), (26, 1), (27, 1)])), (idxList (rle [(28, 1), (29, 1), (30, 1), (31, 1), (32, 1), (33, 1), (34, 1), (35, 1), (0, 1), (1, 1), (2, 1), (3, 1), (4, 1), (5, 1), (6, 1), (7, 1)])), (idxList (rle [(8, 1), (9, 1), (10, 1), (11, 1), (12, 1), (13, 1), (14, 1), (15, 1), (16, 1), (17, 1), (18, 1), (19, 1), (20, 1), (21, 1), (22, 1), (23, 1)])), (idxList (rle [(24, 1), (25, 1), (26, 1), (27, 1), (28, 1), (29, 1), (30, 1), (31, 1), (32, 1), (33, 1), (34, 1), (35, 1), (0, 1), (1, 1), (2, 1), (3, 1)])), (idxList (rle [(4, 1), (5, 1), (6, 1), (7, 1), (8, 1), (9, 1), (10, 1), (11, 1), (12, 1), (13, 1), (14, 1), (15, 1), (16, 1), (17, 1), (18, 1), (19, 1)])), (idxList (rle [(20, 1), (21, 1), (22, 1), (23, 1), (24, 1), (25, 1), (26, 1), (27, 1), (28, 1), (29, 1), (30, 1), (31, 1), (32, 1), (33, 1), (34, 1), (35, 1)])), (idxList (rle [(0, 1), (1, 1), (2, 1), (3, 1), (4, 1), (5, 1), (6, 1), (7, 1), (8, 1), (9, 1), (10, 1), (11, 1), (12, 1), (13, 1), (14, 1), (15, 1)])), (idxList (rle [(16, 1), (17, 1), (18, 1), (19, 1), (20, 1), (21, 1), (22, 1), (23, 1), (24, 1), (25, 1), (26, 1), (27, 1), (28, 1), (29, 1), (30, 1), (31, 1)])), (idxList (rle [(32, 1), (33, 1), (34, 1), (35, 1), (16, 1), (17, 1), (18, 1), (19, 1), (20, 1), (21, 1), (22, 1), (23, 1), (24, 1), (25, 1), (26, 1), (27, 1)])), (idxList (rle [(28, 1), (29, 1), (30, 1), (31, 1), (32, 1), (33, 1), (34, 1), (35, 1), (16, 1), (17, 1), (18, 1), (19, 1), (20, 1), (21, 1), (22, 1), (23, 1)]))], 15) := by
  rw [buildLoop_succ scriptG 14 (idxCounter [(0, 7), (1, 7), (2, 7), (3, 7), (4, 7), (5, 7), (6, 7), (7, 7), (8, 7), (9, 7), (10, 7), (11, 7), (12, 7), (13, 7), (14, 7), (15, 7), (16, 7), (17, 7), (18, 7), (19, 7), (20, 7), (21, 7), (22, 7), (23, 7), (24, 6), (25, 6), (26, 6), (27, 6), (28, 6), (29, 6), (30, 6), (31, 6), (32, 6), (33, 6), (34, 6), (35, 6)]) [] 0, cexEl0, cexSh0, cexShS0, cexFill0]
  dsimp only
  rw [if_neg (show ¬(idxList (rle [(0, 1), (1, 1), (2, 1), (3, 1), (4, 1), (5, 1), (6, 1), (7, 1), (8, 1), (9, 1), (10, 1), (11, 1), (12, 1), (13, 1), (14, 1), (15, 1)])).length ≠ BOARD_SIZE by decide)]
  exact cexStep1

theorem cexTry : tryAttempt scriptG create_master_pool 0 = (Except.ok (some [(idxList (rle [(0, 1), (1, 1), (2, 1), (3, 1), (4, 1), (5, 1), (6, 1), (7, 1), (8, 1), (9, 1), (10, 1), (11, 1), (12, 1), (13, 1), (14, 1), (15, 1)])), (idxList (rle [(0, 1), (1, 1), (2, 1), (3, 1), (4, 1), (5, 1), (6, 1), (7, 1), (8, 1), (9, 1), (10, 1), (11, 1), (12, 1), (13, 1), (14, 1), (15, 1)])), (idxList (rle [(0, 1), (1, 1), (2, 1), (3, 1), (4, 1), (5, 1), (6, 1), (7, 1), (8, 1), (9, 1), (10, 1), (11, 1), (12, 1), (13, 1), (14, 1), (15, 1)])), (idxList (rle [(16, 1), (17, 1), (18, 1), (19, 1), (20, 1), (21, 1), (22, 1), (23, 1), (24, 1), (25, 1), (26, 1), (27, 1), (28, 1), (29, 1), (30, 1), (31, 1)])), (idxList (rle [(32, 1), (33, 1), (34, 1), (35, 1), (0, 1), (1, 1), (2, 1), (3, 1), (4, 1), (5, 1), (6, 1), (7, 1), (8, 1), (9, 1), (10, 1), (11, 1)])), (idxList (rle [(12, 1), (13, 1), (14, 1), (15, 1), (16, 1), (17, 1), (18, 1), (19, 1), (20, 1), (21, 1), (22, 1), (23, 1), (24, 1), (25, 1), (26, 1), (27, 1)])), (idxList (rle [(28, 1), (29, 1), (30, 1), (31, 1), (32, 1), (33, 1), (34, 1), (35, 1), (0, 1), (1, 1), (2, 1), (3, 1), (4, 1), (5, 1), (6, 1), (7, 1)])), (idxList (rle [(8, 1), (9, 1), (10, 1), (11, 1), (12, 1), (13, 1), (14, 1), (15, 1), (16, 1), (17, 1), (18, 1), (19, 1), (20, 1), (21, 1), (22, 1), (23, 1)])), (idxList (rle [(24, 1), (25, 1), (26, 1), (27, 1), (28, 1), (29, 1), (30, 1), (31, 1), (32, 1), (33, 1), (34, 1), (35, 1), (0, 1), (1, 1), (2, 1), (3, 1)])), (idxList (rle [(4, 1), (5, 1), (6, 1), (7, 1), (8, 1), (9, 1), (10, 1), (11, 1), (12, 1), (13, 1), (14, 1), (15, 1), (16, 1), (17, 1), (18, 1), (19, 1)])), (idxList (rle [(20, 1), (21, 1), (22, 1), (23, 1), (24, 1), (25, 1), (26, 1), (27, 1), (28, 1), (29, 1), (30, 1), (31, 1), (32, 1), (33, 1), (34, 1), (35, 1)])), (idxList (rle [(0, 1), (1, 1), (2, 1), (3, 1), (4, 1), (5, 1), (6, 1), (7, 1), (8, 1), (9, 1), (10, 1), (11, 1), (12, 1), (13, 1), (14, 1), (15, 1)])), (idxList (rle [(16, 1), (17, 1), (18, 1), (19, 1), (20, 1), (21, 1), (22, 1), (23, 1), (24, 1), (25, 1), (26, 1), (27, 1), (28, 1), (29, 1), (30, 1), (31, 1)])), (idxList (rle [(32, 1), (33, 1), (34, 1), (35, 1), (16, 1), (17, 1), (18, 1), (19, 1), (20, 1), (21, 1), (22, 1), (23, 1), (24, 1), (25, 1), (26, 1), (27, 1)])), (idxList (rle [(28, 1), (29, 1), (30, 1), (31, 1), (32, 1), (33, 1), (34, 1), (35, 1), (16, 1), (17, 1), (18, 1), (19, 1), (20, 1), (21, 1), (22, 1), (23, 1)]))]), 15) := by
  rw [tryAttempt_eq, cexMk]
  simp only [NUM_BOARDS]
  rw [cexStep0]
  rfl

theorem cexRunEq : generate_boards scriptG create_master_pool 1 0 = (Except.ok [(idxList (rle [(0, 1), (1, 1), (2, 1), (3, 1), (4, 1), (5, 1), (6, 1), (7, 1), (8, 1), (9, 1), (10, 1), (11, 1), (12, 1), (13, 1), (14, 1), (15, 1)])), (idxList (rle [(0, 1), (1, 1), (2, 1), (3, 1), (4, 1), (5, 1), (6, 1), (7, 1), (8, 1), (9, 1), (10, 1), (11, 1), (12, 1), (13, 1), (14, 1), (15, 1)])), (idxList (rle [(0, 1), (1, 1), (2, 1), (3, 1), (4, 1), (5, 1), (6, 1), (7, 1), (8, 1), (9, 1), (10, 1), (11, 1), (12, 1), (13, 1), (14, 1), (15, 1)])), (idxList (rle [(16, 1), (17, 1), (18, 1), (19, 1), (20, 1), (21, 1), (22, 1), (23, 1), (24, 1), (25, 1), (26, 1), (27, 1), (28, 1), (29, 1), (30, 1), (31, 1)])), (idxList (rle [(32, 1), (33, 1), (34, 1), (35, 1), (0, 1), (1, 1), (2, 1), (3, 1), (4, 1), (5, 1), (6, 1), (7, 1), (8, 1), (9, 1), (10, 1), (11, 1)])), (idxList (rle [(12, 1), (13, 1), (14, 1), (15, 1), (16, 1), (17, 1), (18, 1), (19, 1), (20, 1), (21, 1), (22, 1), (23, 1), (24, 1), (25, 1), (26, 1), (27, 1)])), (idxList (rle [(28, 1), (29, 1), (30, 1), (31, 1), (32, 1), (33, 1), (34, 1), (35, 1), (0, 1), (1, 1), (2, 1), (3, 1), (4, 1), (5, 1), (6, 1), (7, 1)])), (idxList (rle [(8, 1), (9, 1), (10, 1), (11, 1), (12, 1), (13, 1), (14, 1), (15, 1), (16, 1), (17, 1), (18, 1), (19, 1), (20, 1), (21, 1), (22, 1), (23, 1)])), (idxList (rle [(24, 1), (25, 1), (26, 1), (27, 1), (28, 1), (29, 1), (30, 1), (31, 1), (32, 1), (33, 1), (34, 1), (35, 1), (0, 1), (1, 1), (2, 1), (3, 1)])), (idxList (rle [(4, 1), (5, 1), (6, 1), (7, 1), (8, 1), (9, 1), (10, 1), (11, 1), (12, 1), (13, 1), (14, 1), (15, 1), (16, 1), (17, 1), (18, 1), (19, 1)])), (idxList (rle [(20, 1), (21, 1), (22, 1), (23, 1), (24, 1), (25, 1), (26, 1), (27, 1), (28, 1), (29, 1), (30, 1), (31, 1), (32, 1), (33, 1), (34, 1), (35, 1)])), (idxList (rle [(0, 1), (1, 1), (2, 1), (3, 1), (4, 1), (5, 1), (6, 1), (7, 1), (8, 1), (9, 1), (10, 1), (11, 1), (12, 1), (13, 1), (14, 1), (15, 1)])), (idxList (rle [(16, 1), (17, 1), (18, 1), (19, 1), (20, 1), (21, 1), (22, 1), (23, 1), (24, 1), (25, 1), (26, 1), (27, 1), (28, 1), (29, 1), (30, 1), (31, 1)])), (idxList (rle [(32, 1), (33, 1), (34, 1), (35, 1), (16, 1), (17, 1), (18, 1), (19, 1), (20, 1), (21, 1), (22, 1), (23, 1), (24, 1), (25, 1), (26, 1), (27, 1)])), (idxList (rle [(28, 1), (29, 1), (30, 1), (31, 1), (32, 1), (33, 1), (34, 1), (35, 1), (16, 1), (17, 1), (18, 1), (19, 1), (20, 1), (21, 1), (22, 1), (23, 1)]))], 15) := by
  unfold generate_boards
  exact genLoop_succ_ok (tryAttempt scriptG create_master_pool) 1 0 0 15 [(idxList (rle [(0, 1), (1, 1), (2, 1), (3, 1), (4, 1), (5, 1), (6, 1), (7, 1), (8, 1), (9, 1), (10, 1), (11, 1), (12, 1), (13, 1), (14, 1), (15, 1)])), (idxList (rle [(0, 1), (1, 1), (2, 1), (3, 1), (4, 1), (5, 1), (6, 1), (7, 1), (8, 1), (9, 1), (10, 1), (11, 1), (12, 1), (13, 1), (14, 1), (15, 1)])), (idxList (rle [(0, 1), (1, 1), (2, 1), (3, 1), (4, 1), (5, 1), (6, 1), (7, 1), (8, 1), (9, 1), (10, 1), (11, 1), (12, 1), (13, 1), (14, 1), (15, 1)])), (idxList (rle [(16, 1), (17, 1), (18, 1), (19, 1), (20, 1), (21, 1), (22, 1), (23, 1), (24, 1), (25, 1), (26, 1), (27, 1), (28, 1), (29, 1), (30, 1), (31, 1)])), (idxList (rle [(32, 1), (33, 1), (34, 1), (35, 1), (0, 1), (1, 1), (2, 1), (3, 1), (4, 1), (5, 1), (6, 1), (7, 1), (8, 1), (9, 1), (10, 1), (11, 1)])), (idxList (rle [(12, 1), (13, 1), (14, 1), (15, 1), (16, 1), (17, 1), (18, 1), (19, 1), (20, 1), (21, 1), (22, 1), (23, 1), (24, 1), (25, 1), (26, 1), (27, 1)])), (idxList (rle [(28, 1), (29, 1), (30, 1), (31, 1), (32, 1), (33, 1), (34, 1), (35, 1), (0, 1), (1, 1), (2, 1), (3, 1), (4, 1), (5, 1), (6, 1), (7, 1)])), (idxList (rle [(8, 1), (9, 1), (10, 1), (11, 1), (12, 1), (13, 1), (14, 1), (15, 1), (16, 1), (17, 1), (18, 1), (19, 1), (20, 1), (21, 1), (22, 1), (23, 1)])), (idxList (rle [(24, 1), (25, 1), (26, 1), (27, 1), (28, 1), (29, 1), (30, 1), (31, 1), (32, 1), (33, 1), (34, 1), (35, 1), (0, 1), (1, 1), (2, 1), (3, 1)])), (idxList (rle [(4, 1), (5, 1), (6, 1), (7, 1), (8, 1), (9, 1), (10, 1), (11, 1), (12, 1), (13, 1), (14, 1), (15, 1), (16, 1), (17, 1), (18, 1), (19, 1)])), (idxList (rle [(20, 1), (21, 1), (22, 1), (23, 1), (24, 1), (25, 1), (26, 1), (27, 1), (28, 1), (29, 1), (30, 1), (31, 1), (32, 1), (33, 1), (34, 1), (35, 1)])), (idxList (rle [(0, 1), (1, 1), (2, 1), (3, 1), (4, 1), (5, 1), (6, 1), (7, 1), (8, 1), (9, 1), (10, 1), (11, 1), (12, 1), (13, 1), (14, 1), (15, 1)])), (idxList (rle [(16, 1), (17, 1), (18, 1), (19, 1), (20, 1), (21, 1), (22, 1), (23, 1), (24, 1), (25, 1), (26, 1), (27, 1), (28, 1), (29, 1), (30, 1), (31, 1)])), (idxList (rle [(32, 1), (33, 1), (34, 1), (35, 1), (16, 1), (17, 1), (18, 1), (19, 1), (20, 1), (21, 1), (22, 1), (23, 1), (24, 1), (25, 1), (26, 1), (27, 1)])), (idxList (rle [(28, 1), (29, 1), (30, 1), (31, 1), (32, 1), (33, 1), (34, 1), (35, 1), (16, 1), (17, 1), (18, 1), (19, 1), (20, 1), (21, 1), (22, 1), (23, 1)]))] cexTry

set_option maxRecDepth 2000 in
theorem cexBoardsEq : cexChunks = [(idxList (rle [(0, 1), (1, 1), (2, 1), (3, 1), (4, 1), (5, 1), (6, 1), (7, 1), (8, 1), (9, 1), (10, 1), (11, 1), (12, 1), (13, 1), (14, 1), (15, 1)])), (idxList (rle [(0, 1), (1, 1), (2, 1), (3, 1), (4, 1), (5, 1), (6, 1), (7, 1), (8, 1), (9, 1), (10, 1), (11, 1), (12, 1), (13, 1), (14, 1), (15, 1)])), (idxList (rle [(0, 1), (1, 1), (2, 1), (3, 1), (4, 1), (5, 1), (6, 1), (7, 1), (8, 1), (9, 1), (10, 1), (11, 1), (12, 1), (13, 1), (14, 1), (15, 1)])), (idxList (rle [(16, 1), (17, 1), (18, 1), (19, 1), (20, 1), (21, 1), (22, 1), (23, 1), (24, 1), (25, 1), (26, 1), (27, 1), (28, 1), (29, 1), (30, 1), (31, 1)])), (idxList (rle [(32, 1), (33, 1), (34, 1), (35, 1), (0, 1), (1, 1), (2, 1), (3, 1), (4, 1), (5, 1), (6, 1), (7, 1), (8, 1), (9, 1), (10, 1), (11, 1)])), (idxList (rle [(12, 1), (13, 1), (14, 1), (15, 1), (16, 1), (17, 1), (18, 1), (19, 1), (20, 1), (21, 1), (22, 1), (23, 1), (24, 1), (25, 1), (26, 1), (27, 1)])), (idxList (rle [(28, 1), (29, 1), (30, 1), (31, 1), (32, 1), (33, 1), (34, 1), (35, 1), (0, 1), (1, 1), (2, 1), (3, 1), (4, 1), (5, 1), (6, 1), (7, 1)])), (idxList (rle [(8, 1), (9, 1), (10, 1), (11, 1), (12, 1), (13, 1), (14, 1), (15, 1), (16, 1), (17, 1), (18, 1), (19, 1), (20, 1), (21, 1), (22, 1), (23, 1)])), (idxList (rle [(24, 1), (25, 1), (26, 1), (27, 1), (28, 1), (29, 1), (30, 1), (31, 1), (32, 1), (33, 1), (34, 1), (35, 1), (0, 1), (1, 1), (2, 1), (3, 1)])), (idxList (rle [(4, 1), (5, 1), (6, 1), (7, 1), (8, 1), (9, 1), (10, 1), (11, 1), (12, 1), (13, 1), (14, 1), (15, 1), (16, 1), (17, 1), (18, 1), (19, 1)])), (idxList (rle [(20, 1), (21, 1), (22, 1), (23, 1), (24, 1), (25, 1), (26, 1), (27, 1), (28, 1), (29, 1), (30, 1), (31, 1), (32, 1), (33, 1), (34, 1), (35, 1)])), (idxList (rle [(0, 1), (1, 1), (2, 1), (3, 1), (4, 1), (5, 1), (6, 1), (7, 1), (8, 1), (9, 1), (10, 1), (11, 1), (12, 1), (13, 1), (14, 1), (15, 1)])), (idxList (rle [(16, 1), (17, 1), (18, 1), (19, 1), (20, 1), (21, 1), (22, 1), (23, 1), (24, 1), (25, 1), (26, 1), (27, 1), (28, 1), (29, 1), (30, 1), (31, 1)])), (idxList (rle [(32, 1), (33, 1), (34, 1), (35, 1), (16, 1), (17, 1), (18, 1), (19, 1), (20, 1), (21, 1), (22, 1), (23, 1), (24, 1), (25, 1), (26, 1), (27, 1)])), (idxList (rle [(28, 1), (29, 1), (30, 1), (31, 1), (32, 1), (33, 1), (34, 1), (35, 1), (16, 1), (17, 1), (18, 1), (19, 1), (20, 1), (21, 1), (22, 1), (23, 1)]))] := by decide

/-- C3 counterexample: `generate_boards` can return a list in which distinct
boards have identical item content.  The scripted shuffle produces a
permutation of its input on every call (so it is a possible outcome of
`random.shuffle`), yet the run on the reference pool returns 15 full boards
whose first two boards are the same 16 items; nothing in `generate_boards`
rejects such a list. -/
theorem inter_board_distinctness_cex :
    (∀ (n : Nat) (l : List String), ((scriptG n l).1).Perm l) ∧
    (generate_boards scriptG create_master_pool 1 0).1 = Except.ok cexChunks ∧
    cexChunks.length = 15 ∧
    cexChunks.getD 0 [] = cexChunks.getD 1 [] ∧
    (cexChunks.getD 0 []).length = 16 := by
  refine ⟨scriptG_perm, ?_, ?_, ?_, ?_⟩
  · rw [cexRunEq, cexBoardsEq]
  · set_option maxRecDepth 2000 in decide
  · set_option maxRecDepth 2000 in decide
  · set_option maxRecDepth 2000 in decide

/-- C3 amended: inter-board distinctness is not enforced by
`generate_boards` itself — a permutation-valid shuffle sequence can make it
return a list containing two boards with identical item sets.  The property
is only validated post hoc by `run_tests` TEST 3, whose check (modelled by
`test3Check`) holds exactly when the boards' item sets are pairwise
distinct, and which therefore rejects such a returned list. -/
theorem inter_board_distinctness_amended :
    (∀ (bs : List (List String)),
      test3Check bs = true ↔ (bs.map (fun b => b.toFinset)).Nodup) ∧
    (generate_boards scriptG create_master_pool 1 0).1 = Except.ok cexChunks ∧
    test3Check cexChunks = false := by
  refine ⟨?_, ?_, ?_⟩
  · intro bs
    simp only [test3Check, beq_iff_eq]
    exact dedup_length_eq_iff _
  · rw [cexRunEq, cexBoardsEq]
  · set_option maxRecDepth 2000 in decide

end Loteria
